import Mathlib

/-!
The expectation engine of `comock/comock.h`.

A shallow embedding of the header-only mock library.  The C++ state
(`Repo`, `RepoState`, `ExpectedCallbackQueue`, `FallbackCallbacks`) becomes
plain data; every member function becomes a function on that data.

Conventions of the embedding

* A mock object is identified by its address (`reinterpret_cast<uintptr_t>`),
  a `Nat`.  Addresses are only ever compared, never computed with.
* A pointer to member function stored in a `std::any` is a `Method`: the
  static pointer type together with the pointer value.  `std::any_cast`
  succeeds exactly when the static type agrees.
* A stored `std::function` is a `Callback` handle; what the callable does
  when invoked is given by an environment `Env`.  A callable receives the
  whole `World` (the repository and the user's own state), so it may re-enter
  the repository, and it may throw.  Registered callables are non-empty
  `std::function` objects; the empty `std::function` only occurs as the
  "not found" answer of `FallbackCallbacks::getInternal` (`none`).
* The `std::function` type stored next to a method pointer is fixed by the
  method pointer type (template parameters of `push` and `add`), so the
  `any_cast` of a callback whose method pointer has just been matched cannot
  fail and is not modelled as fallible.
* Every dispatch also reports the list of callables it invoked itself
  (`Event`), in order.  This list is not program state; it is what the
  statements about "invoked exactly once" talk about.
-/

namespace comock

/-- Exceptions that can travel through the library: the `std::invalid_argument`
thrown by `Repo::expectedCallInternal`, and anything thrown by user code. -/
inductive Exn where
  | invalid_argument (what : String)
  | thrown (tag : Nat)
deriving DecidableEq, Repr

/-- Static type of a pointer to member function
`ReturnType (MockedType::*)(Args...) [const]`. -/
structure MethodType where
  mockedType : String
  returnType : String
  argTypes : List String
  isConst : Bool
deriving DecidableEq, Repr

/-- A `std::any` that holds a pointer to member function: the static type of
the pointer and the pointer value (which member it designates). -/
structure Method where
  type : MethodType
  ptr : Nat
deriving DecidableEq, Repr

/-- Pointer form of `std::any_cast<Method>(&any)`: the stored pointer value when
the stored static type is exactly the requested one, a null pointer otherwise. -/
def Method.any_cast (requested : MethodType) (stored : Method) : Option Nat :=
  if stored.type = requested then some stored.ptr else none

/-- Handle of a stored, non-empty `std::function<ReturnType(Args...)>`. -/
abbrev Callback := Nat

/-- Handle of a callable installed in one of the two handler slots. -/
abbrev Handler := Nat

/-- One element of `ExpectedCallbackQueue::callbacks_`:
`std::tuple<std::string, uintptr_t, std::any, std::any>`. -/
structure Expectation where
  description : String
  mock : Nat
  method : Method
  callback : Callback
deriving DecidableEq, Repr

/-- The class `ExpectedCallbackQueue`; `callbacks_` is the `std::deque`, front first. -/
structure ExpectedCallbackQueue where
  callbacks_ : List Expectation
deriving DecidableEq, Repr

namespace ExpectedCallbackQueue

/-- Member function `ExpectedCallbackQueue::push` (both overloads): `callbacks_.push_back(...)`. -/
def push (self : ExpectedCallbackQueue) (description : String) (mock : Nat)
    (method : Method) (callback : Callback) : ExpectedCallbackQueue :=
  { callbacks_ := self.callbacks_ ++ [⟨description, mock, method, callback⟩] }

/-- Member function `ExpectedCallbackQueue::pop`: `callbacks_.pop_front()`. -/
def pop (self : ExpectedCallbackQueue) : ExpectedCallbackQueue :=
  { callbacks_ := self.callbacks_.tail }

/-- Member function `ExpectedCallbackQueue::isEmpty`. -/
def isEmpty (self : ExpectedCallbackQueue) : Bool :=
  self.callbacks_.isEmpty

/-- Member function `ExpectedCallbackQueue::matchInternal`.  On an empty deque `front()` is
undefined in C++; every caller checks `isEmpty` first, and the embedding
answers `false` there. -/
def matchInternal (self : ExpectedCallbackQueue) (mock : Nat) (method : Method) : Bool :=
  match self.callbacks_ with
  | [] => false
  | front :: _ =>
    let expected_mock := front.mock
    if expected_mock != mock then
      false
    else
      match Method.any_cast method.type front.method with
      | none => false
      | some expected_method =>
        if expected_method != method.ptr then false else true

/-- Member function `ExpectedCallbackQueue::peekMatch` (both overloads). -/
def peekMatch (self : ExpectedCallbackQueue) (mock : Nat) (method : Method) : Bool :=
  self.matchInternal mock method

/-- Member function `ExpectedCallbackQueue::peekDescription`; the empty string stands for the
undefined `front()` of an empty deque, which no caller reaches. -/
def peekDescription (self : ExpectedCallbackQueue) : String :=
  match self.callbacks_ with
  | [] => ""
  | front :: _ => front.description

/-- Member function `ExpectedCallbackQueue::peekCallback`; handle `0` stands for the undefined
`front()` of an empty deque, which no caller reaches. -/
def peekCallback (self : ExpectedCallbackQueue) : Callback :=
  match self.callbacks_ with
  | [] => 0
  | front :: _ => front.callback

end ExpectedCallbackQueue

/-- The class `FallbackCallbacks`; `callbacks_` is the `std::unordered_map` from a
mock address to its `std::vector` of (method, callback) pairs, kept as an
association list with one pair per key. -/
structure FallbackCallbacks where
  callbacks_ : List (Nat × List (Method × Callback))
deriving DecidableEq, Repr

namespace FallbackCallbacks

/-- Expression `callbacks_.find(mock)`: the vector stored under the key, if the key is present. -/
def find : List (Nat × List (Method × Callback)) → Nat → Option (List (Method × Callback))
  | [], _ => none
  | (key, value) :: rest, mock => if key = mock then some value else find rest mock

/-- Expression `callbacks_[mock].emplace_back(method, callback)`: `operator[]` creates an empty
vector when the key is absent, then the pair is appended to the vector. -/
def emplace_back : List (Nat × List (Method × Callback)) → Nat → Method → Callback →
    List (Nat × List (Method × Callback))
  | [], mock, method, callback => [(mock, [(method, callback)])]
  | (key, value) :: rest, mock, method, callback =>
    if key = mock then (key, value ++ [(method, callback)]) :: rest
    else (key, value) :: emplace_back rest mock method callback

/-- Member function `FallbackCallbacks::add` (both overloads). -/
def add (self : FallbackCallbacks) (mock : Nat) (method : Method) (callback : Callback) :
    FallbackCallbacks :=
  { callbacks_ := emplace_back self.callbacks_ mock method callback }

/-- The loop of `getInternal`, run over the vector from `rbegin()` to `rend()`;
the argument is the vector already reversed. -/
def scan (method : Method) : List (Method × Callback) → Option Callback
  | [] => none
  | callback_it :: older =>
    match Method.any_cast method.type callback_it.1 with
    | some method_ptr => if method_ptr = method.ptr then some callback_it.2 else scan method older
    | none => scan method older

/-- Member function `FallbackCallbacks::getInternal`; `none` is the empty `std::function` of
`return {}`. -/
def getInternal (self : FallbackCallbacks) (mock : Nat) (method : Method) : Option Callback :=
  match find self.callbacks_ mock with
  | none => none
  | some mock_callbacks => scan method mock_callbacks.reverse

/-- Member function `FallbackCallbacks::get` (both overloads). -/
def get (self : FallbackCallbacks) (mock : Nat) (method : Method) : Option Callback :=
  self.getInternal mock method

/-- The callbacks that `add` has stored for `mock` under `method`, oldest first:
the entries of the vector of `mock` whose method pointer is `method`. -/
def registered (self : FallbackCallbacks) (mock : Nat) (method : Method) : List Callback :=
  match find self.callbacks_ mock with
  | none => []
  | some mock_callbacks => (mock_callbacks.filter (fun entry => entry.1 = method)).map (·.2)

end FallbackCallbacks

/-- The struct `RepoState`.  A handler slot is a `std::function` that may be empty
(`none`). -/
structure RepoState where
  expectations_paused : Bool
  expected_callback_queue : ExpectedCallbackQueue
  fallback_callbacks : FallbackCallbacks
  unexpected_call_handler : Option Handler
  missing_call_handler : Option Handler
deriving DecidableEq, Repr

/-- The data members of the class `Repo`. -/
structure Repo where
  mocks_ : Finset Nat
  state_ : RepoState
deriving DecidableEq

/-- Everything a callable can see and change: the repository and the state of
the user's program (`U`). -/
structure World (U : Type) where
  repo : Repo
  user : U

/-- What invoking a callable yields: its return value or the exception it threw,
and the world it leaves behind. -/
abbrev Outcome (α U : Type) := Except Exn α × World U

/-- Meaning of the stored callables.  `V` is the universe of argument and return
values. -/
structure Env (V U : Type) where
  invoke : Callback → List V → World U → Outcome V U
  unexpected_call : Handler → Option String → World U → Outcome Unit U
  missing_call : Handler → String → World U → Outcome Unit U

/-- A callable invoked by the library itself. -/
inductive Event (V : Type) where
  | expected (callback : Callback) (args : List V)
  | fallback (callback : Callback) (args : List V)
  | unexpected (handler : Handler) (description : Option String)
  | default_call (args : List V)
  | missing (handler : Handler) (description : String)
deriving DecidableEq, Repr

/-- Result of one call of a mocked method. -/
structure Dispatch (V U : Type) where
  result : Except Exn V
  world : World U
  events : List (Event V)

/-- Writes `repo_state_.expected_callback_queue`. -/
def World.setQueue {U : Type} (w : World U) (q : ExpectedCallbackQueue) : World U :=
  { w with repo := { w.repo with state_ := { w.repo.state_ with expected_callback_queue := q } } }

namespace MockBase

/-- Lines 234-246 of `MockBase::callInternal`: fallback lookup, unexpected-call
handler, default callback.  `expectation_description` and `w` are the local
variable and the state as left by lines 218-232. -/
def callInternalTail {V U : Type} (env : Env V U)
    (default_callback : List V → World U → Outcome V U)
    (self : Nat) (this_method : Method) (args : List V)
    (expectation_description : Option String) (w : World U) : Dispatch V U :=
  match w.repo.state_.fallback_callbacks.get self this_method with
  | some fallback_callback =>
    let r := env.invoke fallback_callback args w
    ⟨r.1, r.2, [Event.fallback fallback_callback args]⟩
  | none =>
    match (!w.repo.state_.expectations_paused), w.repo.state_.unexpected_call_handler with
    | true, some handler =>
      let h := env.unexpected_call handler expectation_description w
      match h.1 with
      | Except.error e => ⟨Except.error e, h.2, [Event.unexpected handler expectation_description]⟩
      | Except.ok _ =>
        let r := default_callback args h.2
        ⟨r.1, r.2, [Event.unexpected handler expectation_description, Event.default_call args]⟩
    | _, _ =>
      let r := default_callback args w
      ⟨r.1, r.2, [Event.default_call args]⟩

/-- Member function `MockBase::callInternal`.  `self` is the address of `*this`. -/
def callInternal {V U : Type} (env : Env V U)
    (default_callback : List V → World U → Outcome V U)
    (self : Nat) (this_method : Method) (args : List V) (w : World U) : Dispatch V U :=
  let repo_state_ := w.repo.state_
  if !repo_state_.expectations_paused && !repo_state_.expected_callback_queue.isEmpty then
    if repo_state_.expected_callback_queue.peekMatch self this_method then
      let expected_callback := repo_state_.expected_callback_queue.peekCallback
      let r := env.invoke expected_callback args (w.setQueue repo_state_.expected_callback_queue.pop)
      ⟨r.1, r.2, [Event.expected expected_callback args]⟩
    else
      let expectation_description := some repo_state_.expected_callback_queue.peekDescription
      callInternalTail env default_callback self this_method args expectation_description
        (w.setQueue repo_state_.expected_callback_queue.pop)
  else
    callInternalTail env default_callback self this_method args none w

/-- Member function `MockBase::call` (both overloads). -/
def call {V U : Type} (env : Env V U)
    (default_callback : List V → World U → Outcome V U)
    (self : Nat) (this_method : Method) (args : List V) (w : World U) : Dispatch V U :=
  callInternal env default_callback self this_method args w

end MockBase

/-- The lambda `default_callback` inside the override that `COMOCK_METHOD` generates.
`is_abstract` is `std::is_abstract_v<MockedType>`, `value_initialized` is
`ReturnType()`, and `base_method` is `MockedType::MethodName` run on this mock (it
exists only when the mocked type is not abstract). -/
def COMOCK_default_callback {V U : Type} (is_abstract : Bool) (value_initialized : V)
    (base_method : List V → World U → Outcome V U) : List V → World U → Outcome V U :=
  fun args w => if is_abstract then (Except.ok value_initialized, w) else base_method args w

/-- The override that the macro `COMOCK_METHOD` generates for one method of the mock:
it builds the default callback and hands the call to `MockBase::call`. -/
def COMOCK_METHOD {V U : Type} (env : Env V U) (is_abstract : Bool) (value_initialized : V)
    (base_method : List V → World U → Outcome V U)
    (self : Nat) (method : Method) (args : List V) (w : World U) : Dispatch V U :=
  MockBase.call env (COMOCK_default_callback is_abstract value_initialized base_method)
    self method args w

namespace Repo

/-- Member function `Repo::pauseExpectations`. -/
def pauseExpectations (r : Repo) : Repo :=
  { r with state_ := { r.state_ with expectations_paused := true } }

/-- Member function `Repo::resumeExpectations`. -/
def resumeExpectations (r : Repo) : Repo :=
  { r with state_ := { r.state_ with expectations_paused := false } }

/-- Member function `Repo::setUnexpectedCallHandler`. -/
def setUnexpectedCallHandler (r : Repo) (handler : Option Handler) : Repo :=
  { r with state_ := { r.state_ with unexpected_call_handler := handler } }

/-- Member function `Repo::setMissingCallHandler`. -/
def setMissingCallHandler (r : Repo) (handler : Option Handler) : Repo :=
  { r with state_ := { r.state_ with missing_call_handler := handler } }

/-- Member function `Repo::create`: the new mock lives at `address` (chosen by the allocator), and
its address is inserted into `mocks_`.  Returns the mock and the new repository. -/
def create (r : Repo) (address : Nat) : Nat × Repo :=
  (address, { r with mocks_ := insert address r.mocks_ })

/-- Expression `mocks_.count(key)` of the `std::unordered_set`. -/
def count (r : Repo) (key : Nat) : Nat :=
  if key ∈ r.mocks_ then 1 else 0

/-- Message of the `std::invalid_argument` thrown by `expectedCallInternal`. -/
def notCreatedMessage : String :=
  "[comock] Cannot set a method call expectation for a mock object that was not created in the repository."

/-- Member function `Repo::expectedCallInternal`: the exception thrown, if any, and the repository
afterwards. -/
def expectedCallInternal (r : Repo) (description : String) (mock : Nat) (method : Method)
    (callback : Callback) : Except Exn Unit × Repo :=
  if r.count mock == 0 then
    (Except.error (Exn.invalid_argument notCreatedMessage), r)
  else
    (Except.ok (),
      { r with state_ := { r.state_ with
          expected_callback_queue :=
            r.state_.expected_callback_queue.push description mock method callback } })

/-- Member function `Repo::expectCall` (both overloads). -/
def expectCall (r : Repo) (description : String) (mock : Nat) (method : Method)
    (callback : Callback) : Except Exn Unit × Repo :=
  r.expectedCallInternal description mock method callback

/-- Member function `Repo::onCall` (both overloads). -/
def onCall (r : Repo) (mock : Nat) (method : Method) (callback : Callback) : Repo :=
  { r with state_ := { r.state_ with
      fallback_callbacks := r.state_.fallback_callbacks.add mock method callback } }

/-- A `Repo` as its default member initialisers leave it: handle `0` in each slot
names the default lambda of that slot (it writes a diagnostic line to
`std::cerr`). -/
def init : Repo :=
  { mocks_ := ∅,
    state_ :=
      { expectations_paused := false,
        expected_callback_queue := { callbacks_ := [] },
        fallback_callbacks := { callbacks_ := [] },
        unexpected_call_handler := some 0,
        missing_call_handler := some 0 } }

/-- The public member functions of `Repo` that a test calls between mock calls. -/
inductive Operation where
  | create (address : Nat)
  | expectCall (description : String) (mock : Nat) (method : Method) (callback : Callback)
  | onCall (mock : Nat) (method : Method) (callback : Callback)
  | pauseExpectations
  | resumeExpectations
  | setUnexpectedCallHandler (handler : Option Handler)
  | setMissingCallHandler (handler : Option Handler)
deriving DecidableEq, Repr

/-- The repository after one public member function has run (an `expectCall` that
throws leaves it as it was). -/
def perform (r : Repo) : Operation → Repo
  | Operation.create address => (r.create address).2
  | Operation.expectCall description mock method callback =>
    (r.expectCall description mock method callback).2
  | Operation.onCall mock method callback => r.onCall mock method callback
  | Operation.pauseExpectations => r.pauseExpectations
  | Operation.resumeExpectations => r.resumeExpectations
  | Operation.setUnexpectedCallHandler handler => r.setUnexpectedCallHandler handler
  | Operation.setMissingCallHandler handler => r.setMissingCallHandler handler

/-- The repository after a sequence of public member functions. -/
def performAll (r : Repo) (ops : List Operation) : Repo :=
  ops.foldl perform r

/-- How the repository can change while a test runs: a public member function is
called, or a dispatch removes the head of the queue.  User code has no other access
to `mocks_` and `state_`. -/
inductive Evolves : Repo → Repo → Prop where
  | refl (r : Repo) : Evolves r r
  | perform {r r1 : Repo} (op : Operation) : Evolves r r1 → Evolves r (r1.perform op)
  | pop {r r1 : Repo} : Evolves r r1 →
      Evolves r
        { r1 with state_ := { r1.state_ with
            expected_callback_queue := r1.state_.expected_callback_queue.pop } }

end Repo

/-- What the destructor of `Repo` did: the exception that left it, if any (the
program then ends in `std::terminate`), the world at that point, and the handlers it
invoked. -/
structure Teardown (V U : Type) where
  result : Except Exn Unit
  world : World U
  events : List (Event V)

/-- Destructor `Repo::~Repo`: the `while` loop over the queue.  The loop has no bound
of its own (the handler may record expectations), so it is run for at most `fuel`
iterations; `none` means the fuel did not suffice. -/
def Repo.destructor {V U : Type} (env : Env V U) : Nat → World U → Option (Teardown V U)
  | 0, w =>
    if !w.repo.state_.expected_callback_queue.isEmpty then none
    else some ⟨Except.ok (), w, []⟩
  | fuel + 1, w =>
    if !w.repo.state_.expected_callback_queue.isEmpty then
      let description := w.repo.state_.expected_callback_queue.peekDescription
      let w1 := w.setQueue w.repo.state_.expected_callback_queue.pop
      match w1.repo.state_.missing_call_handler with
      | some handler =>
        let r := env.missing_call handler description w1
        match r.1 with
        | Except.error e => some ⟨Except.error e, r.2, [Event.missing handler description]⟩
        | Except.ok _ =>
          (Repo.destructor env fuel r.2).map
            (fun t => { t with events := Event.missing handler description :: t.events })
      | none => Repo.destructor env fuel w1
    else some ⟨Except.ok (), w, []⟩

/-- One call of a mocked method as the generated override issues it: the default
callback built by `COMOCK_METHOD`, the address of the mock, the method pointer
and the arguments. -/
structure MockCall (V U : Type) where
  default_callback : List V → World U → Outcome V U
  self : Nat
  this_method : Method
  args : List V

/-- Dispatches the calls one after the other, each in the world the previous one
left.  Every step is recorded with the world it started from. -/
def callSequence {V U : Type} (env : Env V U) :
    List (MockCall V U) → World U → List (World U × Dispatch V U)
  | [], _ => []
  | c :: cs, w =>
    let d := MockBase.call env c.default_callback c.self c.this_method c.args w
    (w, d) :: callSequence env cs d.world

/-- World in which the caller finds itself after the calls of `callSequence`. -/
def callSequenceWorld {V U : Type} (env : Env V U) :
    List (MockCall V U) → World U → World U
  | [], w => w
  | c :: cs, w =>
    callSequenceWorld env cs
      (MockBase.call env c.default_callback c.self c.this_method c.args w).world

/-! ## The doubles of `comock_test/test_interface.cpp` -/

namespace InterfaceTest

/-- Pointer type `ReturnType (Interface::*)(Args...) [const]`. -/
def memberType (returnType : String) (argTypes : List String) (isConst : Bool) : MethodType :=
  { mockedType := "Interface", returnType := returnType, argTypes := argTypes,
    isConst := isConst }

/-- Method pointer `&Interface::voidArgTest`; the pointer value of a virtual member is its slot. -/
def voidArgTest : Method := ⟨memberType "void" [] false, 0⟩

/-- Method pointer `&Interface::oneArgTest`. -/
def oneArgTest : Method := ⟨memberType "void" ["int"] false, 1⟩

/-- Method pointer `&Interface::twoArgTest`. -/
def twoArgTest : Method := ⟨memberType "void" ["int", "std::string"] false, 2⟩

/-- Method pointer `&Interface::returnTest`. -/
def returnTest : Method := ⟨memberType "int" [] false, 3⟩

/-- Method pointer `static_cast<void (Interface::*)(int)>(&Interface::overrideTest)`. -/
def overrideTestInt : Method := ⟨memberType "void" ["int"] false, 4⟩

/-- Method pointer `static_cast<void (Interface::*)(std::string)>(&Interface::overrideTest)`. -/
def overrideTestString : Method := ⟨memberType "void" ["std::string"] false, 5⟩

/-- Method pointer `static_cast<void (Interface::*)()>(&Interface::constTest)`. -/
def constTest : Method := ⟨memberType "void" [] false, 6⟩

/-- Method pointer `static_cast<void (Interface::*)() const>(&Interface::constTest)`. -/
def constTestConst : Method := ⟨memberType "void" [] true, 7⟩

/-- State of the test program: the optional descriptions the tracking handlers
have been called with so far. -/
abbrev Tracker := List (Option String)

/-- The callables of the tests.  Callback handle `n` is the lambda that returns
`n` (`[]() { return 123; }` is handle `123`; the `void` lambdas are handle `0`).
Unexpected-call handler `0` is the default lambda of `Repo`, `1` is the one of
`Fixture` (its `REQUIRE_MESSAGE(false, ...)` throws), `4` is the empty lambda of
`allowUnexpectedCalls`, every other handle is a tracking handler: it records the
description it receives. -/
def env : Env Int Tracker where
  invoke := fun callback _ w => (Except.ok (Int.ofNat callback), w)
  unexpected_call := fun handler description w =>
    match handler with
    | 0 => (Except.ok (), w)
    | 1 => (Except.error (Exn.thrown 1), w)
    | 4 => (Except.ok (), w)
    | _ => (Except.ok (), { w with user := w.user ++ [description] })
  missing_call := fun handler _ w =>
    match handler with
    | 1 => (Except.error (Exn.thrown 2), w)
    | _ => (Except.ok (), w)

/-- Default callback that `COMOCK_METHOD` builds for the abstract `Interface`:
`return ReturnType();`, the value-initialised result. -/
def default_callback : List Int → World Tracker → Outcome Int Tracker :=
  fun _ w => (Except.ok 0, w)

/-- Address of the mock that `Fixture` creates. -/
def mock : Nat := 4096

/-- The struct `Fixture` after its constructor: a `Repo`, one mock created in it, and
the two throwing handlers installed. -/
def fixture : World Tracker :=
  { repo := (((Repo.init.create mock).2.setUnexpectedCallHandler (some 1)).setMissingCallHandler
      (some 1)),
    user := [] }

/-- Applies `repo.expectCall` of the fixture (the mock was created, so nothing is thrown). -/
def expect (w : World Tracker) (description : String) (method : Method) (callback : Callback) :
    World Tracker :=
  { w with repo := (w.repo.expectCall description mock method callback).2 }

/-- A call `mock->method(args...)` of the fixture's mock. -/
def mockCall (method : Method) (args : List Int) : MockCall Int Tracker :=
  { default_callback := default_callback, self := mock, this_method := method, args := args }

/-- The two `expectCall` lines shared by both subcases of "Expectations order". -/
def expectationsOrder : World Tracker :=
  expect (expect fixture "call 1" voidArgTest 0) "call 2" oneArgTest 0

/-- Subcase "Incorrect order", first half: the first tracking handler (handle `2`) is
installed and `mock->oneArgTest(1)` is called. -/
def incorrectOrderFirst : Dispatch Int Tracker :=
  MockBase.call env default_callback mock oneArgTest [1]
    { expectationsOrder with
      repo := expectationsOrder.repo.setUnexpectedCallHandler (some 2) }

/-- Subcase "Incorrect order", second half: the second tracking handler (handle `3`) is
installed and `mock->voidArgTest()` is called. -/
def incorrectOrderSecond : Dispatch Int Tracker :=
  MockBase.call env default_callback mock voidArgTest []
    { incorrectOrderFirst.world with
      repo := incorrectOrderFirst.world.repo.setUnexpectedCallHandler (some 3) }

/-- The expectations of "Expectations order", a tracking handler (handle `2`), and a
fallback `repo.onCall(*mock, &Interface::returnTest, []() { return 123; })`. -/
def orderWithFallback : World Tracker :=
  { expectationsOrder with
    repo := (expectationsOrder.repo.setUnexpectedCallHandler (some 2)).onCall mock returnTest
      123 }

/-- Two fallbacks for the same method, `return 123` registered first and
`return 321` second. -/
def shadowed : World Tracker :=
  { fixture with
    repo := (fixture.repo.onCall mock returnTest 123).onCall mock returnTest 321 }

/-- Subcase "Just on call": `repo.onCall(*mock, &Interface::returnTest, ... 123)`. -/
def justOnCall : World Tracker :=
  { fixture with repo := fixture.repo.onCall mock returnTest 123 }

/-- Subcase "With expected call": an expectation returning 123 and a fallback
returning 321, both on `returnTest`. -/
def withExpectedCall : World Tracker :=
  { fixture with
    repo := (fixture.repo.expectCall "returnTest" mock returnTest 123).2.onCall mock
      returnTest 321 }

/-- First `mock->returnTest()` of "With expected call". -/
def withExpectedCallFirst : Dispatch Int Tracker :=
  MockBase.call env default_callback mock returnTest [] withExpectedCall

/-- Second `mock->returnTest()` of "With expected call". -/
def withExpectedCallSecond : Dispatch Int Tracker :=
  MockBase.call env default_callback mock returnTest [] withExpectedCallFirst.world

/-- The state `orderWithFallback` after `repo.pauseExpectations()`: the queue head is
"call 1" on `voidArgTest`, and `returnTest` has a fallback. -/
def pausedOrder : World Tracker :=
  { orderWithFallback with repo := orderWithFallback.repo.pauseExpectations }

end InterfaceTest

/-! ## A fallback that records an expectation -/

namespace RecordingFallback

/-- Callables of a test whose callback handle `1` is the lambda
`[&]() { repo.expectCall("late", *mock, &Interface::voidArgTest, []() {}); return 0; }`;
every other callback returns 0 and does nothing.  The handlers are those of
`InterfaceTest.env`. -/
def env : Env Int InterfaceTest.Tracker where
  invoke := fun callback _ w =>
    match callback with
    | 1 =>
      (Except.ok 0,
        { w with
          repo := (w.repo.expectCall "late" InterfaceTest.mock InterfaceTest.voidArgTest 0).2 })
    | _ => (Except.ok 0, w)
  unexpected_call := InterfaceTest.env.unexpected_call
  missing_call := InterfaceTest.env.missing_call

/-- The fixture with that lambda registered by `onCall` for `returnTest`, and the
expectations paused. -/
def paused : World InterfaceTest.Tracker :=
  { InterfaceTest.fixture with
    repo := (InterfaceTest.fixture.repo.onCall InterfaceTest.mock InterfaceTest.returnTest
      1).pauseExpectations }

end RecordingFallback

/-! ## Doubles for the destructor -/

namespace InterfaceTest

/-- Test case "Missing call" at the closing brace of its inner block: a `Repo` with a
tracking missing-call handler (handle `2`), one mock, and the expectation
"missing call" on `voidArgTest` that is never met. -/
def missingCall : World Tracker :=
  { repo := (((Repo.init.setMissingCallHandler (some 2)).create mock).2.expectCall
      "missing call" mock voidArgTest 0).2,
    user := [] }

end InterfaceTest

namespace RecordingHandler

/-- Callables of a test whose missing-call handler `5` is the lambda
`[&](std::string const& d) { if (d == "call 1") repo.expectCall("again", *mock,
&Interface::voidArgTest, []() {}); }`.  Everything else is as in `InterfaceTest.env`. -/
def env : Env Int InterfaceTest.Tracker where
  invoke := InterfaceTest.env.invoke
  unexpected_call := InterfaceTest.env.unexpected_call
  missing_call := fun handler description w =>
    match handler with
    | 5 =>
      if description = "call 1" then
        (Except.ok (),
          { w with
            repo := (w.repo.expectCall "again" InterfaceTest.mock InterfaceTest.voidArgTest
              0).2 })
      else (Except.ok (), w)
    | _ => InterfaceTest.env.missing_call handler description w

/-- The fixture with that handler installed and the single expectation "call 1". -/
def residual : World InterfaceTest.Tracker :=
  InterfaceTest.expect
    { InterfaceTest.fixture with
      repo := InterfaceTest.fixture.repo.setMissingCallHandler (some 5) }
    "call 1" InterfaceTest.voidArgTest 0

end RecordingHandler

namespace InterfaceTest

/-- Test case "Unexpected call" before `mock->voidArgTest()`: the fixture with a
tracking unexpected-call handler (handle `2`), nothing expected, no fallback. -/
def unexpectedCall : World Tracker :=
  { fixture with repo := fixture.repo.setUnexpectedCallHandler (some 2) }

end InterfaceTest

namespace InterfaceTest

/-- Subcase "Override int" after its `expectCall`: one expectation on
`overrideTest(int)`. -/
def overrideInt : World Tracker :=
  expect fixture "void overrideTest(int)" overrideTestInt 0

end InterfaceTest

namespace InterfaceTest

/-- Member function `Fixture::allowUnexpectedCalls`: installs the empty lambda
(handle `4`). -/
def allowUnexpectedCalls (w : World Tracker) : World Tracker :=
  { w with repo := w.repo.setUnexpectedCallHandler (some 4) }

/-- Test case "Default call", first call: `mock->voidArgTest()` through the generated
override; `Interface` is abstract, and the value-initialised result is `0`. -/
def defaultCallFirst : Dispatch Int Tracker :=
  COMOCK_METHOD env true 0 (fun _ w => (Except.ok 0, w)) mock voidArgTest []
    (allowUnexpectedCalls fixture)

/-- Test case "Default call", second call: `mock->returnTest()` through the generated
override. -/
def defaultCallSecond : Dispatch Int Tracker :=
  COMOCK_METHOD env true 0 (fun _ w => (Except.ok 0, w)) mock returnTest []
    defaultCallFirst.world

end InterfaceTest

/-- The event is the invocation of one of the three callables that can answer a call:
an expectation's callback, a fallback, or the default callback. -/
def Event.isCallback {V : Type} : Event V → Bool
  | Event.expected _ _ => true
  | Event.fallback _ _ => true
  | Event.default_call _ => true
  | Event.unexpected _ _ => false
  | Event.missing _ _ => false

namespace RecordingFallback

/-- The fixture with two expectations: "first" on `returnTest`, whose callback is the
recording lambda (handle `1`), and "second" on `oneArgTest`. -/
def queued : World InterfaceTest.Tracker :=
  InterfaceTest.expect (InterfaceTest.expect InterfaceTest.fixture "first"
    InterfaceTest.returnTest 1) "second" InterfaceTest.oneArgTest 0

end RecordingFallback

/-! ## A callback that calls the mock again -/

namespace Reentrant

/-- Callables of a test whose callback handle `7` is the lambda
`[&]() { mock->oneArgTest(5); return 0; }`: it calls a mocked method of the same mock
while the outer call is still being answered.  Callback handle `9` returns 9; the
handlers are those of `InterfaceTest.env`. -/
def env : Env Int InterfaceTest.Tracker where
  invoke := fun callback _ w =>
    match callback with
    | 7 =>
      (Except.ok 0,
        (MockBase.call InterfaceTest.env InterfaceTest.default_callback InterfaceTest.mock
          InterfaceTest.oneArgTest [5] w).world)
    | n => (Except.ok (Int.ofNat n), w)
  unexpected_call := InterfaceTest.env.unexpected_call
  missing_call := InterfaceTest.env.missing_call

/-- The fixture with "outer" on `returnTest` (the lambda above) followed by "inner" on
`oneArgTest` (callback `9`), and a tracking unexpected-call handler. -/
def queued : World InterfaceTest.Tracker :=
  InterfaceTest.expect (InterfaceTest.expect
    { InterfaceTest.fixture with
      repo := InterfaceTest.fixture.repo.setUnexpectedCallHandler (some 2) }
    "outer" InterfaceTest.returnTest 7) "inner" InterfaceTest.oneArgTest 9

end Reentrant

/-- One thing a test does with a session: it calls a public member function of `Repo`,
or it calls a mocked method. -/
inductive SessionStep (V U : Type) where
  | operation (op : Repo.Operation)
  | mockCall (call : MockCall V U)

/-- The world after one step of a test. -/
def runStep {V U : Type} (env : Env V U) (w : World U) : SessionStep V U → World U
  | SessionStep.operation op => { w with repo := w.repo.perform op }
  | SessionStep.mockCall c =>
    (MockBase.call env c.default_callback c.self c.this_method c.args w).world

/-- The world after the steps of a test, in order. -/
def runSteps {V U : Type} (env : Env V U) (w : World U) (steps : List (SessionStep V U)) :
    World U :=
  steps.foldl (runStep env) w

/-! ## The doubles of `comock_test/test_class.cpp` -/

namespace ClassTest

/-- The value a C++ `int` (32 bits, two's complement) holds when the mathematical
result `x` of an arithmetic operation is stored in it: `x` reduced modulo 2^32 into
the range from -2^31 to 2^31 - 1.  (Signed overflow is undefined in C++; the
embedding takes the wrapping that the hardware performs.) -/
def int32 (x : Int) : Int :=
  (x + 2147483648) % 4294967296 - 2147483648

/-- Data members of `Class`, the base subobject of the mock that `Fixture` creates.
Both are C++ `int`s: the fields hold values from -2^31 to 2^31 - 1, and every
operation on them stores its result through `int32`. -/
structure Class where
  a_ : Int
  b_ : Int
deriving DecidableEq, Repr

/-- Pointer type `void (Class::*)()`. -/
def memberType : MethodType :=
  { mockedType := "Class", returnType := "void", argTypes := [], isConst := false }

/-- Method pointer `&Class::incrementA`. -/
def incrementA : Method := ⟨memberType, 0⟩

/-- Method pointer `&Class::incrementB`. -/
def incrementB : Method := ⟨memberType, 1⟩

/-- Method pointer `&Class::incrementBoth`. -/
def incrementBoth : Method := ⟨memberType, 2⟩

/-- Body of `Class::incrementA` run on the mock, `++a_`; a `void` call yields the
placeholder value `0`. -/
def baseIncrementA : List Int → World Class → Outcome Int Class :=
  fun _ w => (Except.ok 0, { w with user := { w.user with a_ := int32 (w.user.a_ + 1) } })

/-- The statement `mock->Class::incrementA();` written `k` times in a row. -/
def callBaseIncrementA : Nat → World Class → World Class
  | 0, w => w
  | k + 1, w => callBaseIncrementA k (baseIncrementA [] w).2

/-- The callables of the tests.  Callback handle `k` is the lambda whose body is
`mock->Class::incrementA();` repeated `k` times (twice in "Call base class from
callback").  Handler `1` is the throwing one of `Fixture`; every other handler
returns without doing anything (the default lambdas, and the empty lambda of
`allowUnexpectedCalls`, handle `4`). -/
def env : Env Int Class where
  invoke := fun callback _ w => (Except.ok 0, callBaseIncrementA callback w)
  unexpected_call := fun handler _ w =>
    match handler with
    | 1 => (Except.error (Exn.thrown 1), w)
    | _ => (Except.ok (), w)
  missing_call := fun handler _ w =>
    match handler with
    | 1 => (Except.error (Exn.thrown 2), w)
    | _ => (Except.ok (), w)

/-- Address of the mock that `Fixture` creates. -/
def mock : Nat := 8192

/-- The struct `Fixture` after its constructor, for a mock built with the constructor
arguments `a`, `b` (the test file uses `repo.create<Mock>(1, 10)`); the arguments are
`int`s and are stored as such. -/
def fixtureWith (a b : Int) : World Class :=
  { repo := (((Repo.init.create mock).2.setUnexpectedCallHandler (some 1)).setMissingCallHandler
      (some 1)),
    user := { a_ := int32 a, b_ := int32 b } }

/-- The struct `Fixture` of the test file. -/
def fixture : World Class := fixtureWith 1 10

/-- The override `Mock::incrementA` generated by `COMOCK_METHOD`; `Class` is not
abstract. -/
def mockIncrementA (w : World Class) : Dispatch Int Class :=
  COMOCK_METHOD env false 0 baseIncrementA mock incrementA [] w

/-- Test case "Call base class": `allowUnexpectedCalls()`, then `mock->incrementA()`. -/
def callBaseClass : Dispatch Int Class :=
  mockIncrementA { fixture with repo := fixture.repo.setUnexpectedCallHandler (some 4) }

/-- Test case "Call base class from callback" for a callback that calls the base
implementation `k` times, on a mock built with `a`, `b`: the `expectCall`, then
`mock->incrementA()`. -/
def callBaseFromCallback (k : Nat) (a b : Int) : Dispatch Int Class :=
  mockIncrementA
    { fixtureWith a b with
      repo := ((fixtureWith a b).repo.expectCall "incrementA" mock incrementA k).2 }

end ClassTest

namespace ClassTest

/-- Body of `Class::incrementB` run on the mock, `++b_`. -/
def baseIncrementB : List Int → World Class → Outcome Int Class :=
  fun _ w => (Except.ok 0, { w with user := { w.user with b_ := int32 (w.user.b_ + 1) } })

/-- The override `Mock::incrementB` generated by `COMOCK_METHOD`. -/
def mockIncrementB (w : World Class) : Dispatch Int Class :=
  COMOCK_METHOD env false 0 baseIncrementB mock incrementB [] w

/-- Body of `Class::incrementBoth` run on the mock: `incrementA(); incrementB();`.  Both
are virtual calls, so they enter the overrides of the mock; an exception from the
first ends the body. -/
def baseIncrementBoth : List Int → World Class → Outcome Int Class :=
  fun _ w =>
    match (mockIncrementA w).result with
    | Except.error e => (Except.error e, (mockIncrementA w).world)
    | Except.ok _ =>
      ((mockIncrementB (mockIncrementA w).world).result,
        (mockIncrementB (mockIncrementA w).world).world)

/-- The callables of the test case "Pause expectations": callback handle `100` is the
lambda `[this]() { repo.pauseExpectations(); mock->Class::incrementBoth();
repo.resumeExpectations(); }`; everything else is as in `env`. -/
def pauseEnv : Env Int Class where
  invoke := fun callback args w =>
    match callback with
    | 100 =>
      match (baseIncrementBoth [] { w with repo := w.repo.pauseExpectations }).1 with
      | Except.error e =>
        (Except.error e, (baseIncrementBoth [] { w with repo := w.repo.pauseExpectations }).2)
      | Except.ok _ =>
        (Except.ok 0,
          { (baseIncrementBoth [] { w with repo := w.repo.pauseExpectations }).2 with
            repo := (baseIncrementBoth []
              { w with repo := w.repo.pauseExpectations }).2.repo.resumeExpectations })
    | _ => env.invoke callback args w
  unexpected_call := env.unexpected_call
  missing_call := env.missing_call

/-- Test case "Pause expectations": the `expectCall` on `incrementBoth`, then
`mock->incrementBoth()` through the generated override.  The throwing handlers of
`Fixture` stay installed. -/
def pauseExpectationsTest : Dispatch Int Class :=
  COMOCK_METHOD pauseEnv false 0 baseIncrementBoth mock incrementBoth []
    { fixture with
      repo := (fixture.repo.expectCall "incrementBoth" mock incrementBoth 100).2 }

end ClassTest

/-! ## Doubles for a fallback that answers an out-of-order call -/

namespace RecordingFallback

/-- The fixture with the recording lambda (handle `1`) registered by `onCall` for
`returnTest`; the session is not paused and nothing is expected. -/
def unpaused : World InterfaceTest.Tracker :=
  { InterfaceTest.fixture with
    repo := InterfaceTest.fixture.repo.onCall InterfaceTest.mock InterfaceTest.returnTest 1 }

/-- The fixture with a missing-call handler that returns (handle `2`), the single
expectation "late" on `oneArgTest`, and the recording lambda (handle `1`) registered
by `onCall` for `returnTest`. -/
def lateHead : World InterfaceTest.Tracker :=
  { InterfaceTest.fixture with
    repo := ((InterfaceTest.expect
      { InterfaceTest.fixture with
        repo := InterfaceTest.fixture.repo.setMissingCallHandler (some 2) }
      "late" InterfaceTest.oneArgTest 0).repo.onCall InterfaceTest.mock
        InterfaceTest.returnTest 1) }

end RecordingFallback

namespace InterfaceTest

/-- The fixture with a missing-call handler that returns (handle `2`), two
expectations that carry the same description "dup", on `voidArgTest` and on
`oneArgTest`, and a fallback `return 123` on `returnTest`. -/
def duplicateDescriptions : World Tracker :=
  { fixture with
    repo := ((expect (expect
      { fixture with repo := fixture.repo.setMissingCallHandler (some 2) }
      "dup" voidArgTest 0) "dup" oneArgTest 0).repo.onCall mock returnTest 123) }

end InterfaceTest

namespace RecordingHandler

/-- The fixture with the recording missing-call handler (handle `5`), the expectations
"again" on `voidArgTest` and "call 1" on `oneArgTest`, and a fallback `return 123` on
`returnTest`. -/
def againHead : World InterfaceTest.Tracker :=
  { InterfaceTest.fixture with
    repo := ((InterfaceTest.expect (InterfaceTest.expect
      { InterfaceTest.fixture with
        repo := InterfaceTest.fixture.repo.setMissingCallHandler (some 5) }
      "again" InterfaceTest.voidArgTest 0) "call 1" InterfaceTest.oneArgTest 0).repo.onCall
        InterfaceTest.mock InterfaceTest.returnTest 123) }

end RecordingHandler

/-! ## Basic facts about the queue and the dispatch -/

theorem matchInternal_cons (e : Expectation) (rest : List Expectation) (mock : Nat)
    (method : Method) :
    ExpectedCallbackQueue.matchInternal ⟨e :: rest⟩ mock method = true ↔
      e.mock = mock ∧ e.method = method := by
  obtain ⟨d, m, ⟨ty, p⟩, cb⟩ := e
  obtain ⟨ty2, p2⟩ := method
  simp only [ExpectedCallbackQueue.matchInternal, Method.any_cast]
  by_cases h1 : m = mock
  · by_cases h2 : ty = ty2
    · by_cases h3 : p = p2
      · simp [h1, h2, h3]
      · simp [h1, h2, h3]
    · simp [h1, h2]
  · simp [h1]

theorem callInternal_of_match {V U : Type} (env : Env V U)
    (default_callback : List V → World U → Outcome V U) (self : Nat) (this_method : Method)
    (args : List V) (w : World U) (e : Expectation) (rest : List Expectation)
    (hp : w.repo.state_.expectations_paused = false)
    (hq : w.repo.state_.expected_callback_queue = ⟨e :: rest⟩)
    (hm : e.mock = self ∧ e.method = this_method) :
    MockBase.callInternal env default_callback self this_method args w =
      ⟨(env.invoke e.callback args (w.setQueue ⟨rest⟩)).1,
        (env.invoke e.callback args (w.setQueue ⟨rest⟩)).2,
        [Event.expected e.callback args]⟩ := by
  have h := (matchInternal_cons e rest self this_method).mpr hm
  simp [MockBase.callInternal, hp, hq, ExpectedCallbackQueue.isEmpty,
    ExpectedCallbackQueue.peekMatch, h, ExpectedCallbackQueue.peekCallback,
    ExpectedCallbackQueue.pop]

theorem callInternal_of_mismatch {V U : Type} (env : Env V U)
    (default_callback : List V → World U → Outcome V U) (self : Nat) (this_method : Method)
    (args : List V) (w : World U) (e : Expectation) (rest : List Expectation)
    (hp : w.repo.state_.expectations_paused = false)
    (hq : w.repo.state_.expected_callback_queue = ⟨e :: rest⟩)
    (hm : ¬ (e.mock = self ∧ e.method = this_method)) :
    MockBase.callInternal env default_callback self this_method args w =
      MockBase.callInternalTail env default_callback self this_method args
        (some e.description) (w.setQueue ⟨rest⟩) := by
  have h : ExpectedCallbackQueue.matchInternal ⟨e :: rest⟩ self this_method = false := by
    rw [Bool.eq_false_iff]
    intro hc
    exact hm ((matchInternal_cons e rest self this_method).mp hc)
  simp [MockBase.callInternal, hp, hq, ExpectedCallbackQueue.isEmpty,
    ExpectedCallbackQueue.peekMatch, h, ExpectedCallbackQueue.peekDescription,
    ExpectedCallbackQueue.pop]

theorem callInternal_of_paused {V U : Type} (env : Env V U)
    (default_callback : List V → World U → Outcome V U) (self : Nat) (this_method : Method)
    (args : List V) (w : World U)
    (hp : w.repo.state_.expectations_paused = true) :
    MockBase.callInternal env default_callback self this_method args w =
      MockBase.callInternalTail env default_callback self this_method args none w := by
  simp [MockBase.callInternal, hp]

theorem callInternal_of_empty {V U : Type} (env : Env V U)
    (default_callback : List V → World U → Outcome V U) (self : Nat) (this_method : Method)
    (args : List V) (w : World U)
    (hq : w.repo.state_.expected_callback_queue = ⟨[]⟩) :
    MockBase.callInternal env default_callback self this_method args w =
      MockBase.callInternalTail env default_callback self this_method args none w := by
  simp [MockBase.callInternal, hq, ExpectedCallbackQueue.isEmpty]

@[simp]
theorem setQueue_queue {U : Type} (w : World U) (q : ExpectedCallbackQueue) :
    (w.setQueue q).repo.state_.expected_callback_queue = q := rfl

@[simp]
theorem setQueue_paused {U : Type} (w : World U) (q : ExpectedCallbackQueue) :
    (w.setQueue q).repo.state_.expectations_paused = w.repo.state_.expectations_paused := rfl

@[simp]
theorem setQueue_fallbacks {U : Type} (w : World U) (q : ExpectedCallbackQueue) :
    (w.setQueue q).repo.state_.fallback_callbacks = w.repo.state_.fallback_callbacks := rfl

@[simp]
theorem setQueue_unexpected {U : Type} (w : World U) (q : ExpectedCallbackQueue) :
    (w.setQueue q).repo.state_.unexpected_call_handler =
      w.repo.state_.unexpected_call_handler := rfl

@[simp]
theorem setQueue_user {U : Type} (w : World U) (q : ExpectedCallbackQueue) :
    (w.setQueue q).user = w.user := rfl

theorem setQueue_repo_congr {U : Type} (w1 w2 : World U) (q : ExpectedCallbackQueue)
    (h : w1.repo = w2.repo) : (w1.setQueue q).repo = (w2.setQueue q).repo := by
  simp [World.setQueue, h]

@[simp]
theorem setQueue_setQueue {U : Type} (w : World U) (q1 q2 : ExpectedCallbackQueue) :
    (w.setQueue q1).setQueue q2 = w.setQueue q2 := rfl

theorem setQueue_same {U : Type} (w : World U) (q : ExpectedCallbackQueue)
    (h : w.repo.state_.expected_callback_queue = q) : w.setQueue q = w := by
  subst h
  rfl

/-- Matching calls in the order of the queue, with callbacks that leave the
repository alone: each step invokes the callback of the expectation at the same
position and nothing else, and the queue shrinks by one per call. -/
theorem callSequence_fifo {V U : Type} (env : Env V U)
    (calls : List (MockCall V U)) :
    ∀ (es : List Expectation) (w : World U),
      (∀ e ∈ es, ∀ args w0, (env.invoke e.callback args w0).2.repo = w0.repo) →
      w.repo.state_.expectations_paused = false →
      w.repo.state_.expected_callback_queue = ⟨es⟩ →
      List.Forall₂ (fun e c => e.mock = c.self ∧ e.method = c.this_method) es calls →
      (callSequence env calls w).map (fun s => s.2.events) =
          List.zipWith (fun e c => [Event.expected e.callback c.args]) es calls ∧
        (∀ i e c, es[i]? = some e → calls[i]? = some c →
          ∃ s, (callSequence env calls w)[i]? = some s ∧
            s.1.repo = (w.setQueue ⟨es.drop i⟩).repo ∧
            s.2.result = (env.invoke e.callback c.args (s.1.setQueue ⟨es.drop (i + 1)⟩)).1 ∧
            s.2.world = (env.invoke e.callback c.args (s.1.setQueue ⟨es.drop (i + 1)⟩)).2 ∧
            s.2.events = [Event.expected e.callback c.args]) ∧
        (callSequenceWorld env calls w).repo = (w.setQueue ⟨[]⟩).repo := by
  induction calls with
  | nil =>
    intro es w _ _ hq hm
    cases hm
    refine ⟨rfl, ?_, ?_⟩
    · intro i e c he
      simp at he
    · simp [callSequenceWorld, setQueue_same w _ hq]
  | cons c cs ih =>
    intro es w hframe hp hq hm
    cases hm with
    | cons hec hrest =>
      rename_i e rest
      have hd := callInternal_of_match env c.default_callback c.self c.this_method c.args w
        e rest hp hq hec
      have hrepo : (env.invoke e.callback c.args (w.setQueue ⟨rest⟩)).2.repo =
          (w.setQueue ⟨rest⟩).repo := hframe e (List.mem_cons_self _ _) _ _
      have hp2 : (env.invoke e.callback c.args (w.setQueue ⟨rest⟩)).2.repo.state_.expectations_paused
          = false := by rw [hrepo]; simpa using hp
      have hq2 : (env.invoke e.callback c.args (w.setQueue ⟨rest⟩)).2.repo.state_.expected_callback_queue
          = ⟨rest⟩ := by rw [hrepo]; simp
      obtain ⟨ih1, ih2, ih3⟩ := ih rest _
        (fun e0 he0 => hframe e0 (List.mem_cons_of_mem _ he0)) hp2 hq2 hrest
      refine ⟨?_, ?_, ?_⟩
      · simp only [callSequence, MockBase.call, hd, List.map_cons, List.zipWith_cons_cons]
        rw [ih1]
      · intro i e0 c0 he hc
        cases i with
        | zero =>
          simp only [List.getElem?_cons_zero, Option.some.injEq] at he hc
          subst he hc
          refine ⟨(w, MockBase.call env c.default_callback c.self c.this_method c.args w),
            by simp [callSequence], ?_, ?_, ?_, ?_⟩
          · simp [setQueue_same w _ hq]
          · simp [MockBase.call, hd]
          · simp [MockBase.call, hd]
          · simp [MockBase.call, hd]
        | succ i =>
          simp only [List.getElem?_cons_succ] at he hc
          obtain ⟨s, hs, hs1, hs2, hs3, hs4⟩ := ih2 i e0 c0 he hc
          refine ⟨s, ?_, ?_, hs2, hs3, hs4⟩
          · simp only [callSequence, MockBase.call, hd, List.getElem?_cons_succ]
            exact hs
          · rw [hs1]
            simpa using setQueue_repo_congr _ _ ⟨List.drop i rest⟩ hrepo
      · simp only [callSequenceWorld, MockBase.call, hd]
        rw [ih3]
        simpa using setQueue_repo_congr _ _ ⟨[]⟩ hrepo

/-! ## Facts about the fallback table -/

theorem scan_eq_head? (method : Method) (l : List (Method × Callback)) :
    FallbackCallbacks.scan method l =
      ((l.filter (fun entry => entry.1 = method)).map (·.2)).head? := by
  induction l with
  | nil => rfl
  | cons x xs ih =>
    obtain ⟨⟨ty, p⟩, cb⟩ := x
    obtain ⟨ty2, p2⟩ := method
    simp only [FallbackCallbacks.scan, Method.any_cast]
    by_cases h1 : ty = ty2
    · by_cases h2 : p = p2
      · simp [h1, h2]
      · simp [h1, h2, ih]
    · simp [h1, ih]

theorem get_eq_getLast? (fb : FallbackCallbacks) (mock : Nat) (method : Method) :
    fb.get mock method = (fb.registered mock method).getLast? := by
  simp only [FallbackCallbacks.get, FallbackCallbacks.getInternal, FallbackCallbacks.registered]
  cases FallbackCallbacks.find fb.callbacks_ mock with
  | none => rfl
  | some l =>
    simp only [scan_eq_head?, List.filter_reverse, List.map_reverse, List.head?_reverse]

theorem find_emplace_back_same (m : List (Nat × List (Method × Callback))) (mock : Nat)
    (method : Method) (callback : Callback) :
    FallbackCallbacks.find (FallbackCallbacks.emplace_back m mock method callback) mock =
      some ((FallbackCallbacks.find m mock).getD [] ++ [(method, callback)]) := by
  induction m with
  | nil => simp [FallbackCallbacks.emplace_back, FallbackCallbacks.find]
  | cons x xs ih =>
    obtain ⟨k, v⟩ := x
    by_cases h : k = mock
    · simp [FallbackCallbacks.emplace_back, FallbackCallbacks.find, h]
    · simp [FallbackCallbacks.emplace_back, FallbackCallbacks.find, h, ih]

theorem find_emplace_back_other (m : List (Nat × List (Method × Callback))) (mock other : Nat)
    (method : Method) (callback : Callback) (h : other ≠ mock) :
    FallbackCallbacks.find (FallbackCallbacks.emplace_back m mock method callback) other =
      FallbackCallbacks.find m other := by
  induction m with
  | nil =>
    simp [FallbackCallbacks.emplace_back, FallbackCallbacks.find, Ne.symm h]
  | cons x xs ih =>
    obtain ⟨k, v⟩ := x
    by_cases hk : k = mock
    · subst hk
      simp [FallbackCallbacks.emplace_back, FallbackCallbacks.find, Ne.symm h]
    · by_cases hk2 : k = other
      · subst hk2
        simp [FallbackCallbacks.emplace_back, FallbackCallbacks.find, hk]
      · simp [FallbackCallbacks.emplace_back, FallbackCallbacks.find, hk, hk2, ih]

theorem registered_add_same (fb : FallbackCallbacks) (mock : Nat) (method : Method)
    (callback : Callback) :
    (fb.add mock method callback).registered mock method =
      fb.registered mock method ++ [callback] := by
  simp only [FallbackCallbacks.registered, FallbackCallbacks.add, find_emplace_back_same]
  cases FallbackCallbacks.find fb.callbacks_ mock <;> simp

theorem registered_add_other (fb : FallbackCallbacks) (mock : Nat) (method : Method)
    (callback : Callback) (mock2 : Nat) (method2 : Method)
    (h : mock2 ≠ mock ∨ method2 ≠ method) :
    (fb.add mock method callback).registered mock2 method2 = fb.registered mock2 method2 := by
  by_cases hm : mock2 = mock
  · subst hm
    have hne : method2 ≠ method := by
      rcases h with h | h
      · exact absurd rfl h
      · exact h
    simp only [FallbackCallbacks.registered, FallbackCallbacks.add, find_emplace_back_same]
    cases FallbackCallbacks.find fb.callbacks_ mock2 <;> simp [Ne.symm hne]
  · simp only [FallbackCallbacks.registered, FallbackCallbacks.add,
      find_emplace_back_other _ _ _ _ _ hm]

/-! ## Facts about lines 234-246 of `callInternal` -/

theorem callInternalTail_of_fallback {V U : Type} (env : Env V U)
    (default_callback : List V → World U → Outcome V U) (self : Nat) (this_method : Method)
    (args : List V) (description : Option String) (w : World U) (f : Callback)
    (hf : (w.repo.state_.fallback_callbacks.registered self this_method).getLast? = some f) :
    MockBase.callInternalTail env default_callback self this_method args description w =
      ⟨(env.invoke f args w).1, (env.invoke f args w).2, [Event.fallback f args]⟩ := by
  rw [← get_eq_getLast?] at hf
  simp [MockBase.callInternalTail, hf]

theorem callInternalTail_of_paused {V U : Type} (env : Env V U)
    (default_callback : List V → World U → Outcome V U) (self : Nat) (this_method : Method)
    (args : List V) (description : Option String) (w : World U)
    (hf : w.repo.state_.fallback_callbacks.registered self this_method = [])
    (hp : w.repo.state_.expectations_paused = true) :
    MockBase.callInternalTail env default_callback self this_method args description w =
      ⟨(default_callback args w).1, (default_callback args w).2, [Event.default_call args]⟩ := by
  have hg : w.repo.state_.fallback_callbacks.get self this_method = none := by
    rw [get_eq_getLast?, hf]; rfl
  simp [MockBase.callInternalTail, hg, hp]

theorem callInternalTail_of_no_handler {V U : Type} (env : Env V U)
    (default_callback : List V → World U → Outcome V U) (self : Nat) (this_method : Method)
    (args : List V) (description : Option String) (w : World U)
    (hf : w.repo.state_.fallback_callbacks.registered self this_method = [])
    (hh : w.repo.state_.unexpected_call_handler = none) :
    MockBase.callInternalTail env default_callback self this_method args description w =
      ⟨(default_callback args w).1, (default_callback args w).2, [Event.default_call args]⟩ := by
  have hg : w.repo.state_.fallback_callbacks.get self this_method = none := by
    rw [get_eq_getLast?, hf]; rfl
  cases hp : w.repo.state_.expectations_paused <;>
    simp [MockBase.callInternalTail, hg, hp, hh]

theorem callInternalTail_of_handler_ok {V U : Type} (env : Env V U)
    (default_callback : List V → World U → Outcome V U) (self : Nat) (this_method : Method)
    (args : List V) (description : Option String) (w : World U) (handler : Handler)
    (hf : w.repo.state_.fallback_callbacks.registered self this_method = [])
    (hp : w.repo.state_.expectations_paused = false)
    (hh : w.repo.state_.unexpected_call_handler = some handler)
    (hok : (env.unexpected_call handler description w).1 = Except.ok ()) :
    MockBase.callInternalTail env default_callback self this_method args description w =
      ⟨(default_callback args (env.unexpected_call handler description w).2).1,
        (default_callback args (env.unexpected_call handler description w).2).2,
        [Event.unexpected handler description, Event.default_call args]⟩ := by
  have hg : w.repo.state_.fallback_callbacks.get self this_method = none := by
    rw [get_eq_getLast?, hf]; rfl
  simp [MockBase.callInternalTail, hg, hp, hh, hok]

theorem callInternalTail_of_handler_throws {V U : Type} (env : Env V U)
    (default_callback : List V → World U → Outcome V U) (self : Nat) (this_method : Method)
    (args : List V) (description : Option String) (w : World U) (handler : Handler) (e : Exn)
    (hf : w.repo.state_.fallback_callbacks.registered self this_method = [])
    (hp : w.repo.state_.expectations_paused = false)
    (hh : w.repo.state_.unexpected_call_handler = some handler)
    (hthrow : (env.unexpected_call handler description w).1 = Except.error e) :
    MockBase.callInternalTail env default_callback self this_method args description w =
      ⟨Except.error e, (env.unexpected_call handler description w).2,
        [Event.unexpected handler description]⟩ := by
  have hg : w.repo.state_.fallback_callbacks.get self this_method = none := by
    rw [get_eq_getLast?, hf]; rfl
  simp [MockBase.callInternalTail, hg, hp, hh, hthrow]

/-! ## C1: FIFO consumption -/

/-- C1.  In an unpaused session, calls that match the queued expectations position by
position, with callbacks that do not change the repository, are served in queue
order: the i-th call is made with the queue holding expectations i.., invokes exactly
the callback of the i-th expectation (no fallback, no default callback, no handler),
on the state with that expectation removed, and yields that callback's outcome;
afterwards the queue is empty and the rest of the repository is as before. -/
theorem fifo_consumption {V U : Type} (env : Env V U) (w : World U)
    (calls : List (MockCall V U))
    (hframe : ∀ e ∈ w.repo.state_.expected_callback_queue.callbacks_,
      ∀ args w0, (env.invoke e.callback args w0).2.repo = w0.repo)
    (hp : w.repo.state_.expectations_paused = false)
    (hmatch : List.Forall₂ (fun e c => e.mock = c.self ∧ e.method = c.this_method)
      w.repo.state_.expected_callback_queue.callbacks_ calls) :
    (callSequence env calls w).map (fun s => s.2.events) =
        List.zipWith (fun e c => [Event.expected e.callback c.args])
          w.repo.state_.expected_callback_queue.callbacks_ calls ∧
      (∀ i e c, w.repo.state_.expected_callback_queue.callbacks_[i]? = some e →
        calls[i]? = some c →
        ∃ s, (callSequence env calls w)[i]? = some s ∧
          s.1.repo =
            (w.setQueue ⟨w.repo.state_.expected_callback_queue.callbacks_.drop i⟩).repo ∧
          s.2.result = (env.invoke e.callback c.args
            (s.1.setQueue ⟨w.repo.state_.expected_callback_queue.callbacks_.drop (i + 1)⟩)).1 ∧
          s.2.world = (env.invoke e.callback c.args
            (s.1.setQueue ⟨w.repo.state_.expected_callback_queue.callbacks_.drop (i + 1)⟩)).2 ∧
          s.2.events = [Event.expected e.callback c.args]) ∧
      (callSequenceWorld env calls w).repo = (w.setQueue ⟨[]⟩).repo :=
  callSequence_fifo env calls _ w hframe hp rfl hmatch

/-- C1 on the subcase "Correct order": `voidArgTest()` then `oneArgTest(123)` against
the expectations "call 1", "call 2". -/
theorem fifo_consumption_witness :
    (∀ e ∈ InterfaceTest.expectationsOrder.repo.state_.expected_callback_queue.callbacks_,
      ∀ args w0, (InterfaceTest.env.invoke e.callback args w0).2.repo = w0.repo) ∧
    InterfaceTest.expectationsOrder.repo.state_.expectations_paused = false ∧
    List.Forall₂ (fun e c => e.mock = c.self ∧ e.method = c.this_method)
      InterfaceTest.expectationsOrder.repo.state_.expected_callback_queue.callbacks_
      [InterfaceTest.mockCall InterfaceTest.voidArgTest [],
        InterfaceTest.mockCall InterfaceTest.oneArgTest [123]] ∧
    (callSequence InterfaceTest.env
        [InterfaceTest.mockCall InterfaceTest.voidArgTest [],
          InterfaceTest.mockCall InterfaceTest.oneArgTest [123]]
        InterfaceTest.expectationsOrder).map (fun s => s.2.events) =
      [[Event.expected 0 []], [Event.expected 0 [123]]] ∧
    (callSequenceWorld InterfaceTest.env
        [InterfaceTest.mockCall InterfaceTest.voidArgTest [],
          InterfaceTest.mockCall InterfaceTest.oneArgTest [123]]
        InterfaceTest.expectationsOrder).repo.state_.expected_callback_queue = ⟨[]⟩ := by
  have h1 : ∀ e ∈
      InterfaceTest.expectationsOrder.repo.state_.expected_callback_queue.callbacks_,
      ∀ args w0, (InterfaceTest.env.invoke e.callback args w0).2.repo = w0.repo :=
    fun _ _ _ _ => rfl
  have h2 : InterfaceTest.expectationsOrder.repo.state_.expectations_paused = false := by
    decide
  have h3 : List.Forall₂ (fun e c => e.mock = c.self ∧ e.method = c.this_method)
      InterfaceTest.expectationsOrder.repo.state_.expected_callback_queue.callbacks_
      [InterfaceTest.mockCall InterfaceTest.voidArgTest [],
        InterfaceTest.mockCall InterfaceTest.oneArgTest [123]] := by
    decide
  have h := fifo_consumption InterfaceTest.env InterfaceTest.expectationsOrder
    [InterfaceTest.mockCall InterfaceTest.voidArgTest [],
      InterfaceTest.mockCall InterfaceTest.oneArgTest [123]] h1 h2 h3
  refine ⟨h1, h2, h3, ?_, ?_⟩
  · rw [h.1]
    decide
  · rw [h.2.2]
    rfl

/-! ## C2: out-of-order call without a fallback -/

/-- C2 as stated fails when the unexpected-call handler throws.  With the handler of
`Fixture` installed (its `REQUIRE_MESSAGE(false, ...)` throws), queue
["call 1" on voidArgTest, "call 2" on oneArgTest] and no fallback, `oneArgTest(1)`
invokes the handler with "call 1" and then leaves by the exception: the default
callback is not invoked and its result is not returned. -/
theorem out_of_order_throwing_handler_counterexample :
    InterfaceTest.expectationsOrder.repo.state_.expectations_paused = false ∧
    InterfaceTest.expectationsOrder.repo.state_.expected_callback_queue.callbacks_ =
      [⟨"call 1", InterfaceTest.mock, InterfaceTest.voidArgTest, 0⟩,
        ⟨"call 2", InterfaceTest.mock, InterfaceTest.oneArgTest, 0⟩] ∧
    InterfaceTest.expectationsOrder.repo.state_.unexpected_call_handler = some 1 ∧
    InterfaceTest.expectationsOrder.repo.state_.fallback_callbacks.registered
      InterfaceTest.mock InterfaceTest.oneArgTest = [] ∧
    (MockBase.callInternal InterfaceTest.env InterfaceTest.default_callback InterfaceTest.mock
      InterfaceTest.oneArgTest [1] InterfaceTest.expectationsOrder).events =
        [Event.unexpected 1 (some "call 1")] ∧
    (MockBase.callInternal InterfaceTest.env InterfaceTest.default_callback InterfaceTest.mock
      InterfaceTest.oneArgTest [1] InterfaceTest.expectationsOrder).result =
        Except.error (Exn.thrown 1) ∧
    ∀ w0, (MockBase.callInternal InterfaceTest.env InterfaceTest.default_callback
      InterfaceTest.mock InterfaceTest.oneArgTest [1] InterfaceTest.expectationsOrder).result ≠
        (InterfaceTest.default_callback [1] w0).1 := by
  refine ⟨by decide, by decide, by decide, by decide, by decide, rfl, ?_⟩
  intro w0 h
  have h2 : (MockBase.callInternal InterfaceTest.env InterfaceTest.default_callback
      InterfaceTest.mock InterfaceTest.oneArgTest [1] InterfaceTest.expectationsOrder).result =
        Except.error (Exn.thrown 1) := rfl
  rw [h2] at h
  simp [InterfaceTest.default_callback] at h

/-- C2 (amended).  In an unpaused session whose queue is `head :: rest`, with an
unexpected-call handler installed, a call whose (mock, method) differs from the
head's and for which no fallback is registered removes exactly the head (the
handler already sees the queue `rest`) and invokes the handler once with the head's
description.  If the handler returns, the default callback is invoked next, on the
state the handler left, and its outcome is the outcome of the call; if the handler
throws, the exception leaves the call and the default callback is not invoked.  In
the subcase "Incorrect order" the two tracking handlers receive "call 1" and then
"call 2", and the queue ends empty. -/
theorem out_of_order_without_fallback {V U : Type} (env : Env V U)
    (default_callback : List V → World U → Outcome V U) (self : Nat) (this_method : Method)
    (args : List V) (w : World U) (head : Expectation) (rest : List Expectation)
    (handler : Handler)
    (hp : w.repo.state_.expectations_paused = false)
    (hq : w.repo.state_.expected_callback_queue = ⟨head :: rest⟩)
    (hh : w.repo.state_.unexpected_call_handler = some handler)
    (hm : ¬ (head.mock = self ∧ head.method = this_method))
    (hf : w.repo.state_.fallback_callbacks.registered self this_method = []) :
    ((env.unexpected_call handler (some head.description) (w.setQueue ⟨rest⟩)).1 = Except.ok () →
      MockBase.callInternal env default_callback self this_method args w =
        ⟨(default_callback args
            (env.unexpected_call handler (some head.description) (w.setQueue ⟨rest⟩)).2).1,
          (default_callback args
            (env.unexpected_call handler (some head.description) (w.setQueue ⟨rest⟩)).2).2,
          [Event.unexpected handler (some head.description), Event.default_call args]⟩) ∧
    (∀ e, (env.unexpected_call handler (some head.description) (w.setQueue ⟨rest⟩)).1 =
        Except.error e →
      MockBase.callInternal env default_callback self this_method args w =
        ⟨Except.error e,
          (env.unexpected_call handler (some head.description) (w.setQueue ⟨rest⟩)).2,
          [Event.unexpected handler (some head.description)]⟩) ∧
    (InterfaceTest.incorrectOrderFirst.events =
        [Event.unexpected 2 (some "call 1"), Event.default_call [1]] ∧
      InterfaceTest.incorrectOrderFirst.world.repo.state_.expected_callback_queue.callbacks_ =
        [⟨"call 2", InterfaceTest.mock, InterfaceTest.oneArgTest, 0⟩] ∧
      InterfaceTest.incorrectOrderSecond.events =
        [Event.unexpected 3 (some "call 2"), Event.default_call []] ∧
      InterfaceTest.incorrectOrderSecond.world.user = [some "call 1", some "call 2"] ∧
      InterfaceTest.incorrectOrderSecond.world.repo.state_.expected_callback_queue.callbacks_ =
        []) := by
  have hd := callInternal_of_mismatch env default_callback self this_method args w head rest
    hp hq hm
  refine ⟨?_, ?_, ?_⟩
  · intro hok
    rw [hd]
    exact callInternalTail_of_handler_ok env default_callback self this_method args _ _ handler
      (by simpa using hf) (by simpa using hp) (by simpa using hh) hok
  · intro e he
    rw [hd]
    exact callInternalTail_of_handler_throws env default_callback self this_method args _ _
      handler e (by simpa using hf) (by simpa using hp) (by simpa using hh) he
  · refine ⟨by decide, by decide, by decide, by decide, by decide⟩

/-- C2 (amended) on the first call of the subcase "Incorrect order". -/
theorem out_of_order_without_fallback_witness :
    (InterfaceTest.expect InterfaceTest.fixture "call 1" InterfaceTest.voidArgTest
      0).repo.state_.expectations_paused = false ∧
    (InterfaceTest.expect InterfaceTest.fixture "call 1" InterfaceTest.voidArgTest
      0).repo.state_.expected_callback_queue =
        ⟨[⟨"call 1", InterfaceTest.mock, InterfaceTest.voidArgTest, 0⟩]⟩ ∧
    (InterfaceTest.expect InterfaceTest.fixture "call 1" InterfaceTest.voidArgTest
      0).repo.state_.unexpected_call_handler = some 1 ∧
    ¬ (InterfaceTest.mock = InterfaceTest.mock ∧
      InterfaceTest.voidArgTest = InterfaceTest.oneArgTest) ∧
    (InterfaceTest.expect InterfaceTest.fixture "call 1" InterfaceTest.voidArgTest
      0).repo.state_.fallback_callbacks.registered InterfaceTest.mock
        InterfaceTest.oneArgTest = [] ∧
    MockBase.callInternal InterfaceTest.env InterfaceTest.default_callback InterfaceTest.mock
      InterfaceTest.oneArgTest [1]
      (InterfaceTest.expect InterfaceTest.fixture "call 1" InterfaceTest.voidArgTest 0) =
        ⟨Except.error (Exn.thrown 1),
          (InterfaceTest.expect InterfaceTest.fixture "call 1" InterfaceTest.voidArgTest
            0).setQueue ⟨[]⟩,
          [Event.unexpected 1 (some "call 1")]⟩ :=
  ⟨by decide, by decide, by decide, by decide, by decide,
    (out_of_order_without_fallback InterfaceTest.env InterfaceTest.default_callback
      InterfaceTest.mock InterfaceTest.oneArgTest [1]
      (InterfaceTest.expect InterfaceTest.fixture "call 1" InterfaceTest.voidArgTest 0)
      ⟨"call 1", InterfaceTest.mock, InterfaceTest.voidArgTest, 0⟩ [] 1
      (by decide) (by decide) (by decide) (by decide) (by decide)).2.1 (Exn.thrown 1) rfl⟩

/-! ## C3: what happens to the popped head -/

/-- C3 as stated fails when a fallback is registered for the mismatching call.  Queue
["call 1" on voidArgTest, "call 2" on oneArgTest], a tracking handler installed, a
fallback on returnTest: `returnTest()` pops "call 1", invokes the fallback and
nothing else; the handler is never invoked (the tracker stays empty) and the callback
of "call 1" is not invoked either. -/
theorem popped_head_unreported_counterexample :
    InterfaceTest.orderWithFallback.repo.state_.expectations_paused = false ∧
    InterfaceTest.orderWithFallback.repo.state_.expected_callback_queue.callbacks_ =
      [⟨"call 1", InterfaceTest.mock, InterfaceTest.voidArgTest, 0⟩,
        ⟨"call 2", InterfaceTest.mock, InterfaceTest.oneArgTest, 0⟩] ∧
    InterfaceTest.orderWithFallback.repo.state_.unexpected_call_handler = some 2 ∧
    InterfaceTest.voidArgTest ≠ InterfaceTest.returnTest ∧
    (MockBase.callInternal InterfaceTest.env InterfaceTest.default_callback InterfaceTest.mock
      InterfaceTest.returnTest [] InterfaceTest.orderWithFallback).events =
        [Event.fallback 123 []] ∧
    (MockBase.callInternal InterfaceTest.env InterfaceTest.default_callback InterfaceTest.mock
      InterfaceTest.returnTest []
      InterfaceTest.orderWithFallback).world.repo.state_.expected_callback_queue.callbacks_ =
        [⟨"call 2", InterfaceTest.mock, InterfaceTest.oneArgTest, 0⟩] ∧
    (MockBase.callInternal InterfaceTest.env InterfaceTest.default_callback InterfaceTest.mock
      InterfaceTest.returnTest [] InterfaceTest.orderWithFallback).world.user = [] := by
  refine ⟨by decide, by decide, by decide, by decide, by decide, by decide, by decide⟩

/-- C3 (amended).  For an unpaused dispatch on a queue `head :: rest` with an
unexpected-call handler installed: if the call's (mock, method) is the head's, the
dispatch pops the head and invokes the head's callback (on the queue `rest`) and
nothing else, whatever fallbacks are registered; if it differs and no fallback is
registered for the call, the dispatch pops the head and invokes the handler with the
head's description (on a state whose queue is `rest`), followed by the default
callback when the handler returns. -/
theorem popped_head_fate {V U : Type} (env : Env V U)
    (default_callback : List V → World U → Outcome V U) (self : Nat) (this_method : Method)
    (args : List V) (w : World U) (head : Expectation) (rest : List Expectation)
    (handler : Handler)
    (hp : w.repo.state_.expectations_paused = false)
    (hq : w.repo.state_.expected_callback_queue = ⟨head :: rest⟩)
    (hh : w.repo.state_.unexpected_call_handler = some handler) :
    ((head.mock = self ∧ head.method = this_method) →
      MockBase.callInternal env default_callback self this_method args w =
        ⟨(env.invoke head.callback args (w.setQueue ⟨rest⟩)).1,
          (env.invoke head.callback args (w.setQueue ⟨rest⟩)).2,
          [Event.expected head.callback args]⟩) ∧
    (¬ (head.mock = self ∧ head.method = this_method) →
      w.repo.state_.fallback_callbacks.registered self this_method = [] →
      (MockBase.callInternal env default_callback self this_method args w).events =
        Event.unexpected handler (some head.description) ::
          (match (env.unexpected_call handler (some head.description)
              (w.setQueue ⟨rest⟩)).1 with
            | Except.ok _ => [Event.default_call args]
            | Except.error _ => []) ∧
      (MockBase.callInternal env default_callback self this_method args w).world =
        (match (env.unexpected_call handler (some head.description) (w.setQueue ⟨rest⟩)).1 with
          | Except.ok _ =>
            (default_callback args
              (env.unexpected_call handler (some head.description) (w.setQueue ⟨rest⟩)).2).2
          | Except.error _ =>
            (env.unexpected_call handler (some head.description) (w.setQueue ⟨rest⟩)).2)) := by
  refine ⟨?_, ?_⟩
  · intro hm
    exact callInternal_of_match env default_callback self this_method args w head rest hp hq hm
  · intro hm hf
    rw [callInternal_of_mismatch env default_callback self this_method args w head rest hp hq hm]
    cases hr : (env.unexpected_call handler (some head.description) (w.setQueue ⟨rest⟩)).1 with
    | error e =>
      rw [callInternalTail_of_handler_throws env default_callback self this_method args _ _
        handler e (by simpa using hf) (by simpa using hp) (by simpa using hh) hr]
      exact ⟨rfl, rfl⟩
    | ok u =>
      cases u
      rw [callInternalTail_of_handler_ok env default_callback self this_method args _ _
        handler (by simpa using hf) (by simpa using hp) (by simpa using hh) hr]
      exact ⟨rfl, rfl⟩

/-- C3 (amended) on the expectations of "Expectations order" with a tracking handler:
`returnTest()` has no fallback and differs from the head "call 1", which is reported. -/
theorem popped_head_fate_witness :
    InterfaceTest.incorrectOrderFirst.world.repo.state_.expectations_paused = false ∧
    InterfaceTest.incorrectOrderFirst.world.repo.state_.expected_callback_queue =
      ⟨[⟨"call 2", InterfaceTest.mock, InterfaceTest.oneArgTest, 0⟩]⟩ ∧
    InterfaceTest.incorrectOrderFirst.world.repo.state_.unexpected_call_handler = some 2 ∧
    ¬ (InterfaceTest.mock = InterfaceTest.mock ∧
      InterfaceTest.oneArgTest = InterfaceTest.returnTest) ∧
    InterfaceTest.incorrectOrderFirst.world.repo.state_.fallback_callbacks.registered
      InterfaceTest.mock InterfaceTest.returnTest = [] ∧
    (MockBase.callInternal InterfaceTest.env InterfaceTest.default_callback InterfaceTest.mock
      InterfaceTest.returnTest [] InterfaceTest.incorrectOrderFirst.world).events =
        [Event.unexpected 2 (some "call 2"), Event.default_call []] :=
  ⟨by decide, by decide, by decide, by decide, by decide,
    ((popped_head_fate InterfaceTest.env InterfaceTest.default_callback InterfaceTest.mock
      InterfaceTest.returnTest [] InterfaceTest.incorrectOrderFirst.world
      ⟨"call 2", InterfaceTest.mock, InterfaceTest.oneArgTest, 0⟩ [] 2
      (by decide) (by decide) (by decide)).2 (by decide) (by decide)).1⟩

/-! ## C4 and C5: recording an expectation -/

theorem expectedCallInternal_mocks (r : Repo) (description : String) (mock : Nat)
    (method : Method) (callback : Callback) :
    (r.expectedCallInternal description mock method callback).2.mocks_ = r.mocks_ := by
  unfold Repo.expectedCallInternal
  split <;> rfl

theorem perform_mocks_mono (r : Repo) (op : Repo.Operation) (mock : Nat)
    (h : mock ∈ r.mocks_) : mock ∈ (r.perform op).mocks_ := by
  cases op with
  | create address => simp [Repo.perform, Repo.create, h]
  | expectCall description m method callback =>
    simpa [Repo.perform, Repo.expectCall, expectedCallInternal_mocks] using h
  | onCall m method callback => exact h
  | pauseExpectations => exact h
  | resumeExpectations => exact h
  | setUnexpectedCallHandler handler => exact h
  | setMissingCallHandler handler => exact h

theorem performAll_mocks_mono (ops : List Repo.Operation) :
    ∀ (r : Repo) (mock : Nat), mock ∈ r.mocks_ → mock ∈ (r.performAll ops).mocks_ := by
  induction ops with
  | nil => intro r mock h; exact h
  | cons op ops ih =>
    intro r mock h
    exact ih (r.perform op) mock (perform_mocks_mono r op mock h)

/-- C4.  For a mock address that is not in `mocks_`, `Repo::expectCall` throws
`std::invalid_argument` and the repository (queue, fallback table, paused flag,
handlers, `mocks_`) is exactly what it was. -/
theorem expectCall_unknown_mock (r : Repo) (description : String) (mock : Nat)
    (method : Method) (callback : Callback) (h : mock ∉ r.mocks_) :
    r.expectCall description mock method callback =
      (Except.error (Exn.invalid_argument Repo.notCreatedMessage), r) := by
  simp [Repo.expectCall, Repo.expectedCallInternal, Repo.count, h]

/-- C4 on the fixture: address 5 was never created. -/
theorem expectCall_unknown_mock_witness :
    5 ∉ InterfaceTest.fixture.repo.mocks_ ∧
    InterfaceTest.fixture.repo.expectCall "stray" 5 InterfaceTest.voidArgTest 0 =
      (Except.error (Exn.invalid_argument Repo.notCreatedMessage),
        InterfaceTest.fixture.repo) :=
  ⟨by decide,
    expectCall_unknown_mock InterfaceTest.fixture.repo "stray" 5 InterfaceTest.voidArgTest 0
      (by decide)⟩

/-- C5.  For a mock address in `mocks_`, `Repo::expectCall` does not throw and
appends exactly one entry (description, mock, method, callback) behind the existing
ones; the paused flag, fallback table, handlers and `mocks_` stay as they were.  The
call throws exactly when the address is not in `mocks_`.  An address returned by
`Repo::create` is in `mocks_` and stays there through every later public member
function. -/
theorem expectCall_appends (r : Repo) (description : String) (mock : Nat)
    (method : Method) (callback : Callback) :
    (mock ∈ r.mocks_ →
      r.expectCall description mock method callback =
        (Except.ok (),
          { mocks_ := r.mocks_,
            state_ :=
              { expectations_paused := r.state_.expectations_paused,
                expected_callback_queue :=
                  ⟨r.state_.expected_callback_queue.callbacks_ ++
                    [⟨description, mock, method, callback⟩]⟩,
                fallback_callbacks := r.state_.fallback_callbacks,
                unexpected_call_handler := r.state_.unexpected_call_handler,
                missing_call_handler := r.state_.missing_call_handler } })) ∧
    ((r.expectCall description mock method callback).1 =
        Except.error (Exn.invalid_argument Repo.notCreatedMessage) ↔ mock ∉ r.mocks_) ∧
    ((r.expectCall description mock method callback).1 = Except.ok () ↔ mock ∈ r.mocks_) ∧
    (∀ (r0 : Repo) (address : Nat) (ops : List Repo.Operation),
      (r0.create address).1 = address ∧
      address ∈ ((r0.create address).2.performAll ops).mocks_) := by
  refine ⟨?_, ?_, ?_, ?_⟩
  · intro h
    simp [Repo.expectCall, Repo.expectedCallInternal, Repo.count, h,
      ExpectedCallbackQueue.push]
  · by_cases h : mock ∈ r.mocks_ <;>
      simp [Repo.expectCall, Repo.expectedCallInternal, Repo.count, h]
  · by_cases h : mock ∈ r.mocks_ <;>
      simp [Repo.expectCall, Repo.expectedCallInternal, Repo.count, h]
  · intro r0 address ops
    refine ⟨rfl, ?_⟩
    apply performAll_mocks_mono
    simp [Repo.create]

/-- C5 on the fixture: the first `expectCall` of "Expectations order". -/
theorem expectCall_appends_witness :
    InterfaceTest.mock ∈ InterfaceTest.fixture.repo.mocks_ ∧
    InterfaceTest.fixture.repo.expectCall "call 1" InterfaceTest.mock
        InterfaceTest.voidArgTest 0 =
      (Except.ok (),
        { mocks_ := InterfaceTest.fixture.repo.mocks_,
          state_ :=
            { expectations_paused := false,
              expected_callback_queue :=
                ⟨[⟨"call 1", InterfaceTest.mock, InterfaceTest.voidArgTest, 0⟩]⟩,
              fallback_callbacks := ⟨[]⟩,
              unexpected_call_handler := some 1,
              missing_call_handler := some 1 } }) :=
  ⟨by decide,
    (expectCall_appends InterfaceTest.fixture.repo "call 1" InterfaceTest.mock
      InterfaceTest.voidArgTest 0).1 (by decide)⟩

/-! ## C6: fallback shadowing -/

theorem expectedCallInternal_fallbacks (r : Repo) (description : String) (mock : Nat)
    (method : Method) (callback : Callback) :
    (r.expectedCallInternal description mock method callback).2.state_.fallback_callbacks =
      r.state_.fallback_callbacks := by
  unfold Repo.expectedCallInternal
  split <;> rfl

theorem perform_registered (r : Repo) (op : Repo.Operation) (mock : Nat) (method : Method)
    (h : ∀ callback, op ≠ Repo.Operation.onCall mock method callback) :
    (r.perform op).state_.fallback_callbacks.registered mock method =
      r.state_.fallback_callbacks.registered mock method := by
  cases op with
  | create address => rfl
  | expectCall description m method2 callback =>
    simp [Repo.perform, Repo.expectCall, expectedCallInternal_fallbacks]
  | onCall m method2 callback =>
    have hne : mock ≠ m ∨ method ≠ method2 := by
      by_contra hc
      simp only [not_or, not_not] at hc
      exact h callback (by rw [hc.1, hc.2])
    exact registered_add_other _ _ _ _ _ _ hne
  | pauseExpectations => rfl
  | resumeExpectations => rfl
  | setUnexpectedCallHandler handler => rfl
  | setMissingCallHandler handler => rfl

theorem performAll_registered (ops : List Repo.Operation) (mock : Nat) (method : Method) :
    ∀ (r : Repo), (∀ op ∈ ops, ∀ callback, op ≠ Repo.Operation.onCall mock method callback) →
      (r.performAll ops).state_.fallback_callbacks.registered mock method =
        r.state_.fallback_callbacks.registered mock method := by
  induction ops with
  | nil => intro r _; rfl
  | cons op ops ih =>
    intro r h
    have h1 := perform_registered r op mock method (h op (List.mem_cons_self _ _))
    have h2 := ih (r.perform op) (fun o ho => h o (List.mem_cons_of_mem _ ho))
    simp only [Repo.performAll, List.foldl_cons] at h2 ⊢
    rw [h2, h1]

/-- C6.  `FallbackCallbacks::get` returns the callback of the latest entry that `add`
stored for the mock under the queried method, and the empty callback when there is
none (`registered` lists those entries oldest first; `add` appends to it).  After
`onCall` of F1 and then of F2 for the same (mock, method), and any later public
member functions other than a further `onCall` for that (mock, method), the latest
entry is F2; and every call on that (mock, method) that is not matched against the
queue head (paused, empty queue, or a head for another mock or method, which is
popped) invokes F2 and nothing else. -/
theorem fallback_shadowing :
    (∀ (fb : FallbackCallbacks) (mock : Nat) (method : Method),
      fb.get mock method = (fb.registered mock method).getLast?) ∧
    (∀ (mock : Nat) (method : Method),
      (FallbackCallbacks.mk []).registered mock method = []) ∧
    (∀ (fb : FallbackCallbacks) (mock : Nat) (method : Method) (callback : Callback),
      (fb.add mock method callback).registered mock method =
        fb.registered mock method ++ [callback]) ∧
    (∀ (fb : FallbackCallbacks) (mock : Nat) (method : Method),
      fb.registered mock method = [] → fb.get mock method = none) ∧
    (∀ (r : Repo) (mock : Nat) (method : Method) (F1 F2 : Callback)
      (ops : List Repo.Operation),
      (∀ op ∈ ops, ∀ callback, op ≠ Repo.Operation.onCall mock method callback) →
      (((r.onCall mock method F1).onCall mock method F2).performAll
          ops).state_.fallback_callbacks.registered mock method =
        r.state_.fallback_callbacks.registered mock method ++ [F1, F2] ∧
      (((r.onCall mock method F1).onCall mock method F2).performAll
          ops).state_.fallback_callbacks.get mock method = some F2) ∧
    (∀ {V U : Type} (env : Env V U) (default_callback : List V → World U → Outcome V U)
      (self : Nat) (this_method : Method) (args : List V) (w : World U)
      (older : List Callback) (F2 : Callback),
      w.repo.state_.fallback_callbacks.registered self this_method = older ++ [F2] →
      ((w.repo.state_.expectations_paused = true ∨
          w.repo.state_.expected_callback_queue = ⟨[]⟩) →
        MockBase.callInternal env default_callback self this_method args w =
          ⟨(env.invoke F2 args w).1, (env.invoke F2 args w).2, [Event.fallback F2 args]⟩) ∧
      (∀ head rest, w.repo.state_.expectations_paused = false →
        w.repo.state_.expected_callback_queue = ⟨head :: rest⟩ →
        ¬ (head.mock = self ∧ head.method = this_method) →
        MockBase.callInternal env default_callback self this_method args w =
          ⟨(env.invoke F2 args (w.setQueue ⟨rest⟩)).1,
            (env.invoke F2 args (w.setQueue ⟨rest⟩)).2, [Event.fallback F2 args]⟩)) := by
  refine ⟨get_eq_getLast?, fun _ _ => rfl, registered_add_same, ?_, ?_, ?_⟩
  · intro fb mock method h
    rw [get_eq_getLast?, h]
    rfl
  · intro r mock method F1 F2 ops hops
    have h1 := performAll_registered ops mock method
      ((r.onCall mock method F1).onCall mock method F2) hops
    have h2 : ((r.onCall mock method F1).onCall mock method
        F2).state_.fallback_callbacks.registered mock method =
        r.state_.fallback_callbacks.registered mock method ++ [F1, F2] := by
      simp [Repo.onCall, registered_add_same]
    refine ⟨by rw [h1, h2], ?_⟩
    rw [get_eq_getLast?, h1, h2]
    simp
  · intro V U env default_callback self this_method args w older F2 hreg
    have hlast : (w.repo.state_.fallback_callbacks.registered self this_method).getLast? =
        some F2 := by rw [hreg]; simp
    refine ⟨?_, ?_⟩
    · intro h
      rcases h with h | h
      · rw [callInternal_of_paused env default_callback self this_method args w h]
        exact callInternalTail_of_fallback env default_callback self this_method args _ _ F2
          hlast
      · rw [callInternal_of_empty env default_callback self this_method args w h]
        exact callInternalTail_of_fallback env default_callback self this_method args _ _ F2
          hlast
    · intro head rest hp hq hm
      rw [callInternal_of_mismatch env default_callback self this_method args w head rest hp hq
        hm]
      exact callInternalTail_of_fallback env default_callback self this_method args _ _ F2
        (by simpa using hlast)

/-- C6 on two fallbacks for `returnTest`: the lookup yields the second one and the call
returns 321. -/
theorem fallback_shadowing_witness :
    InterfaceTest.shadowed.repo.state_.fallback_callbacks.registered InterfaceTest.mock
      InterfaceTest.returnTest = [123] ++ [321] ∧
    (InterfaceTest.shadowed.repo.state_.expectations_paused = true ∨
      InterfaceTest.shadowed.repo.state_.expected_callback_queue = ⟨[]⟩) ∧
    MockBase.callInternal InterfaceTest.env InterfaceTest.default_callback InterfaceTest.mock
      InterfaceTest.returnTest [] InterfaceTest.shadowed =
        ⟨Except.ok 321, InterfaceTest.shadowed, [Event.fallback 321 []]⟩ :=
  ⟨by decide, Or.inr (by decide),
    (fallback_shadowing.2.2.2.2.2 InterfaceTest.env InterfaceTest.default_callback
      InterfaceTest.mock InterfaceTest.returnTest [] InterfaceTest.shadowed [123] 321
      (by decide)).1 (Or.inr (by decide))⟩

/-! ## C7 and C8: expectation before fallback, fallback on an empty queue -/

/-- C7.  In an unpaused session whose queue head has the call's (mock, method), with a
fallback registered for the same (mock, method), the dispatch pops the head, invokes
the head's callback and nothing else (so not the fallback), and yields that
callback's outcome.  If the queue is then empty and the fallback is still the latest
one registered, the next call on the same (mock, method) invokes the fallback and
yields its outcome.  In the subcase "With expected call" the two calls return 123
and 321. -/
theorem expectation_before_fallback {V U : Type} (env : Env V U)
    (default_callback : List V → World U → Outcome V U) (self : Nat) (this_method : Method)
    (args : List V) (w : World U) (head : Expectation) (rest : List Expectation)
    (fallback : Callback)
    (hp : w.repo.state_.expectations_paused = false)
    (hq : w.repo.state_.expected_callback_queue = ⟨head :: rest⟩)
    (hm : head.mock = self ∧ head.method = this_method)
    (_hf : (w.repo.state_.fallback_callbacks.registered self this_method).getLast? =
      some fallback) :
    MockBase.callInternal env default_callback self this_method args w =
        ⟨(env.invoke head.callback args (w.setQueue ⟨rest⟩)).1,
          (env.invoke head.callback args (w.setQueue ⟨rest⟩)).2,
          [Event.expected head.callback args]⟩ ∧
    (∀ (args2 : List V),
      (MockBase.callInternal env default_callback self this_method args
        w).world.repo.state_.expected_callback_queue = ⟨[]⟩ →
      ((MockBase.callInternal env default_callback self this_method args
        w).world.repo.state_.fallback_callbacks.registered self this_method).getLast? =
          some fallback →
      MockBase.callInternal env default_callback self this_method args2
          (MockBase.callInternal env default_callback self this_method args w).world =
        ⟨(env.invoke fallback args2
            (MockBase.callInternal env default_callback self this_method args w).world).1,
          (env.invoke fallback args2
            (MockBase.callInternal env default_callback self this_method args w).world).2,
          [Event.fallback fallback args2]⟩) ∧
    (InterfaceTest.withExpectedCallFirst.result = Except.ok 123 ∧
      InterfaceTest.withExpectedCallFirst.events = [Event.expected 123 []] ∧
      InterfaceTest.withExpectedCallFirst.world.repo.state_.expected_callback_queue.callbacks_
        = [] ∧
      InterfaceTest.withExpectedCallSecond.result = Except.ok 321 ∧
      InterfaceTest.withExpectedCallSecond.events = [Event.fallback 321 []]) := by
  refine ⟨callInternal_of_match env default_callback self this_method args w head rest hp hq hm,
    ?_, ?_⟩
  · intro args2 hq2 hf2
    rw [callInternal_of_empty env default_callback self this_method args2 _ hq2]
    exact callInternalTail_of_fallback env default_callback self this_method args2 _ _ fallback
      hf2
  · exact ⟨rfl, by decide, by decide, rfl, by decide⟩

/-- C7 on the first call of the subcase "With expected call". -/
theorem expectation_before_fallback_witness :
    InterfaceTest.withExpectedCall.repo.state_.expectations_paused = false ∧
    InterfaceTest.withExpectedCall.repo.state_.expected_callback_queue =
      ⟨[⟨"returnTest", InterfaceTest.mock, InterfaceTest.returnTest, 123⟩]⟩ ∧
    (InterfaceTest.withExpectedCall.repo.state_.fallback_callbacks.registered
      InterfaceTest.mock InterfaceTest.returnTest).getLast? = some 321 ∧
    MockBase.callInternal InterfaceTest.env InterfaceTest.default_callback InterfaceTest.mock
      InterfaceTest.returnTest [] InterfaceTest.withExpectedCall =
        ⟨Except.ok 123, InterfaceTest.withExpectedCall.setQueue ⟨[]⟩,
          [Event.expected 123 []]⟩ :=
  ⟨by decide, by decide, by decide,
    (expectation_before_fallback InterfaceTest.env InterfaceTest.default_callback
      InterfaceTest.mock InterfaceTest.returnTest [] InterfaceTest.withExpectedCall
      ⟨"returnTest", InterfaceTest.mock, InterfaceTest.returnTest, 123⟩ [] 321
      (by decide) (by decide) (by decide) (by decide)).1⟩

/-- C8 (amended).  In an unpaused session with an empty queue and a fallback registered
for the call's (mock, method), the dispatch invokes the latest registered fallback with
the caller's arguments, on the unchanged state (queue still empty), and nothing
else: no unexpected-call handler, no default callback.  The outcome of the call is
the fallback's outcome, and the queue is empty afterwards provided the fallback itself
leaves the queue as it finds it (it records no expectation). -/
theorem fallback_on_empty_queue {V U : Type} (env : Env V U)
    (default_callback : List V → World U → Outcome V U) (self : Nat) (this_method : Method)
    (args : List V) (w : World U) (fallback : Callback)
    (_hp : w.repo.state_.expectations_paused = false)
    (hq : w.repo.state_.expected_callback_queue = ⟨[]⟩)
    (hf : (w.repo.state_.fallback_callbacks.registered self this_method).getLast? =
      some fallback) :
    MockBase.callInternal env default_callback self this_method args w =
        ⟨(env.invoke fallback args w).1, (env.invoke fallback args w).2,
          [Event.fallback fallback args]⟩ ∧
    ((env.invoke fallback args w).2.repo.state_.expected_callback_queue =
        w.repo.state_.expected_callback_queue →
      (MockBase.callInternal env default_callback self this_method args
        w).world.repo.state_.expected_callback_queue = ⟨[]⟩) := by
  have h : MockBase.callInternal env default_callback self this_method args w =
      ⟨(env.invoke fallback args w).1, (env.invoke fallback args w).2,
        [Event.fallback fallback args]⟩ := by
    rw [callInternal_of_empty env default_callback self this_method args w hq]
    exact callInternalTail_of_fallback env default_callback self this_method args _ _ fallback hf
  refine ⟨h, ?_⟩
  intro hr
  rw [h]
  simp only
  rw [hr, hq]

/-- C8 (amended) on the subcase "Just on call": `returnTest()` returns 123 and the
queue is still empty. -/
theorem fallback_on_empty_queue_witness :
    InterfaceTest.justOnCall.repo.state_.expectations_paused = false ∧
    InterfaceTest.justOnCall.repo.state_.expected_callback_queue = ⟨[]⟩ ∧
    (InterfaceTest.justOnCall.repo.state_.fallback_callbacks.registered InterfaceTest.mock
      InterfaceTest.returnTest).getLast? = some 123 ∧
    MockBase.callInternal InterfaceTest.env InterfaceTest.default_callback InterfaceTest.mock
      InterfaceTest.returnTest [] InterfaceTest.justOnCall =
        ⟨Except.ok 123, InterfaceTest.justOnCall, [Event.fallback 123 []]⟩ ∧
    (MockBase.callInternal InterfaceTest.env InterfaceTest.default_callback InterfaceTest.mock
      InterfaceTest.returnTest []
      InterfaceTest.justOnCall).world.repo.state_.expected_callback_queue = ⟨[]⟩ :=
  ⟨by decide, by decide, by decide,
    fallback_on_empty_queue InterfaceTest.env InterfaceTest.default_callback
      InterfaceTest.mock InterfaceTest.returnTest [] InterfaceTest.justOnCall 123
      (by decide) (by decide) (by decide) |>.imp_right (fun h => h rfl)⟩

/-! ## C9 and C10: paused expectations -/

theorem expectedCallInternal_paused (r : Repo) (description : String) (mock : Nat)
    (method : Method) (callback : Callback) :
    (r.expectedCallInternal description mock method callback).2.state_.expectations_paused =
      r.state_.expectations_paused := by
  unfold Repo.expectedCallInternal
  split <;> rfl

theorem callInternal_paused_cases {V U : Type} (env : Env V U)
    (default_callback : List V → World U → Outcome V U) (self : Nat) (this_method : Method)
    (args : List V) (w : World U) (hp : w.repo.state_.expectations_paused = true) :
    (∃ f, MockBase.callInternal env default_callback self this_method args w =
        ⟨(env.invoke f args w).1, (env.invoke f args w).2, [Event.fallback f args]⟩) ∨
      MockBase.callInternal env default_callback self this_method args w =
        ⟨(default_callback args w).1, (default_callback args w).2,
          [Event.default_call args]⟩ := by
  rw [callInternal_of_paused env default_callback self this_method args w hp]
  cases hl : (w.repo.state_.fallback_callbacks.registered self this_method).getLast? with
  | some f =>
    exact Or.inl ⟨f, callInternalTail_of_fallback env default_callback self this_method args
      none w f hl⟩
  | none =>
    have hnil : w.repo.state_.fallback_callbacks.registered self this_method = [] :=
      List.getLast?_eq_none_iff.mp hl
    exact Or.inr (callInternalTail_of_paused env default_callback self this_method args none w
      hnil hp)

/-- While paused, with callables that keep the session paused and leave the queue as
they found it, every call starts from and ends in a paused state with the original
queue, and invokes only a fallback or the default callback. -/
theorem callSequence_paused {V U : Type} (env : Env V U)
    (hcb : ∀ cb args (w0 : World U), w0.repo.state_.expectations_paused = true →
      (env.invoke cb args w0).2.repo.state_.expectations_paused = true ∧
      (env.invoke cb args w0).2.repo.state_.expected_callback_queue =
        w0.repo.state_.expected_callback_queue)
    (calls : List (MockCall V U)) :
    ∀ (w : World U),
      (∀ c ∈ calls, ∀ (w0 : World U), w0.repo.state_.expectations_paused = true →
        (c.default_callback c.args w0).2.repo.state_.expectations_paused = true ∧
        (c.default_callback c.args w0).2.repo.state_.expected_callback_queue =
          w0.repo.state_.expected_callback_queue) →
      w.repo.state_.expectations_paused = true →
      ((callSequenceWorld env calls w).repo.state_.expected_callback_queue =
          w.repo.state_.expected_callback_queue ∧
        (callSequenceWorld env calls w).repo.state_.expectations_paused = true) ∧
      ∀ s ∈ callSequence env calls w,
        s.1.repo.state_.expected_callback_queue = w.repo.state_.expected_callback_queue ∧
        s.2.world.repo.state_.expected_callback_queue =
          w.repo.state_.expected_callback_queue ∧
        (∀ handler description, Event.unexpected handler description ∉ s.2.events) ∧
        (∀ callback args, Event.expected callback args ∉ s.2.events) := by
  induction calls with
  | nil =>
    intro w _ hp
    exact ⟨⟨rfl, hp⟩, by simp [callSequence]⟩
  | cons c cs ih =>
    intro w hdef hp
    have hstep : (MockBase.callInternal env c.default_callback c.self c.this_method c.args
          w).world.repo.state_.expectations_paused = true ∧
        (MockBase.callInternal env c.default_callback c.self c.this_method c.args
          w).world.repo.state_.expected_callback_queue =
            w.repo.state_.expected_callback_queue ∧
        (∀ handler description, Event.unexpected handler description ∉
          (MockBase.callInternal env c.default_callback c.self c.this_method c.args
            w).events) ∧
        (∀ callback args, Event.expected callback args ∉
          (MockBase.callInternal env c.default_callback c.self c.this_method c.args
            w).events) := by
      rcases callInternal_paused_cases env c.default_callback c.self c.this_method c.args w hp
        with ⟨f, hf⟩ | hd
      · rw [hf]
        exact ⟨(hcb f c.args w hp).1, (hcb f c.args w hp).2, by simp, by simp⟩
      · rw [hd]
        have := hdef c (List.mem_cons_self _ _) w hp
        exact ⟨this.1, this.2, by simp, by simp⟩
    obtain ⟨hp2, hq2, hu, he⟩ := hstep
    obtain ⟨⟨ihq, ihp⟩, ihs⟩ := ih _ (fun c0 hc0 => hdef c0 (List.mem_cons_of_mem _ hc0)) hp2
    refine ⟨⟨?_, ?_⟩, ?_⟩
    · simp only [callSequenceWorld, MockBase.call]
      rw [ihq, hq2]
    · simp only [callSequenceWorld, MockBase.call]
      exact ihp
    · intro s hs
      simp only [callSequence, MockBase.call, List.mem_cons] at hs
      rcases hs with hs | hs
      · subst hs
        exact ⟨rfl, hq2, hu, he⟩
      · obtain ⟨h1, h2, h3, h4⟩ := ihs s hs
        exact ⟨h1.trans hq2, h2.trans hq2, h3, h4⟩

/-- C9 as stated fails when a callback records an expectation.  The session is paused,
its queue is empty, and the fallback registered for `returnTest` calls
`repo.expectCall`; no callable resumes the session.  After `returnTest()` the queue
holds the new expectation, so it is not the queue from before the call. -/
theorem pause_isolation_recording_counterexample :
    RecordingFallback.paused.repo.state_.expectations_paused = true ∧
    (∀ cb args (w0 : World InterfaceTest.Tracker),
      w0.repo.state_.expectations_paused = true →
      (RecordingFallback.env.invoke cb args w0).2.repo.state_.expectations_paused = true) ∧
    (∀ args (w0 : World InterfaceTest.Tracker),
      w0.repo.state_.expectations_paused = true →
      (InterfaceTest.default_callback args w0).2.repo.state_.expectations_paused = true) ∧
    RecordingFallback.paused.repo.state_.expected_callback_queue.callbacks_ = [] ∧
    (callSequenceWorld RecordingFallback.env
      [InterfaceTest.mockCall InterfaceTest.returnTest []]
      RecordingFallback.paused).repo.state_.expected_callback_queue.callbacks_ =
        [⟨"late", InterfaceTest.mock, InterfaceTest.voidArgTest, 0⟩] ∧
    (callSequenceWorld RecordingFallback.env
      [InterfaceTest.mockCall InterfaceTest.returnTest []]
      RecordingFallback.paused).repo.state_.expected_callback_queue ≠
        RecordingFallback.paused.repo.state_.expected_callback_queue := by
  refine ⟨by decide, ?_, ?_, by decide, by decide, by decide⟩
  · intro cb args w0 h
    by_cases hcb : cb = 1
    · subst hcb
      simpa [RecordingFallback.env, Repo.expectCall, expectedCallInternal_paused] using h
    · have : RecordingFallback.env.invoke cb args w0 = (Except.ok 0, w0) := by
        simp only [RecordingFallback.env]
      rw [this]
      exact h
  · intro args w0 h
    exact h

/-- C9 (amended).  Starting from a paused session, for every finite sequence of mock
calls (any mock, any method, with or without fallbacks, whatever the queue holds)
whose callables (registered callbacks and default callbacks) neither resume the
session nor change the queue, every call is made with the queue as it was at the
start and leaves it so, no call invokes the unexpected-call handler or an
expectation's callback, and the queue after the sequence is the queue before it. -/
theorem pause_isolation {V U : Type} (env : Env V U) (w : World U)
    (calls : List (MockCall V U))
    (hp : w.repo.state_.expectations_paused = true)
    (hcb : ∀ cb args (w0 : World U), w0.repo.state_.expectations_paused = true →
      (env.invoke cb args w0).2.repo.state_.expectations_paused = true ∧
      (env.invoke cb args w0).2.repo.state_.expected_callback_queue =
        w0.repo.state_.expected_callback_queue)
    (hdef : ∀ c ∈ calls, ∀ (w0 : World U), w0.repo.state_.expectations_paused = true →
      (c.default_callback c.args w0).2.repo.state_.expectations_paused = true ∧
      (c.default_callback c.args w0).2.repo.state_.expected_callback_queue =
        w0.repo.state_.expected_callback_queue) :
    (callSequenceWorld env calls w).repo.state_.expected_callback_queue =
        w.repo.state_.expected_callback_queue ∧
    (callSequence env calls w).length = calls.length ∧
    ∀ s ∈ callSequence env calls w,
      s.1.repo.state_.expected_callback_queue = w.repo.state_.expected_callback_queue ∧
      s.2.world.repo.state_.expected_callback_queue =
        w.repo.state_.expected_callback_queue ∧
      (∀ handler description, Event.unexpected handler description ∉ s.2.events) ∧
      (∀ callback args, Event.expected callback args ∉ s.2.events) := by
  have h := callSequence_paused env hcb calls w hdef hp
  refine ⟨h.1.1, ?_, h.2⟩
  clear h hp hdef
  induction calls generalizing w with
  | nil => rfl
  | cons c cs ih => simp [callSequence, ih]

/-- C9 (amended) on a paused session whose head is "call 1" on `voidArgTest`: calls of
`voidArgTest`, `returnTest` (which has a fallback) and `oneArgTest` leave the queue
as it was. -/
theorem pause_isolation_witness :
    InterfaceTest.pausedOrder.repo.state_.expectations_paused = true ∧
    (∀ cb args (w0 : World InterfaceTest.Tracker),
      w0.repo.state_.expectations_paused = true →
      (InterfaceTest.env.invoke cb args w0).2.repo.state_.expectations_paused = true ∧
      (InterfaceTest.env.invoke cb args w0).2.repo.state_.expected_callback_queue =
        w0.repo.state_.expected_callback_queue) ∧
    (∀ c ∈ [InterfaceTest.mockCall InterfaceTest.voidArgTest [],
        InterfaceTest.mockCall InterfaceTest.returnTest [],
        InterfaceTest.mockCall InterfaceTest.oneArgTest [5]],
      ∀ (w0 : World InterfaceTest.Tracker), w0.repo.state_.expectations_paused = true →
      (c.default_callback c.args w0).2.repo.state_.expectations_paused = true ∧
      (c.default_callback c.args w0).2.repo.state_.expected_callback_queue =
        w0.repo.state_.expected_callback_queue) ∧
    (callSequenceWorld InterfaceTest.env
      [InterfaceTest.mockCall InterfaceTest.voidArgTest [],
        InterfaceTest.mockCall InterfaceTest.returnTest [],
        InterfaceTest.mockCall InterfaceTest.oneArgTest [5]]
      InterfaceTest.pausedOrder).repo.state_.expected_callback_queue =
        ⟨[⟨"call 1", InterfaceTest.mock, InterfaceTest.voidArgTest, 0⟩,
          ⟨"call 2", InterfaceTest.mock, InterfaceTest.oneArgTest, 0⟩]⟩ := by
  have h1 : InterfaceTest.pausedOrder.repo.state_.expectations_paused = true := by decide
  have h2 : ∀ cb args (w0 : World InterfaceTest.Tracker),
      w0.repo.state_.expectations_paused = true →
      (InterfaceTest.env.invoke cb args w0).2.repo.state_.expectations_paused = true ∧
      (InterfaceTest.env.invoke cb args w0).2.repo.state_.expected_callback_queue =
        w0.repo.state_.expected_callback_queue := fun _ _ _ h => ⟨h, rfl⟩
  have h3 : ∀ c ∈ [InterfaceTest.mockCall InterfaceTest.voidArgTest [],
        InterfaceTest.mockCall InterfaceTest.returnTest [],
        InterfaceTest.mockCall InterfaceTest.oneArgTest [5]],
      ∀ (w0 : World InterfaceTest.Tracker), w0.repo.state_.expectations_paused = true →
      (c.default_callback c.args w0).2.repo.state_.expectations_paused = true ∧
      (c.default_callback c.args w0).2.repo.state_.expected_callback_queue =
        w0.repo.state_.expected_callback_queue := by
    intro c hc w0 h
    simp only [List.mem_cons, List.mem_singleton, List.not_mem_nil, or_false] at hc
    rcases hc with hc | hc | hc <;> subst hc <;> exact ⟨h, rfl⟩
  refine ⟨h1, h2, h3, ?_⟩
  rw [(pause_isolation InterfaceTest.env InterfaceTest.pausedOrder _ h1 h2 h3).1]
  decide

/-- C10.  In a paused session a call on (mock, method) invokes the latest fallback
registered for (mock, method) when there is one and yields its outcome; when there
is none it invokes the default callback and yields its outcome.  Either way the
callable runs on the unchanged state, nothing else is invoked, and the queue plays no
part (its head may even match the call). -/
theorem paused_fallback_lookup {V U : Type} (env : Env V U)
    (default_callback : List V → World U → Outcome V U) (self : Nat) (this_method : Method)
    (args : List V) (w : World U)
    (hp : w.repo.state_.expectations_paused = true) :
    (∀ fallback,
      (w.repo.state_.fallback_callbacks.registered self this_method).getLast? =
        some fallback →
      MockBase.callInternal env default_callback self this_method args w =
        ⟨(env.invoke fallback args w).1, (env.invoke fallback args w).2,
          [Event.fallback fallback args]⟩) ∧
    (w.repo.state_.fallback_callbacks.registered self this_method = [] →
      MockBase.callInternal env default_callback self this_method args w =
        ⟨(default_callback args w).1, (default_callback args w).2,
          [Event.default_call args]⟩) := by
  rw [callInternal_of_paused env default_callback self this_method args w hp]
  refine ⟨?_, ?_⟩
  · intro fallback hf
    exact callInternalTail_of_fallback env default_callback self this_method args none w
      fallback hf
  · intro hf
    exact callInternalTail_of_paused env default_callback self this_method args none w hf hp

/-- C10 on a paused session whose queue head is "call 1" on `voidArgTest`: the call
`voidArgTest()` matches the head, has no fallback, and gets the default result 0. -/
theorem paused_fallback_lookup_witness :
    InterfaceTest.pausedOrder.repo.state_.expectations_paused = true ∧
    InterfaceTest.pausedOrder.repo.state_.expected_callback_queue.peekMatch
      InterfaceTest.mock InterfaceTest.voidArgTest = true ∧
    InterfaceTest.pausedOrder.repo.state_.fallback_callbacks.registered InterfaceTest.mock
      InterfaceTest.voidArgTest = [] ∧
    MockBase.callInternal InterfaceTest.env InterfaceTest.default_callback InterfaceTest.mock
      InterfaceTest.voidArgTest [] InterfaceTest.pausedOrder =
        ⟨Except.ok 0, InterfaceTest.pausedOrder, [Event.default_call []]⟩ :=
  ⟨by decide, by decide, by decide,
    (paused_fallback_lookup InterfaceTest.env InterfaceTest.default_callback
      InterfaceTest.mock InterfaceTest.voidArgTest [] InterfaceTest.pausedOrder
      (by decide)).2 (by decide)⟩

/-! ## The shape of every dispatch -/

/-- Lines 234-246 end in exactly one of four ways. -/
theorem callInternalTail_cases {V U : Type} (env : Env V U)
    (default_callback : List V → World U → Outcome V U) (self : Nat) (this_method : Method)
    (args : List V) (description : Option String) (w : World U) :
    (∃ f, (w.repo.state_.fallback_callbacks.registered self this_method).getLast? = some f ∧
      MockBase.callInternalTail env default_callback self this_method args description w =
        ⟨(env.invoke f args w).1, (env.invoke f args w).2, [Event.fallback f args]⟩) ∨
    (w.repo.state_.fallback_callbacks.registered self this_method = [] ∧
      (w.repo.state_.expectations_paused = true ∨
        w.repo.state_.unexpected_call_handler = none) ∧
      MockBase.callInternalTail env default_callback self this_method args description w =
        ⟨(default_callback args w).1, (default_callback args w).2,
          [Event.default_call args]⟩) ∨
    (∃ handler, w.repo.state_.fallback_callbacks.registered self this_method = [] ∧
      w.repo.state_.expectations_paused = false ∧
      w.repo.state_.unexpected_call_handler = some handler ∧
      (env.unexpected_call handler description w).1 = Except.ok () ∧
      MockBase.callInternalTail env default_callback self this_method args description w =
        ⟨(default_callback args (env.unexpected_call handler description w).2).1,
          (default_callback args (env.unexpected_call handler description w).2).2,
          [Event.unexpected handler description, Event.default_call args]⟩) ∨
    (∃ handler e, w.repo.state_.fallback_callbacks.registered self this_method = [] ∧
      w.repo.state_.expectations_paused = false ∧
      w.repo.state_.unexpected_call_handler = some handler ∧
      (env.unexpected_call handler description w).1 = Except.error e ∧
      MockBase.callInternalTail env default_callback self this_method args description w =
        ⟨Except.error e, (env.unexpected_call handler description w).2,
          [Event.unexpected handler description]⟩) := by
  cases hl : (w.repo.state_.fallback_callbacks.registered self this_method).getLast? with
  | some f =>
    exact Or.inl ⟨f, rfl, callInternalTail_of_fallback env default_callback self this_method
      args description w f hl⟩
  | none =>
    have hnil : w.repo.state_.fallback_callbacks.registered self this_method = [] :=
      List.getLast?_eq_none_iff.mp hl
    right
    cases hp : w.repo.state_.expectations_paused with
    | true =>
      exact Or.inl ⟨hnil, Or.inl rfl, callInternalTail_of_paused env default_callback self
        this_method args description w hnil hp⟩
    | false =>
      cases hh : w.repo.state_.unexpected_call_handler with
      | none =>
        exact Or.inl ⟨hnil, Or.inr rfl, callInternalTail_of_no_handler env default_callback
          self this_method args description w hnil hh⟩
      | some handler =>
        right
        cases hr : (env.unexpected_call handler description w).1 with
        | error e =>
          exact Or.inr ⟨handler, e, hnil, rfl, rfl, hr,
            callInternalTail_of_handler_throws env default_callback self this_method args
              description w handler e hnil hp hh hr⟩
        | ok u =>
          cases u
          exact Or.inl ⟨handler, hnil, rfl, rfl, hr,
            callInternalTail_of_handler_ok env default_callback self this_method args
              description w handler hnil hp hh hr⟩

/-- Lines 218-232 end in exactly one of three ways: the head matched and its callback
was called, the head did not match and was popped, or the queue was left alone. -/
theorem callInternal_entry_cases {V U : Type} (env : Env V U)
    (default_callback : List V → World U → Outcome V U) (self : Nat) (this_method : Method)
    (args : List V) (w : World U) :
    (∃ head rest, w.repo.state_.expectations_paused = false ∧
      w.repo.state_.expected_callback_queue = ⟨head :: rest⟩ ∧
      (head.mock = self ∧ head.method = this_method) ∧
      MockBase.callInternal env default_callback self this_method args w =
        ⟨(env.invoke head.callback args (w.setQueue ⟨rest⟩)).1,
          (env.invoke head.callback args (w.setQueue ⟨rest⟩)).2,
          [Event.expected head.callback args]⟩) ∨
    (∃ head rest, w.repo.state_.expectations_paused = false ∧
      w.repo.state_.expected_callback_queue = ⟨head :: rest⟩ ∧
      ¬ (head.mock = self ∧ head.method = this_method) ∧
      MockBase.callInternal env default_callback self this_method args w =
        MockBase.callInternalTail env default_callback self this_method args
          (some head.description) (w.setQueue ⟨rest⟩)) ∨
    ((w.repo.state_.expectations_paused = true ∨
        w.repo.state_.expected_callback_queue = ⟨[]⟩) ∧
      MockBase.callInternal env default_callback self this_method args w =
        MockBase.callInternalTail env default_callback self this_method args none w) := by
  cases hp : w.repo.state_.expectations_paused with
  | true =>
    exact Or.inr (Or.inr ⟨Or.inl rfl,
      callInternal_of_paused env default_callback self this_method args w hp⟩)
  | false =>
    rcases hq : w.repo.state_.expected_callback_queue with ⟨l⟩
    cases l with
    | nil =>
      exact Or.inr (Or.inr ⟨Or.inr rfl,
        callInternal_of_empty env default_callback self this_method args w hq⟩)
    | cons head rest =>
      by_cases hm : head.mock = self ∧ head.method = this_method
      · exact Or.inl ⟨head, rest, rfl, rfl, hm,
          callInternal_of_match env default_callback self this_method args w head rest hp hq hm⟩
      · exact Or.inr (Or.inl ⟨head, rest, rfl, rfl, hm,
          callInternal_of_mismatch env default_callback self this_method args w head rest hp hq
            hm⟩)

/-! ## C11: the destructor drains the queue -/

/-- With a missing-call handler that returns and leaves the repository as it finds it,
the loop of the destructor needs one iteration per queue entry. -/
theorem destructor_drains {V U : Type} (env : Env V U) (handler : Handler)
    (hok : ∀ d w0, (env.missing_call handler d w0).1 = Except.ok ())
    (hframe : ∀ d w0, (env.missing_call handler d w0).2.repo = w0.repo)
    (es : List Expectation) :
    ∀ (w : World U) (fuel : Nat),
      w.repo.state_.missing_call_handler = some handler →
      w.repo.state_.expected_callback_queue = ⟨es⟩ →
      es.length ≤ fuel →
      ∃ t, Repo.destructor env fuel w = some t ∧ t.result = Except.ok () ∧
        t.events = es.map (fun e => Event.missing handler e.description) ∧
        t.world.repo = (w.setQueue ⟨[]⟩).repo := by
  induction es with
  | nil =>
    intro w fuel _ hq _
    refine ⟨⟨Except.ok (), w, []⟩, ?_, rfl, rfl, ?_⟩
    · cases fuel <;> simp [Repo.destructor, hq, ExpectedCallbackQueue.isEmpty]
    · simp [setQueue_same w _ hq]
  | cons e rest ih =>
    intro w fuel hh hq hlen
    cases fuel with
    | zero => simp at hlen
    | succ fuel =>
      have hlen2 : rest.length ≤ fuel := by simpa using hlen
      have hrepo := hframe e.description (w.setQueue ⟨rest⟩)
      have hh2 : (env.missing_call handler e.description
          (w.setQueue ⟨rest⟩)).2.repo.state_.missing_call_handler = some handler := by
        rw [hrepo]; exact hh
      have hq2 : (env.missing_call handler e.description
          (w.setQueue ⟨rest⟩)).2.repo.state_.expected_callback_queue = ⟨rest⟩ := by
        rw [hrepo]; rfl
      obtain ⟨t, ht, htr, hte, htw⟩ := ih _ fuel hh2 hq2 hlen2
      refine ⟨{ t with events := Event.missing handler e.description :: t.events }, ?_, htr,
        ?_, ?_⟩
      · have hh1 : (w.setQueue ⟨rest⟩).repo.state_.missing_call_handler = some handler := hh
        simp [Repo.destructor, hq, ExpectedCallbackQueue.isEmpty,
          ExpectedCallbackQueue.peekDescription, ExpectedCallbackQueue.pop, hh1, hok, ht]
      · simp [hte]
      · show t.world.repo = _
        rw [htw]
        simpa using setQueue_repo_congr _ _ ⟨[]⟩ hrepo

/-- C11 as stated fails in two ways.  With the throwing missing-call handler of
`Fixture` and the two residual expectations "call 1", "call 2", the handler is invoked
once, with "call 1"; the exception then leaves the destructor and "call 2" is still
queued.  With a handler that records an expectation when it receives "call 1", a
queue of one entry leads to two invocations. -/
theorem teardown_draining_counterexample :
    InterfaceTest.expectationsOrder.repo.state_.missing_call_handler = some 1 ∧
    InterfaceTest.expectationsOrder.repo.state_.expected_callback_queue.callbacks_.map
      (fun e => e.description) = ["call 1", "call 2"] ∧
    (∀ fuel : Nat,
      (Repo.destructor InterfaceTest.env (fuel + 1) InterfaceTest.expectationsOrder).map
          (fun t => (t.result, t.events,
            t.world.repo.state_.expected_callback_queue.callbacks_.map
              (fun e => e.description))) =
        some (Except.error (Exn.thrown 2), [Event.missing 1 "call 1"], ["call 2"])) ∧
    RecordingHandler.residual.repo.state_.missing_call_handler = some 5 ∧
    RecordingHandler.residual.repo.state_.expected_callback_queue.callbacks_.map
      (fun e => e.description) = ["call 1"] ∧
    (∀ fuel : Nat,
      (Repo.destructor RecordingHandler.env (fuel + 2) RecordingHandler.residual).map
          (fun t => (t.result, t.events)) =
        some (Except.ok (), [Event.missing 5 "call 1", Event.missing 5 "again"])) := by
  refine ⟨by decide, by decide, ?_, by decide, by decide, ?_⟩
  · intro fuel
    rfl
  · intro fuel
    cases fuel <;> rfl

/-- C11 (amended).  When the queue holds entries with descriptions d1..dn at
destruction and the installed missing-call handler returns normally and leaves the
repository as it finds it, the destructor (given at least n loop iterations) finishes
without an exception, invokes the missing-call handler exactly n times, the i-th time
with di, invokes nothing else (no unexpected-call handler, no expectation callback),
and ends with an empty queue. -/
theorem teardown_draining {V U : Type} (env : Env V U) (w : World U) (handler : Handler)
    (fuel : Nat)
    (hh : w.repo.state_.missing_call_handler = some handler)
    (hok : ∀ d w0, (env.missing_call handler d w0).1 = Except.ok ())
    (hframe : ∀ d w0, (env.missing_call handler d w0).2.repo = w0.repo)
    (hfuel : w.repo.state_.expected_callback_queue.callbacks_.length ≤ fuel) :
    ∃ t, Repo.destructor env fuel w = some t ∧ t.result = Except.ok () ∧
      t.events = w.repo.state_.expected_callback_queue.callbacks_.map
        (fun e => Event.missing handler e.description) ∧
      t.events.length = w.repo.state_.expected_callback_queue.callbacks_.length ∧
      t.world.repo.state_.expected_callback_queue = ⟨[]⟩ ∧
      t.world.repo = (w.setQueue ⟨[]⟩).repo := by
  obtain ⟨t, h1, h2, h3, h4⟩ := destructor_drains env handler hok hframe _ w fuel hh rfl hfuel
  refine ⟨t, h1, h2, h3, ?_, ?_, h4⟩
  · rw [h3, List.length_map]
  · rw [h4]; rfl

/-- C11 (amended) on the test case "Missing call": the tracking handler receives
"missing call" once. -/
theorem teardown_draining_witness :
    InterfaceTest.missingCall.repo.state_.missing_call_handler = some 2 ∧
    (∀ d (w0 : World InterfaceTest.Tracker),
      (InterfaceTest.env.missing_call 2 d w0).1 = Except.ok ()) ∧
    (∀ d (w0 : World InterfaceTest.Tracker),
      (InterfaceTest.env.missing_call 2 d w0).2.repo = w0.repo) ∧
    InterfaceTest.missingCall.repo.state_.expected_callback_queue.callbacks_.length ≤ 1 ∧
    ∃ t, Repo.destructor InterfaceTest.env 1 InterfaceTest.missingCall = some t ∧
      t.result = Except.ok () ∧
      t.events = [Event.missing 2 "missing call"] ∧
      t.world.repo.state_.expected_callback_queue = ⟨[]⟩ := by
  have h1 : InterfaceTest.missingCall.repo.state_.missing_call_handler = some 2 := by decide
  have h2 : ∀ d (w0 : World InterfaceTest.Tracker),
      (InterfaceTest.env.missing_call 2 d w0).1 = Except.ok () := fun _ _ => rfl
  have h3 : ∀ d (w0 : World InterfaceTest.Tracker),
      (InterfaceTest.env.missing_call 2 d w0).2.repo = w0.repo := fun _ _ => rfl
  have h4 : InterfaceTest.missingCall.repo.state_.expected_callback_queue.callbacks_.length
      ≤ 1 := by decide
  obtain ⟨t, ht, hr, he, _, hq, _⟩ :=
    teardown_draining InterfaceTest.env InterfaceTest.missingCall 2 1 h1 h2 h3 h4
  refine ⟨h1, h2, h3, h4, t, ht, hr, ?_, hq⟩
  rw [he]
  decide

/-! ## C12: the description passed to the unexpected-call handler -/

/-- An unexpected-call handler invoked by lines 234-246 receives the local variable
`expectation_description`, in an unpaused state without a fallback for the call. -/
theorem callInternalTail_unexpected_mem {V U : Type} (env : Env V U)
    (default_callback : List V → World U → Outcome V U) (self : Nat) (this_method : Method)
    (args : List V) (description : Option String) (w : World U) (handler : Handler)
    (d : Option String)
    (h : Event.unexpected handler d ∈
      (MockBase.callInternalTail env default_callback self this_method args description
        w).events) :
    d = description ∧ w.repo.state_.expectations_paused = false ∧
      w.repo.state_.unexpected_call_handler = some handler ∧
      w.repo.state_.fallback_callbacks.registered self this_method = [] := by
  rcases callInternalTail_cases env default_callback self this_method args description w with
    ⟨f, _, ht⟩ | ⟨_, _, ht⟩ | ⟨h2, hf, hp, hh, _, ht⟩ | ⟨h2, e, hf, hp, hh, _, ht⟩
  · rw [ht] at h; simp at h
  · rw [ht] at h; simp at h
  · rw [ht] at h
    simp at h
    exact ⟨h.2, hp, by rw [hh, h.1], hf⟩
  · rw [ht] at h
    simp at h
    exact ⟨h.2, hp, by rw [hh, h.1], hf⟩

/-- C12.  In an unpaused session with an empty queue, an installed unexpected-call
handler and no fallback registered for the call's (mock, method), the dispatch
invokes the handler exactly once, with an absent description (and then the default
callback, if the handler returns).  In every dispatch, a description passed to the
unexpected-call handler is present exactly when the queue was non-empty when the call
entered the dispatch, and it is then the description of the head. -/
theorem no_queue_unexpected {V U : Type} (env : Env V U)
    (default_callback : List V → World U → Outcome V U) (self : Nat) (this_method : Method)
    (args : List V) (w : World U) :
    (∀ handler, w.repo.state_.expectations_paused = false →
      w.repo.state_.expected_callback_queue = ⟨[]⟩ →
      w.repo.state_.unexpected_call_handler = some handler →
      w.repo.state_.fallback_callbacks.registered self this_method = [] →
      (MockBase.callInternal env default_callback self this_method args w).events =
        Event.unexpected handler none ::
          (match (env.unexpected_call handler none w).1 with
            | Except.ok _ => [Event.default_call args]
            | Except.error _ => [])) ∧
    (∀ handler description,
      Event.unexpected handler description ∈
        (MockBase.callInternal env default_callback self this_method args w).events →
      (description.isSome = true ↔
          w.repo.state_.expected_callback_queue.callbacks_ ≠ []) ∧
        (∀ head rest, w.repo.state_.expected_callback_queue = ⟨head :: rest⟩ →
          description = some head.description) ∧
        (∃ others,
          (MockBase.callInternal env default_callback self this_method args w).events =
            Event.unexpected handler description :: others ∧
          ∀ handler2 description2, Event.unexpected handler2 description2 ∉ others)) := by
  refine ⟨?_, ?_⟩
  · intro handler hp hq hh hf
    rw [callInternal_of_empty env default_callback self this_method args w hq]
    cases hr : (env.unexpected_call handler none w).1 with
    | error e =>
      rw [callInternalTail_of_handler_throws env default_callback self this_method args none w
        handler e hf hp hh hr]
    | ok u =>
      cases u
      rw [callInternalTail_of_handler_ok env default_callback self this_method args none w
        handler hf hp hh hr]
  · intro handler description hmem
    have hcount : ∀ (desc : Option String) (w1 : World U),
        Event.unexpected handler description ∈
          (MockBase.callInternalTail env default_callback self this_method args desc
            w1).events →
        ∃ others,
          (MockBase.callInternalTail env default_callback self this_method args desc
            w1).events = Event.unexpected handler description :: others ∧
          ∀ handler2 description2, Event.unexpected handler2 description2 ∉ others := by
      intro desc w1 hm
      rcases callInternalTail_cases env default_callback self this_method args desc w1 with
        ⟨f, _, ht⟩ | ⟨_, _, ht⟩ | ⟨h2, _, _, _, _, ht⟩ | ⟨h2, e, _, _, _, _, ht⟩
      · rw [ht] at hm; simp at hm
      · rw [ht] at hm; simp at hm
      · rw [ht] at hm ⊢
        simp at hm
        exact ⟨[Event.default_call args], by simp [hm.1, hm.2], by simp⟩
      · rw [ht] at hm ⊢
        simp at hm
        exact ⟨[], by simp [hm.1, hm.2], by simp⟩
    rcases callInternal_entry_cases env default_callback self this_method args w with
      ⟨head, rest, _, _, _, hd⟩ | ⟨head, rest, hp, hq, _, hd⟩ | ⟨hpe, hd⟩
    · rw [hd] at hmem; simp at hmem
    · rw [hd] at hmem ⊢
      obtain ⟨hdesc, _, _, _⟩ := callInternalTail_unexpected_mem env default_callback self
        this_method args _ _ handler description hmem
      refine ⟨?_, ?_, hcount _ _ hmem⟩
      · simp [hdesc, hq]
      · intro head2 rest2 hq2
        rw [hq] at hq2
        simp only [ExpectedCallbackQueue.mk.injEq, List.cons.injEq] at hq2
        rw [hdesc, hq2.1]
    · rw [hd] at hmem ⊢
      obtain ⟨hdesc, hp, _, _⟩ := callInternalTail_unexpected_mem env default_callback self
        this_method args _ _ handler description hmem
      have hq : w.repo.state_.expected_callback_queue = ⟨[]⟩ := by
        rcases hpe with hpe | hpe
        · rw [hp] at hpe; exact absurd hpe (by simp)
        · exact hpe
      refine ⟨?_, ?_, hcount _ _ hmem⟩
      · simp [hdesc, hq]
      · intro head2 rest2 hq2
        rw [hq] at hq2
        simp at hq2

/-- C12 on the test case "Unexpected call": the tracking handler is invoked once and
receives no description. -/
theorem no_queue_unexpected_witness :
    InterfaceTest.unexpectedCall.repo.state_.expectations_paused = false ∧
    InterfaceTest.unexpectedCall.repo.state_.expected_callback_queue = ⟨[]⟩ ∧
    InterfaceTest.unexpectedCall.repo.state_.unexpected_call_handler = some 2 ∧
    InterfaceTest.unexpectedCall.repo.state_.fallback_callbacks.registered InterfaceTest.mock
      InterfaceTest.voidArgTest = [] ∧
    (MockBase.callInternal InterfaceTest.env InterfaceTest.default_callback InterfaceTest.mock
      InterfaceTest.voidArgTest [] InterfaceTest.unexpectedCall).events =
        [Event.unexpected 2 none, Event.default_call []] ∧
    (MockBase.callInternal InterfaceTest.env InterfaceTest.default_callback InterfaceTest.mock
      InterfaceTest.voidArgTest [] InterfaceTest.unexpectedCall).world.user = [none] :=
  ⟨by decide, by decide, by decide, by decide,
    (no_queue_unexpected InterfaceTest.env InterfaceTest.default_callback InterfaceTest.mock
      InterfaceTest.voidArgTest [] InterfaceTest.unexpectedCall).1 2
      (by decide) (by decide) (by decide) (by decide),
    by decide⟩

/-! ## C13: matching is by (mock, method) -/

/-- C13.  In an unpaused session with queue `head :: rest`, the dispatch invokes the
head's callback (and then nothing else) exactly when the head's mock address is the
calling mock's and the head's method pointer equals the call's; otherwise it invokes
no expectation callback at all.  Two method pointers are equal only if they have the
same static type (mocked type, return type, parameter types, const-qualification)
and the same pointer value.  Hence an expectation on `overrideTest(int)` is not
matched by `overrideTest(std::string)`, one on `constTest()` is not matched by
`constTest() const` (whatever the pointer values are), and one on a mock is not
matched by the same method called on a mock at another address. -/
theorem matching_by_mock_and_method {V U : Type} (env : Env V U)
    (default_callback : List V → World U → Outcome V U) (self : Nat) (this_method : Method)
    (args : List V) (w : World U) (head : Expectation) (rest : List Expectation)
    (hp : w.repo.state_.expectations_paused = false)
    (hq : w.repo.state_.expected_callback_queue = ⟨head :: rest⟩) :
    (w.repo.state_.expected_callback_queue.peekMatch self this_method = true ↔
      head.mock = self ∧ head.method = this_method) ∧
    ((∃ callback a, Event.expected callback a ∈
        (MockBase.callInternal env default_callback self this_method args w).events) ↔
      head.mock = self ∧ head.method = this_method) ∧
    (head.mock = self ∧ head.method = this_method →
      (MockBase.callInternal env default_callback self this_method args w).events =
        [Event.expected head.callback args]) ∧
    (∀ m1 m2 : Method, m1 = m2 ↔
      m1.type.mockedType = m2.type.mockedType ∧ m1.type.returnType = m2.type.returnType ∧
      m1.type.argTypes = m2.type.argTypes ∧ m1.type.isConst = m2.type.isConst ∧
      m1.ptr = m2.ptr) ∧
    (∀ (d : String) (mock : Nat) (cb : Callback) (others : List Expectation) (p : Nat),
      ExpectedCallbackQueue.peekMatch ⟨⟨d, mock, InterfaceTest.overrideTestInt, cb⟩ :: others⟩
          mock ⟨InterfaceTest.overrideTestString.type, p⟩ = false ∧
      ExpectedCallbackQueue.peekMatch ⟨⟨d, mock, InterfaceTest.constTest, cb⟩ :: others⟩
          mock ⟨InterfaceTest.constTestConst.type, p⟩ = false) ∧
    (∀ (d : String) (mockA mockB : Nat) (method : Method) (cb : Callback)
      (others : List Expectation), mockA ≠ mockB →
      ExpectedCallbackQueue.peekMatch ⟨⟨d, mockA, method, cb⟩ :: others⟩ mockB method =
        false) := by
  have hmatch : w.repo.state_.expected_callback_queue.peekMatch self this_method = true ↔
      head.mock = self ∧ head.method = this_method := by
    rw [hq]
    exact matchInternal_cons head rest self this_method
  refine ⟨hmatch, ?_, ?_, ?_, ?_, ?_⟩
  · constructor
    · rintro ⟨callback, a, hmem⟩
      by_contra hm
      rw [callInternal_of_mismatch env default_callback self this_method args w head rest hp hq
        hm] at hmem
      rcases callInternalTail_cases env default_callback self this_method args
          (some head.description) (w.setQueue ⟨rest⟩) with
        ⟨f, _, ht⟩ | ⟨_, _, ht⟩ | ⟨h2, _, _, _, _, ht⟩ | ⟨h2, e, _, _, _, _, ht⟩ <;>
        (rw [ht] at hmem; simp at hmem)
    · intro hm
      refine ⟨head.callback, args, ?_⟩
      rw [callInternal_of_match env default_callback self this_method args w head rest hp hq hm]
      simp
  · intro hm
    rw [callInternal_of_match env default_callback self this_method args w head rest hp hq hm]
  · intro m1 m2
    obtain ⟨⟨a1, b1, c1, d1⟩, p1⟩ := m1
    obtain ⟨⟨a2, b2, c2, d2⟩, p2⟩ := m2
    simp
    tauto
  · intro d mock cb others p
    refine ⟨?_, ?_⟩
    · rw [Bool.eq_false_iff]
      intro h
      have := ((matchInternal_cons _ others mock _).mp h).2
      simp [InterfaceTest.overrideTestInt, InterfaceTest.overrideTestString,
        InterfaceTest.memberType] at this
    · rw [Bool.eq_false_iff]
      intro h
      have := ((matchInternal_cons _ others mock _).mp h).2
      simp [InterfaceTest.constTest, InterfaceTest.constTestConst,
        InterfaceTest.memberType] at this
  · intro d mockA mockB method cb others hne
    rw [Bool.eq_false_iff]
    intro h
    exact hne ((matchInternal_cons _ others mockB method).mp h).1

/-- C13 on the expectation of "Override int": the call `overrideTest(std::string)` does
not invoke its callback (the fixture's handler is called with its description). -/
theorem matching_by_mock_and_method_witness :
    InterfaceTest.overrideInt.repo.state_.expectations_paused = false ∧
    InterfaceTest.overrideInt.repo.state_.expected_callback_queue =
      ⟨[⟨"void overrideTest(int)", InterfaceTest.mock, InterfaceTest.overrideTestInt, 0⟩]⟩ ∧
    ¬ (∃ callback a, Event.expected callback a ∈
      (MockBase.callInternal InterfaceTest.env InterfaceTest.default_callback
        InterfaceTest.mock InterfaceTest.overrideTestString [7]
        InterfaceTest.overrideInt).events) ∧
    (MockBase.callInternal InterfaceTest.env InterfaceTest.default_callback
      InterfaceTest.mock InterfaceTest.overrideTestInt [123]
      InterfaceTest.overrideInt).events = [Event.expected 0 [123]] := by
  have h := matching_by_mock_and_method InterfaceTest.env InterfaceTest.default_callback
    InterfaceTest.mock InterfaceTest.overrideTestString [7] InterfaceTest.overrideInt
    ⟨"void overrideTest(int)", InterfaceTest.mock, InterfaceTest.overrideTestInt, 0⟩ []
    (by decide) (by decide)
  refine ⟨by decide, by decide, ?_, by decide⟩
  rw [h.2.1]
  decide

/-! ## C14: the default callback runs after the unexpected-call handler -/

/-- An unpaused call that neither matches the head nor finds a fallback, with a
handler that returns: handler first, default callback second. -/
theorem callInternal_handler_then_default {V U : Type} (env : Env V U)
    (default_callback : List V → World U → Outcome V U) (self : Nat) (this_method : Method)
    (args : List V) (w : World U) (handler : Handler)
    (hp : w.repo.state_.expectations_paused = false)
    (hh : w.repo.state_.unexpected_call_handler = some handler)
    (hnm : ∀ head rest, w.repo.state_.expected_callback_queue = ⟨head :: rest⟩ →
      ¬ (head.mock = self ∧ head.method = this_method))
    (hf : w.repo.state_.fallback_callbacks.registered self this_method = [])
    (hok : (env.unexpected_call handler
      (w.repo.state_.expected_callback_queue.callbacks_.head?.map (fun e => e.description))
      (w.setQueue w.repo.state_.expected_callback_queue.pop)).1 = Except.ok ()) :
    MockBase.callInternal env default_callback self this_method args w =
      ⟨(default_callback args (env.unexpected_call handler
          (w.repo.state_.expected_callback_queue.callbacks_.head?.map (fun e => e.description))
          (w.setQueue w.repo.state_.expected_callback_queue.pop)).2).1,
        (default_callback args (env.unexpected_call handler
          (w.repo.state_.expected_callback_queue.callbacks_.head?.map (fun e => e.description))
          (w.setQueue w.repo.state_.expected_callback_queue.pop)).2).2,
        [Event.unexpected handler
            (w.repo.state_.expected_callback_queue.callbacks_.head?.map
              (fun e => e.description)),
          Event.default_call args]⟩ := by
  rcases hq : w.repo.state_.expected_callback_queue with ⟨l⟩
  cases l with
  | nil =>
    have hw : w.setQueue ⟨[]⟩ = w := setQueue_same w _ hq
    rw [hq] at hok
    simp only [ExpectedCallbackQueue.pop, List.tail_nil, List.head?_nil, Option.map_none',
      hw] at hok ⊢
    rw [callInternal_of_empty env default_callback self this_method args w hq]
    exact callInternalTail_of_handler_ok env default_callback self this_method args none w
      handler hf hp hh hok
  | cons head rest =>
    rw [hq] at hok
    simp only [ExpectedCallbackQueue.pop, List.tail_cons, List.head?_cons, Option.map_some']
      at hok ⊢
    rw [callInternal_of_mismatch env default_callback self this_method args w head rest hp hq
      (hnm head rest hq)]
    exact callInternalTail_of_handler_ok env default_callback self this_method args _ _
      handler (by simpa using hf) (by simpa using hp) (by simpa using hh) hok

/-- C14.  For an unpaused dispatch that neither matches the queue head nor finds a
fallback, with an unexpected-call handler installed that returns normally: the
handler is invoked first (with the head's description, if there was a head, on the
state with that head popped), then the default callback is invoked exactly once,
with the caller's arguments, on the state the handler left, and its outcome is the
outcome of the call.  Through the override generated for an abstract mocked type the
call returns the value-initialised result; in the test case "Default call" both
calls return and `returnTest()` yields 0. -/
theorem default_after_unexpected {V U : Type} (env : Env V U)
    (default_callback : List V → World U → Outcome V U) (self : Nat) (this_method : Method)
    (args : List V) (w : World U) (handler : Handler)
    (hp : w.repo.state_.expectations_paused = false)
    (hh : w.repo.state_.unexpected_call_handler = some handler)
    (hnm : ∀ head rest, w.repo.state_.expected_callback_queue = ⟨head :: rest⟩ →
      ¬ (head.mock = self ∧ head.method = this_method))
    (hf : w.repo.state_.fallback_callbacks.registered self this_method = [])
    (hok : (env.unexpected_call handler
      (w.repo.state_.expected_callback_queue.callbacks_.head?.map (fun e => e.description))
      (w.setQueue w.repo.state_.expected_callback_queue.pop)).1 = Except.ok ()) :
    MockBase.callInternal env default_callback self this_method args w =
      ⟨(default_callback args (env.unexpected_call handler
          (w.repo.state_.expected_callback_queue.callbacks_.head?.map (fun e => e.description))
          (w.setQueue w.repo.state_.expected_callback_queue.pop)).2).1,
        (default_callback args (env.unexpected_call handler
          (w.repo.state_.expected_callback_queue.callbacks_.head?.map (fun e => e.description))
          (w.setQueue w.repo.state_.expected_callback_queue.pop)).2).2,
        [Event.unexpected handler
            (w.repo.state_.expected_callback_queue.callbacks_.head?.map
              (fun e => e.description)),
          Event.default_call args]⟩ ∧
    (∀ (value_initialized : V) (base_method : List V → World U → Outcome V U),
      COMOCK_METHOD env true value_initialized base_method self this_method args w =
        ⟨Except.ok value_initialized,
          (env.unexpected_call handler
            (w.repo.state_.expected_callback_queue.callbacks_.head?.map
              (fun e => e.description))
            (w.setQueue w.repo.state_.expected_callback_queue.pop)).2,
          [Event.unexpected handler
              (w.repo.state_.expected_callback_queue.callbacks_.head?.map
                (fun e => e.description)),
            Event.default_call args]⟩) ∧
    (InterfaceTest.defaultCallFirst.result = Except.ok 0 ∧
      InterfaceTest.defaultCallFirst.events = [Event.unexpected 4 none, Event.default_call []] ∧
      InterfaceTest.defaultCallSecond.result = Except.ok 0 ∧
      InterfaceTest.defaultCallSecond.events =
        [Event.unexpected 4 none, Event.default_call []]) := by
  refine ⟨callInternal_handler_then_default env default_callback self this_method args w
    handler hp hh hnm hf hok, ?_, ?_⟩
  · intro value_initialized base_method
    simp only [COMOCK_METHOD, MockBase.call]
    rw [callInternal_handler_then_default env _ self this_method args w handler hp hh hnm hf
      hok]
    simp [COMOCK_default_callback]
  · exact ⟨rfl, by decide, rfl, by decide⟩

/-- C14 on the second call of the test case "Default call". -/
theorem default_after_unexpected_witness :
    InterfaceTest.defaultCallFirst.world.repo.state_.expectations_paused = false ∧
    InterfaceTest.defaultCallFirst.world.repo.state_.unexpected_call_handler = some 4 ∧
    (∀ head rest,
      InterfaceTest.defaultCallFirst.world.repo.state_.expected_callback_queue =
        ⟨head :: rest⟩ →
      ¬ (head.mock = InterfaceTest.mock ∧ head.method = InterfaceTest.returnTest)) ∧
    InterfaceTest.defaultCallFirst.world.repo.state_.fallback_callbacks.registered
      InterfaceTest.mock InterfaceTest.returnTest = [] ∧
    (MockBase.callInternal InterfaceTest.env InterfaceTest.default_callback
      InterfaceTest.mock InterfaceTest.returnTest []
      InterfaceTest.defaultCallFirst.world).result = Except.ok 0 := by
  have h1 : InterfaceTest.defaultCallFirst.world.repo.state_.expectations_paused = false := by
    decide
  have h2 : InterfaceTest.defaultCallFirst.world.repo.state_.unexpected_call_handler =
      some 4 := by decide
  have h3 : ∀ head rest,
      InterfaceTest.defaultCallFirst.world.repo.state_.expected_callback_queue =
        ⟨head :: rest⟩ →
      ¬ (head.mock = InterfaceTest.mock ∧ head.method = InterfaceTest.returnTest) := by
    intro head rest hq
    have : InterfaceTest.defaultCallFirst.world.repo.state_.expected_callback_queue =
        ⟨[]⟩ := by decide
    rw [this] at hq
    simp at hq
  have h4 : InterfaceTest.defaultCallFirst.world.repo.state_.fallback_callbacks.registered
      InterfaceTest.mock InterfaceTest.returnTest = [] := by decide
  refine ⟨h1, h2, h3, h4, ?_⟩
  rw [(default_after_unexpected InterfaceTest.env InterfaceTest.default_callback
    InterfaceTest.mock InterfaceTest.returnTest [] InterfaceTest.defaultCallFirst.world 4
    h1 h2 h3 h4 rfl).1]
  rfl

/-! ## C15: one callable answers each call -/

/-- C15 as stated fails when the unexpected-call handler throws.  In the fixture (the
handler of `Fixture` installed, nothing expected, no fallback) the call
`voidArgTest()` invokes the handler and leaves by its exception: none of the
expectation callback, fallback or default callback is invoked, and no callable's
result is returned. -/
theorem one_callable_throwing_handler_counterexample :
    (MockBase.callInternal InterfaceTest.env InterfaceTest.default_callback InterfaceTest.mock
      InterfaceTest.voidArgTest [] InterfaceTest.fixture).events =
        [Event.unexpected 1 none] ∧
    (MockBase.callInternal InterfaceTest.env InterfaceTest.default_callback InterfaceTest.mock
      InterfaceTest.voidArgTest [] InterfaceTest.fixture).events.filter Event.isCallback =
        [] ∧
    (MockBase.callInternal InterfaceTest.env InterfaceTest.default_callback InterfaceTest.mock
      InterfaceTest.voidArgTest [] InterfaceTest.fixture).result =
        Except.error (Exn.thrown 1) := by
  refine ⟨by decide, by decide, rfl⟩

/-- C15 (amended).  Every dispatch ends in one of five ways.  In four of them exactly
one of the head expectation's callback, the selected (latest registered) fallback and
the default callback is invoked, exactly once, with the caller's arguments, and its
outcome is the outcome of the call; the callable runs on the state the dispatch found
or on that state with the head popped, and the default callback may be preceded by
the unexpected-call handler.  In the fifth the unexpected-call handler throws: none
of the three is invoked and the exception is the outcome of the call. -/
theorem one_callable_per_call {V U : Type} (env : Env V U)
    (default_callback : List V → World U → Outcome V U) (self : Nat) (this_method : Method)
    (args : List V) (w : World U) :
    (∃ w1, (w1 = w ∨ ∃ head rest, w.repo.state_.expected_callback_queue = ⟨head :: rest⟩ ∧
        w1 = w.setQueue ⟨rest⟩) ∧
      ((∃ head rest, w.repo.state_.expected_callback_queue = ⟨head :: rest⟩ ∧
          MockBase.callInternal env default_callback self this_method args w =
            ⟨(env.invoke head.callback args w1).1, (env.invoke head.callback args w1).2,
              [Event.expected head.callback args]⟩) ∨
        (∃ f, (w.repo.state_.fallback_callbacks.registered self this_method).getLast? =
            some f ∧
          MockBase.callInternal env default_callback self this_method args w =
            ⟨(env.invoke f args w1).1, (env.invoke f args w1).2, [Event.fallback f args]⟩) ∨
        MockBase.callInternal env default_callback self this_method args w =
          ⟨(default_callback args w1).1, (default_callback args w1).2,
            [Event.default_call args]⟩ ∨
        (∃ handler d, (env.unexpected_call handler d w1).1 = Except.ok () ∧
          MockBase.callInternal env default_callback self this_method args w =
            ⟨(default_callback args (env.unexpected_call handler d w1).2).1,
              (default_callback args (env.unexpected_call handler d w1).2).2,
              [Event.unexpected handler d, Event.default_call args]⟩) ∨
        (∃ handler d e, (env.unexpected_call handler d w1).1 = Except.error e ∧
          MockBase.callInternal env default_callback self this_method args w =
            ⟨Except.error e, (env.unexpected_call handler d w1).2,
              [Event.unexpected handler d]⟩))) ∧
    (((MockBase.callInternal env default_callback self this_method args w).events.filter
          Event.isCallback).length = 1 ∨
      (∃ handler d e,
        (MockBase.callInternal env default_callback self this_method args w).events =
          [Event.unexpected handler d] ∧
        (MockBase.callInternal env default_callback self this_method args w).result =
          Except.error e)) := by
  have tail : ∀ (d : Option String) (w1 : World U),
      w1.repo.state_.fallback_callbacks = w.repo.state_.fallback_callbacks →
      MockBase.callInternal env default_callback self this_method args w =
        MockBase.callInternalTail env default_callback self this_method args d w1 →
      ((∃ head rest, w.repo.state_.expected_callback_queue = ⟨head :: rest⟩ ∧
          MockBase.callInternal env default_callback self this_method args w =
            ⟨(env.invoke head.callback args w1).1, (env.invoke head.callback args w1).2,
              [Event.expected head.callback args]⟩) ∨
        (∃ f, (w.repo.state_.fallback_callbacks.registered self this_method).getLast? =
            some f ∧
          MockBase.callInternal env default_callback self this_method args w =
            ⟨(env.invoke f args w1).1, (env.invoke f args w1).2, [Event.fallback f args]⟩) ∨
        MockBase.callInternal env default_callback self this_method args w =
          ⟨(default_callback args w1).1, (default_callback args w1).2,
            [Event.default_call args]⟩ ∨
        (∃ handler d, (env.unexpected_call handler d w1).1 = Except.ok () ∧
          MockBase.callInternal env default_callback self this_method args w =
            ⟨(default_callback args (env.unexpected_call handler d w1).2).1,
              (default_callback args (env.unexpected_call handler d w1).2).2,
              [Event.unexpected handler d, Event.default_call args]⟩) ∨
        (∃ handler d e, (env.unexpected_call handler d w1).1 = Except.error e ∧
          MockBase.callInternal env default_callback self this_method args w =
            ⟨Except.error e, (env.unexpected_call handler d w1).2,
              [Event.unexpected handler d]⟩)) ∧
      (((MockBase.callInternal env default_callback self this_method args w).events.filter
            Event.isCallback).length = 1 ∨
        (∃ handler d e,
          (MockBase.callInternal env default_callback self this_method args w).events =
            [Event.unexpected handler d] ∧
          (MockBase.callInternal env default_callback self this_method args w).result =
            Except.error e)) := by
    intro d w1 hfb hd
    rw [hd]
    rcases callInternalTail_cases env default_callback self this_method args d w1 with
      ⟨f, hf, ht⟩ | ⟨_, _, ht⟩ | ⟨h2, _, _, _, hok, ht⟩ | ⟨h2, e, _, _, _, hthrow, ht⟩
    · rw [hfb] at hf
      exact ⟨Or.inr (Or.inl ⟨f, hf, ht⟩), Or.inl (by rw [ht]; rfl)⟩
    · exact ⟨Or.inr (Or.inr (Or.inl ht)), Or.inl (by rw [ht]; rfl)⟩
    · exact ⟨Or.inr (Or.inr (Or.inr (Or.inl ⟨h2, d, hok, ht⟩))), Or.inl (by rw [ht]; rfl)⟩
    · exact ⟨Or.inr (Or.inr (Or.inr (Or.inr ⟨h2, d, e, hthrow, ht⟩))),
        Or.inr ⟨h2, d, e, by rw [ht], by rw [ht]⟩⟩
  rcases callInternal_entry_cases env default_callback self this_method args w with
    ⟨head, rest, _, hq, _, hd⟩ | ⟨head, rest, _, hq, _, hd⟩ | ⟨_, hd⟩
  · exact ⟨⟨w.setQueue ⟨rest⟩, Or.inr ⟨head, rest, hq, rfl⟩, Or.inl ⟨head, rest, hq, hd⟩⟩,
      Or.inl (by rw [hd]; rfl)⟩
  · obtain ⟨h1, h2⟩ := tail (some head.description) (w.setQueue ⟨rest⟩) rfl hd
    exact ⟨⟨w.setQueue ⟨rest⟩, Or.inr ⟨head, rest, hq, rfl⟩, h1⟩, h2⟩
  · obtain ⟨h1, h2⟩ := tail none w rfl hd
    exact ⟨⟨w, Or.inl rfl, h1⟩, h2⟩

/-! ## C16: expectations recorded from inside a callback -/

/-- C16.  In an unpaused session with queue `E1 :: rest` where `E1` has the call's
(mock, method), the callback of `E1` runs on the state whose queue is already `rest`.
If what the callback does to the repository is one `expectCall` of an expectation X
on a created mock, the queue after the call is `rest ++ [X]`.  A mocked method that
the callback calls is dispatched against the head of `rest`: when that entry `E2` has
the inner call's (mock, method) its callback answers the inner call, and otherwise
the inner call is unmatched and `E2` is popped, even if the inner call has the
(mock, method) of `E1`. -/
theorem recorded_inside_callback {V U : Type} (env : Env V U)
    (default_callback : List V → World U → Outcome V U) (self : Nat) (this_method : Method)
    (args : List V) (w : World U) (E1 : Expectation) (rest : List Expectation)
    (hp : w.repo.state_.expectations_paused = false)
    (hq : w.repo.state_.expected_callback_queue = ⟨E1 :: rest⟩)
    (hm : E1.mock = self ∧ E1.method = this_method) :
    MockBase.callInternal env default_callback self this_method args w =
        ⟨(env.invoke E1.callback args (w.setQueue ⟨rest⟩)).1,
          (env.invoke E1.callback args (w.setQueue ⟨rest⟩)).2,
          [Event.expected E1.callback args]⟩ ∧
    (∀ (description : String) (mockX : Nat) (methodX : Method) (callbackX : Callback),
      mockX ∈ w.repo.mocks_ →
      (env.invoke E1.callback args (w.setQueue ⟨rest⟩)).2.repo =
        ((w.setQueue ⟨rest⟩).repo.expectCall description mockX methodX callbackX).2 →
      (MockBase.callInternal env default_callback self this_method args
        w).world.repo.state_.expected_callback_queue =
          ⟨rest ++ [⟨description, mockX, methodX, callbackX⟩]⟩) ∧
    (∀ (default_callback2 : List V → World U → Outcome V U) (self2 : Nat)
      (method2 : Method) (args2 : List V) (E2 : Expectation) (rest2 : List Expectation),
      rest = E2 :: rest2 →
      ((E2.mock = self2 ∧ E2.method = method2) →
        MockBase.callInternal env default_callback2 self2 method2 args2 (w.setQueue ⟨rest⟩) =
          ⟨(env.invoke E2.callback args2 (w.setQueue ⟨rest2⟩)).1,
            (env.invoke E2.callback args2 (w.setQueue ⟨rest2⟩)).2,
            [Event.expected E2.callback args2]⟩) ∧
      (¬ (E2.mock = self2 ∧ E2.method = method2) →
        MockBase.callInternal env default_callback2 self2 method2 args2 (w.setQueue ⟨rest⟩) =
          MockBase.callInternalTail env default_callback2 self2 method2 args2
            (some E2.description) (w.setQueue ⟨rest2⟩))) := by
  have hd := callInternal_of_match env default_callback self this_method args w E1 rest hp hq hm
  refine ⟨hd, ?_, ?_⟩
  · intro description mockX methodX callbackX hmem heff
    rw [hd]
    simp only
    rw [heff]
    have hmem2 : mockX ∈ (w.setQueue ⟨rest⟩).repo.mocks_ := hmem
    simp [Repo.expectCall, Repo.expectedCallInternal, Repo.count, hmem2,
      ExpectedCallbackQueue.push]
  · intro default_callback2 self2 method2 args2 E2 rest2 hrest
    subst hrest
    refine ⟨?_, ?_⟩
    · intro hm2
      have := callInternal_of_match env default_callback2 self2 method2 args2
        (w.setQueue ⟨E2 :: rest2⟩) E2 rest2 (by simpa using hp) rfl hm2
      simpa using this
    · intro hm2
      have := callInternal_of_mismatch env default_callback2 self2 method2 args2
        (w.setQueue ⟨E2 :: rest2⟩) E2 rest2 (by simpa using hp) rfl hm2
      simpa using this

/-- C16 on two tests.  The callback of "first" records "late": the queue after the
call is ["second", "late"].  The callback of "outer" calls `oneArgTest(5)`: the inner
call is answered by "inner" and the queue ends empty, with no unexpected call. -/
theorem recorded_inside_callback_witness :
    RecordingFallback.queued.repo.state_.expectations_paused = false ∧
    RecordingFallback.queued.repo.state_.expected_callback_queue =
      ⟨[⟨"first", InterfaceTest.mock, InterfaceTest.returnTest, 1⟩,
        ⟨"second", InterfaceTest.mock, InterfaceTest.oneArgTest, 0⟩]⟩ ∧
    InterfaceTest.mock ∈ RecordingFallback.queued.repo.mocks_ ∧
    (MockBase.callInternal RecordingFallback.env InterfaceTest.default_callback
      InterfaceTest.mock InterfaceTest.returnTest []
      RecordingFallback.queued).world.repo.state_.expected_callback_queue =
        ⟨[⟨"second", InterfaceTest.mock, InterfaceTest.oneArgTest, 0⟩] ++
          [⟨"late", InterfaceTest.mock, InterfaceTest.voidArgTest, 0⟩]⟩ ∧
    (MockBase.callInternal Reentrant.env InterfaceTest.default_callback
      InterfaceTest.mock InterfaceTest.returnTest []
      Reentrant.queued).world.repo.state_.expected_callback_queue = ⟨[]⟩ ∧
    (MockBase.callInternal Reentrant.env InterfaceTest.default_callback
      InterfaceTest.mock InterfaceTest.returnTest [] Reentrant.queued).world.user = [] :=
  ⟨by decide, by decide, by decide,
    (recorded_inside_callback RecordingFallback.env InterfaceTest.default_callback
      InterfaceTest.mock InterfaceTest.returnTest [] RecordingFallback.queued
      ⟨"first", InterfaceTest.mock, InterfaceTest.returnTest, 1⟩
      [⟨"second", InterfaceTest.mock, InterfaceTest.oneArgTest, 0⟩]
      (by decide) (by decide) (by decide)).2.1 "late" InterfaceTest.mock
        InterfaceTest.voidArgTest 0 (by decide) (by decide),
    by decide, by decide⟩

/-! ## C17: `onCall` does not check the mock -/

/-- C17.  For every repository and every mock address, created or not,
`Repo::onCall(mock, method, callback)` yields a repository (it has no failing path,
unlike `expectCall`, which throws for an address outside `mocks_`) in which the
vector of `mock` is the old vector, or an empty one when there was none, with exactly
the pair (method, callback) appended; the vectors of all other mocks, the queue, the
paused flag, both handler slots and `mocks_` are unchanged. -/
theorem onCall_no_liveness_check (r : Repo) (mock : Nat) (method : Method)
    (callback : Callback) :
    FallbackCallbacks.find (r.onCall mock method callback).state_.fallback_callbacks.callbacks_
        mock =
      some ((FallbackCallbacks.find r.state_.fallback_callbacks.callbacks_ mock).getD [] ++
        [(method, callback)]) ∧
    (FallbackCallbacks.find r.state_.fallback_callbacks.callbacks_ mock = none →
      FallbackCallbacks.find
        (r.onCall mock method callback).state_.fallback_callbacks.callbacks_ mock =
          some [(method, callback)]) ∧
    (∀ other, other ≠ mock →
      FallbackCallbacks.find
        (r.onCall mock method callback).state_.fallback_callbacks.callbacks_ other =
          FallbackCallbacks.find r.state_.fallback_callbacks.callbacks_ other) ∧
    (r.onCall mock method callback).state_.expected_callback_queue =
      r.state_.expected_callback_queue ∧
    (r.onCall mock method callback).state_.expectations_paused =
      r.state_.expectations_paused ∧
    (r.onCall mock method callback).state_.unexpected_call_handler =
      r.state_.unexpected_call_handler ∧
    (r.onCall mock method callback).state_.missing_call_handler =
      r.state_.missing_call_handler ∧
    (r.onCall mock method callback).mocks_ = r.mocks_ ∧
    (mock ∉ r.mocks_ → ∀ description,
      (r.expectCall description mock method callback).1 =
        Except.error (Exn.invalid_argument Repo.notCreatedMessage) ∧
      (r.onCall mock method callback).state_.fallback_callbacks.get mock method =
        some callback) := by
  have h1 := find_emplace_back_same r.state_.fallback_callbacks.callbacks_ mock method callback
  refine ⟨h1, ?_, ?_, rfl, rfl, rfl, rfl, rfl, ?_⟩
  · intro hnone
    have h2 : FallbackCallbacks.find
        (r.onCall mock method callback).state_.fallback_callbacks.callbacks_ mock = _ := h1
    rw [h2, hnone]
    rfl
  · intro other hne
    exact find_emplace_back_other _ _ _ _ _ hne
  · intro hmem description
    refine ⟨?_, ?_⟩
    · simp [Repo.expectCall, Repo.expectedCallInternal, Repo.count, hmem]
    · rw [get_eq_getLast?]
      have : (r.onCall mock method callback).state_.fallback_callbacks.registered mock
          method = r.state_.fallback_callbacks.registered mock method ++ [callback] :=
        registered_add_same _ _ _ _
      rw [this]
      simp

/-- C17 on the fixture and the address 5, which no `create` returned: `expectCall`
throws, `onCall` stores the fallback. -/
theorem onCall_no_liveness_check_witness :
    5 ∉ InterfaceTest.fixture.repo.mocks_ ∧
    (InterfaceTest.fixture.repo.expectCall "stray" 5 InterfaceTest.returnTest 123).1 =
      Except.error (Exn.invalid_argument Repo.notCreatedMessage) ∧
    (InterfaceTest.fixture.repo.onCall 5 InterfaceTest.returnTest
      123).state_.fallback_callbacks.get 5 InterfaceTest.returnTest = some 123 :=
  ⟨by decide,
    ((onCall_no_liveness_check InterfaceTest.fixture.repo 5 InterfaceTest.returnTest
      123).2.2.2.2.2.2.2.2 (by decide) "stray").1,
    ((onCall_no_liveness_check InterfaceTest.fixture.repo 5 InterfaceTest.returnTest
      123).2.2.2.2.2.2.2.2 (by decide) "stray").2⟩

/-! ## C18: queue entries belong to created mocks -/

theorem Evolves_trans {r1 r2 r3 : Repo} (h12 : Repo.Evolves r1 r2) (h23 : Repo.Evolves r2 r3) :
    Repo.Evolves r1 r3 := by
  induction h23 with
  | refl => exact h12
  | perform op _ ih => exact Repo.Evolves.perform op ih
  | pop _ ih => exact Repo.Evolves.pop ih

theorem perform_queue_created (r : Repo) (op : Repo.Operation)
    (h : ∀ e ∈ r.state_.expected_callback_queue.callbacks_, e.mock ∈ r.mocks_) :
    ∀ e ∈ (r.perform op).state_.expected_callback_queue.callbacks_,
      e.mock ∈ (r.perform op).mocks_ := by
  cases op with
  | create address =>
    intro e he
    simp only [Repo.perform, Repo.create, Finset.mem_insert]
    exact Or.inr (h e he)
  | expectCall description m method callback =>
    intro e he
    by_cases hm : m ∈ r.mocks_
    · simp only [Repo.perform, Repo.expectCall, Repo.expectedCallInternal, Repo.count, hm,
        if_true, ExpectedCallbackQueue.push] at he ⊢
      simp only [beq_iff_eq, one_ne_zero, if_false, List.mem_append, List.mem_singleton] at he ⊢
      rcases he with he | he
      · exact h e he
      · rw [he]; exact hm
    · simp only [Repo.perform, Repo.expectCall, Repo.expectedCallInternal, Repo.count, hm,
        if_false] at he ⊢
      simp only [beq_self_eq_true, if_true] at he ⊢
      exact h e he
  | onCall m method callback => exact h
  | pauseExpectations => exact h
  | resumeExpectations => exact h
  | setUnexpectedCallHandler handler => exact h
  | setMissingCallHandler handler => exact h

theorem perform_mocks_subset (r : Repo) (op : Repo.Operation) :
    r.mocks_ ⊆ (r.perform op).mocks_ :=
  fun m hm => perform_mocks_mono r op m hm

/-- Along every evolution of the repository the queue keeps holding entries of created
mocks only, and `mocks_` only grows. -/
theorem Evolves_invariant {r r1 : Repo} (hev : Repo.Evolves r r1)
    (h : ∀ e ∈ r.state_.expected_callback_queue.callbacks_, e.mock ∈ r.mocks_) :
    (∀ e ∈ r1.state_.expected_callback_queue.callbacks_, e.mock ∈ r1.mocks_) ∧
      r.mocks_ ⊆ r1.mocks_ := by
  induction hev with
  | refl => exact ⟨h, fun _ hm => hm⟩
  | perform op _ ih =>
    exact ⟨perform_queue_created _ op ih.1, fun m hm => perform_mocks_subset _ op (ih.2 hm)⟩
  | pop _ ih =>
    refine ⟨?_, ih.2⟩
    intro e he
    exact ih.1 e (List.mem_of_mem_tail he)

theorem setQueue_tail_evolves {U : Type} (w : World U) (head : Expectation)
    (rest : List Expectation)
    (hq : w.repo.state_.expected_callback_queue = ⟨head :: rest⟩) :
    Repo.Evolves w.repo (w.setQueue ⟨rest⟩).repo := by
  have h := Repo.Evolves.pop (Repo.Evolves.refl w.repo)
  have e : (w.setQueue ⟨rest⟩).repo =
      { w.repo with state_ := { w.repo.state_ with
          expected_callback_queue := w.repo.state_.expected_callback_queue.pop } } := by
    simp [World.setQueue, hq, ExpectedCallbackQueue.pop]
  rw [e]
  exact h

/-- Where the world after a dispatch comes from: the dispatch leaves the state alone
or pops the head, and then runs one callable, or the handler and the default
callback, or the handler alone. -/
theorem callInternal_world_cases {V U : Type} (env : Env V U)
    (default_callback : List V → World U → Outcome V U) (self : Nat) (this_method : Method)
    (args : List V) (w : World U) :
    ∃ w1, (w1 = w ∨ ∃ head rest, w.repo.state_.expected_callback_queue = ⟨head :: rest⟩ ∧
        w1 = w.setQueue ⟨rest⟩) ∧
      ((∃ cb, (MockBase.callInternal env default_callback self this_method args w).world =
          (env.invoke cb args w1).2) ∨
        (MockBase.callInternal env default_callback self this_method args w).world =
          (default_callback args w1).2 ∨
        (∃ handler d,
          (MockBase.callInternal env default_callback self this_method args w).world =
            (default_callback args (env.unexpected_call handler d w1).2).2) ∨
        (∃ handler d,
          (MockBase.callInternal env default_callback self this_method args w).world =
            (env.unexpected_call handler d w1).2)) := by
  have tail : ∀ (d : Option String) (w1 : World U),
      (∃ cb, (MockBase.callInternalTail env default_callback self this_method args d w1).world =
          (env.invoke cb args w1).2) ∨
        (MockBase.callInternalTail env default_callback self this_method args d w1).world =
          (default_callback args w1).2 ∨
        (∃ handler d2,
          (MockBase.callInternalTail env default_callback self this_method args d w1).world =
            (default_callback args (env.unexpected_call handler d2 w1).2).2) ∨
        (∃ handler d2,
          (MockBase.callInternalTail env default_callback self this_method args d w1).world =
            (env.unexpected_call handler d2 w1).2) := by
    intro d w1
    rcases callInternalTail_cases env default_callback self this_method args d w1 with
      ⟨f, _, ht⟩ | ⟨_, _, ht⟩ | ⟨h2, _, _, _, _, ht⟩ | ⟨h2, e, _, _, _, _, ht⟩
    · exact Or.inl ⟨f, by rw [ht]⟩
    · exact Or.inr (Or.inl (by rw [ht]))
    · exact Or.inr (Or.inr (Or.inl ⟨h2, d, by rw [ht]⟩))
    · exact Or.inr (Or.inr (Or.inr ⟨h2, d, by rw [ht]⟩))
  rcases callInternal_entry_cases env default_callback self this_method args w with
    ⟨head, rest, _, hq, _, hd⟩ | ⟨head, rest, _, hq, _, hd⟩ | ⟨_, hd⟩
  · exact ⟨w.setQueue ⟨rest⟩, Or.inr ⟨head, rest, hq, rfl⟩, Or.inl ⟨head.callback, by rw [hd]⟩⟩
  · refine ⟨w.setQueue ⟨rest⟩, Or.inr ⟨head, rest, hq, rfl⟩, ?_⟩
    rw [hd]
    exact tail _ _
  · refine ⟨w, Or.inl rfl, ?_⟩
    rw [hd]
    exact tail _ _

/-- A dispatch whose callables change the repository only by public member functions
and further dispatches changes it in that way itself. -/
theorem callInternal_evolves {V U : Type} (env : Env V U)
    (default_callback : List V → World U → Outcome V U) (self : Nat) (this_method : Method)
    (args : List V) (w : World U)
    (hinvoke : ∀ cb a w0, Repo.Evolves w0.repo (env.invoke cb a w0).2.repo)
    (hhandler : ∀ h d w0, Repo.Evolves w0.repo (env.unexpected_call h d w0).2.repo)
    (hdefault : ∀ a w0, Repo.Evolves w0.repo (default_callback a w0).2.repo) :
    Repo.Evolves w.repo
      (MockBase.callInternal env default_callback self this_method args w).world.repo := by
  obtain ⟨w1, hw1, hcases⟩ :=
    callInternal_world_cases env default_callback self this_method args w
  have h1 : Repo.Evolves w.repo w1.repo := by
    rcases hw1 with h | ⟨head, rest, hq, h⟩
    · rw [h]; exact Repo.Evolves.refl _
    · rw [h]; exact setQueue_tail_evolves w head rest hq
  rcases hcases with ⟨cb, h⟩ | h | ⟨handler, d, h⟩ | ⟨handler, d, h⟩
  · rw [h]; exact Evolves_trans h1 (hinvoke _ _ _)
  · rw [h]; exact Evolves_trans h1 (hdefault _ _)
  · rw [h]; exact Evolves_trans (Evolves_trans h1 (hhandler _ _ _)) (hdefault _ _)
  · rw [h]; exact Evolves_trans h1 (hhandler _ _ _)

theorem runSteps_evolves {V U : Type} (env : Env V U)
    (hinvoke : ∀ cb a w0, Repo.Evolves w0.repo (env.invoke cb a w0).2.repo)
    (hhandler : ∀ h d w0, Repo.Evolves w0.repo (env.unexpected_call h d w0).2.repo)
    (steps : List (SessionStep V U)) :
    ∀ (w : World U),
      (∀ c, SessionStep.mockCall c ∈ steps →
        ∀ a w0, Repo.Evolves w0.repo (c.default_callback a w0).2.repo) →
      Repo.Evolves w.repo (runSteps env w steps).repo := by
  induction steps with
  | nil => intro w _; exact Repo.Evolves.refl _
  | cons step steps ih =>
    intro w hdef
    have hrest := ih (runStep env w step)
      (fun c hc => hdef c (List.mem_cons_of_mem _ hc))
    have hstep : Repo.Evolves w.repo (runStep env w step).repo := by
      cases step with
      | operation op => exact Repo.Evolves.perform op (Repo.Evolves.refl _)
      | mockCall c =>
        exact callInternal_evolves env c.default_callback c.self c.this_method c.args w
          hinvoke hhandler (hdef c (List.mem_cons_self _ _))
    simp only [runSteps, List.foldl_cons] at hrest ⊢
    exact Evolves_trans hstep hrest

theorem interfaceTest_unexpected_frame (h : Handler) (d : Option String)
    (w0 : World InterfaceTest.Tracker) :
    (InterfaceTest.env.unexpected_call h d w0).2.repo = w0.repo := by
  simp only [InterfaceTest.env]
  split <;> rfl

/-- C18.  Start from a fresh `Repo` and run any sequence of public member functions
(`create`, `expectCall` whether it throws or not, `onCall`, `pauseExpectations`,
`resumeExpectations`, handler replacement) and mock calls, where the callables that
the mock calls invoke change the repository only through such member functions and
mock calls themselves.  In the state reached, every queue entry carries a mock
address that is in `mocks_`; and every address in `mocks_` is still there after any
further such steps. -/
theorem queue_entries_created {V U : Type} (env : Env V U) (user0 : U)
    (steps later : List (SessionStep V U))
    (hinvoke : ∀ cb a w0, Repo.Evolves w0.repo (env.invoke cb a w0).2.repo)
    (hhandler : ∀ h d w0, Repo.Evolves w0.repo (env.unexpected_call h d w0).2.repo)
    (hdefault : ∀ c, SessionStep.mockCall c ∈ steps ++ later →
      ∀ a w0, Repo.Evolves w0.repo (c.default_callback a w0).2.repo) :
    (∀ e ∈ (runSteps env ⟨Repo.init, user0⟩ steps).repo.state_.expected_callback_queue.callbacks_,
      e.mock ∈ (runSteps env ⟨Repo.init, user0⟩ steps).repo.mocks_) ∧
    (runSteps env ⟨Repo.init, user0⟩ steps).repo.mocks_ ⊆
      (runSteps env ⟨Repo.init, user0⟩ (steps ++ later)).repo.mocks_ := by
  have hinit : ∀ e ∈ (Repo.init).state_.expected_callback_queue.callbacks_,
      e.mock ∈ (Repo.init).mocks_ := by
    intro e he
    simp [Repo.init] at he
  have h1 := runSteps_evolves env hinvoke hhandler steps ⟨Repo.init, user0⟩
    (fun c hc => hdefault c (List.mem_append_left _ hc))
  have hinv := Evolves_invariant h1 hinit
  refine ⟨hinv.1, ?_⟩
  have h2 := runSteps_evolves env hinvoke hhandler later
    (runSteps env ⟨Repo.init, user0⟩ steps)
    (fun c hc => hdefault c (List.mem_append_right _ hc))
  have happ : runSteps env ⟨Repo.init, user0⟩ (steps ++ later) =
      runSteps env (runSteps env ⟨Repo.init, user0⟩ steps) later := by
    simp [runSteps, List.foldl_append]
  rw [happ]
  exact (Evolves_invariant h2 hinv.1).2

/-- C18 on a short test: a mock is created, one expectation is recorded, recording
for the uncreated address 5 throws, and `oneArgTest(1)` is called. -/
theorem queue_entries_created_witness :
    (∀ cb a (w0 : World InterfaceTest.Tracker),
      Repo.Evolves w0.repo (InterfaceTest.env.invoke cb a w0).2.repo) ∧
    (∀ h d (w0 : World InterfaceTest.Tracker),
      Repo.Evolves w0.repo (InterfaceTest.env.unexpected_call h d w0).2.repo) ∧
    (runSteps InterfaceTest.env ⟨Repo.init, []⟩
      [SessionStep.operation (Repo.Operation.create InterfaceTest.mock),
        SessionStep.operation (Repo.Operation.expectCall "call 1" InterfaceTest.mock
          InterfaceTest.voidArgTest 0),
        SessionStep.operation (Repo.Operation.expectCall "stray" 5
          InterfaceTest.voidArgTest 0),
        SessionStep.operation (Repo.Operation.expectCall "call 2" InterfaceTest.mock
          InterfaceTest.oneArgTest 0),
        SessionStep.mockCall (InterfaceTest.mockCall InterfaceTest.oneArgTest
          [1])]).repo.state_.expected_callback_queue.callbacks_ =
        [⟨"call 2", InterfaceTest.mock, InterfaceTest.oneArgTest, 0⟩] ∧
    (∀ e ∈ (runSteps InterfaceTest.env ⟨Repo.init, []⟩
      [SessionStep.operation (Repo.Operation.create InterfaceTest.mock),
        SessionStep.operation (Repo.Operation.expectCall "call 1" InterfaceTest.mock
          InterfaceTest.voidArgTest 0),
        SessionStep.operation (Repo.Operation.expectCall "stray" 5
          InterfaceTest.voidArgTest 0),
        SessionStep.operation (Repo.Operation.expectCall "call 2" InterfaceTest.mock
          InterfaceTest.oneArgTest 0),
        SessionStep.mockCall (InterfaceTest.mockCall InterfaceTest.oneArgTest
          [1])]).repo.state_.expected_callback_queue.callbacks_,
      e.mock ∈ (runSteps InterfaceTest.env ⟨Repo.init, []⟩
        [SessionStep.operation (Repo.Operation.create InterfaceTest.mock),
          SessionStep.operation (Repo.Operation.expectCall "call 1" InterfaceTest.mock
            InterfaceTest.voidArgTest 0),
          SessionStep.operation (Repo.Operation.expectCall "stray" 5
            InterfaceTest.voidArgTest 0),
          SessionStep.operation (Repo.Operation.expectCall "call 2" InterfaceTest.mock
            InterfaceTest.oneArgTest 0),
          SessionStep.mockCall (InterfaceTest.mockCall InterfaceTest.oneArgTest
            [1])]).repo.mocks_) := by
  have h1 : ∀ cb a (w0 : World InterfaceTest.Tracker),
      Repo.Evolves w0.repo (InterfaceTest.env.invoke cb a w0).2.repo :=
    fun _ _ w0 => Repo.Evolves.refl w0.repo
  have h2 : ∀ h d (w0 : World InterfaceTest.Tracker),
      Repo.Evolves w0.repo (InterfaceTest.env.unexpected_call h d w0).2.repo := by
    intro h d w0
    rw [interfaceTest_unexpected_frame]
    exact Repo.Evolves.refl w0.repo
  refine ⟨h1, h2, by decide, ?_⟩
  exact (queue_entries_created InterfaceTest.env [] _ [] h1 h2
    (by
      intro c hc a w0
      simp only [List.append_nil, List.mem_cons, List.mem_singleton, List.not_mem_nil,
        or_false, reduceCtorEq, false_or, SessionStep.mockCall.injEq] at hc
      subst hc
      exact Repo.Evolves.refl w0.repo)).1

/-! ## C19: a dispatch changes the queue head at most -/

/-- With callables that leave the repository alone, the repository after a dispatch is
the one before it, or the one before it with the head of the queue removed. -/
theorem callInternal_frame {V U : Type} (env : Env V U)
    (default_callback : List V → World U → Outcome V U) (self : Nat) (this_method : Method)
    (args : List V) (w : World U)
    (hinvoke : ∀ cb a w0, (env.invoke cb a w0).2.repo = w0.repo)
    (hhandler : ∀ h d w0, (env.unexpected_call h d w0).2.repo = w0.repo)
    (hdefault : ∀ a w0, (default_callback a w0).2.repo = w0.repo) :
    (MockBase.callInternal env default_callback self this_method args w).world.repo = w.repo ∨
      ∃ head rest, w.repo.state_.expected_callback_queue = ⟨head :: rest⟩ ∧
        (MockBase.callInternal env default_callback self this_method args w).world.repo =
          (w.setQueue ⟨rest⟩).repo := by
  obtain ⟨w1, hw1, hcases⟩ :=
    callInternal_world_cases env default_callback self this_method args w
  have h : (MockBase.callInternal env default_callback self this_method args w).world.repo =
      w1.repo := by
    rcases hcases with ⟨cb, h⟩ | h | ⟨handler, d, h⟩ | ⟨handler, d, h⟩
    · rw [h, hinvoke]
    · rw [h, hdefault]
    · rw [h, hdefault, hhandler]
    · rw [h, hhandler]
  rcases hw1 with h1 | ⟨head, rest, hq, h1⟩
  · exact Or.inl (by rw [h, h1])
  · exact Or.inr ⟨head, rest, hq, by rw [h, h1]⟩

theorem callSequenceWorld_frame {V U : Type} (env : Env V U)
    (hinvoke : ∀ cb a w0, (env.invoke cb a w0).2.repo = w0.repo)
    (hhandler : ∀ h d w0, (env.unexpected_call h d w0).2.repo = w0.repo)
    (calls : List (MockCall V U)) :
    ∀ (w : World U),
      (∀ c ∈ calls, ∀ a w0, (c.default_callback a w0).2.repo = w0.repo) →
      (callSequenceWorld env calls w).repo.state_.fallback_callbacks =
          w.repo.state_.fallback_callbacks ∧
        (callSequenceWorld env calls w).repo.state_.expectations_paused =
          w.repo.state_.expectations_paused ∧
        (callSequenceWorld env calls w).repo.state_.unexpected_call_handler =
          w.repo.state_.unexpected_call_handler ∧
        (callSequenceWorld env calls w).repo.state_.missing_call_handler =
          w.repo.state_.missing_call_handler ∧
        (callSequenceWorld env calls w).repo.mocks_ = w.repo.mocks_ := by
  induction calls with
  | nil => intro w _; exact ⟨rfl, rfl, rfl, rfl, rfl⟩
  | cons c cs ih =>
    intro w hdef
    obtain ⟨i1, i2, i3, i4, i5⟩ := ih
      (MockBase.callInternal env c.default_callback c.self c.this_method c.args w).world
      (fun c0 hc0 => hdef c0 (List.mem_cons_of_mem _ hc0))
    simp only [callSequenceWorld, MockBase.call]
    rcases callInternal_frame env c.default_callback c.self c.this_method c.args w hinvoke
        hhandler (hdef c (List.mem_cons_self _ _)) with h | ⟨head, rest, _, h⟩
    · rw [i1, i2, i3, i4, i5, h]
      exact ⟨rfl, rfl, rfl, rfl, rfl⟩
    · rw [i1, i2, i3, i4, i5, h]
      exact ⟨rfl, rfl, rfl, rfl, rfl⟩

/-- C19.  For a mock call whose callables (callbacks, unexpected-call handler, default
callback) leave the repository alone, the fallback table, the paused flag, both
handler slots and `mocks_` are the same after the dispatch as before it, and the
queue afterwards is the queue before or the queue before without its first entry.
The same holds over any sequence of such calls for everything but the queue, so a
fallback registered for (mock, method) is still the latest one afterwards and
answers every later call on (mock, method) that is not matched against the queue
head. -/
theorem dispatch_touches_only_queue_head {V U : Type} (env : Env V U)
    (default_callback : List V → World U → Outcome V U) (self : Nat) (this_method : Method)
    (args : List V) (w : World U)
    (hinvoke : ∀ cb a w0, (env.invoke cb a w0).2.repo = w0.repo)
    (hhandler : ∀ h d w0, (env.unexpected_call h d w0).2.repo = w0.repo)
    (hdefault : ∀ a w0, (default_callback a w0).2.repo = w0.repo) :
    ((MockBase.callInternal env default_callback self this_method args
          w).world.repo.state_.fallback_callbacks = w.repo.state_.fallback_callbacks ∧
      (MockBase.callInternal env default_callback self this_method args
          w).world.repo.state_.expectations_paused = w.repo.state_.expectations_paused ∧
      (MockBase.callInternal env default_callback self this_method args
          w).world.repo.state_.unexpected_call_handler =
        w.repo.state_.unexpected_call_handler ∧
      (MockBase.callInternal env default_callback self this_method args
          w).world.repo.state_.missing_call_handler = w.repo.state_.missing_call_handler ∧
      (MockBase.callInternal env default_callback self this_method args
          w).world.repo.mocks_ = w.repo.mocks_) ∧
    ((MockBase.callInternal env default_callback self this_method args
          w).world.repo.state_.expected_callback_queue.callbacks_ =
        w.repo.state_.expected_callback_queue.callbacks_ ∨
      ∃ head, w.repo.state_.expected_callback_queue.callbacks_ =
        head :: (MockBase.callInternal env default_callback self this_method args
          w).world.repo.state_.expected_callback_queue.callbacks_) ∧
    (∀ (calls : List (MockCall V U)) (f : Callback)
      (default_callback2 : List V → World U → Outcome V U) (args2 : List V),
      (∀ c ∈ calls, ∀ a w0, (c.default_callback a w0).2.repo = w0.repo) →
      (w.repo.state_.fallback_callbacks.registered self this_method).getLast? = some f →
      ((callSequenceWorld env calls w).repo.state_.fallback_callbacks.registered self
          this_method).getLast? = some f ∧
      ((¬ ∃ head rest,
          (callSequenceWorld env calls w).repo.state_.expectations_paused = false ∧
          (callSequenceWorld env calls w).repo.state_.expected_callback_queue =
            ⟨head :: rest⟩ ∧
          head.mock = self ∧ head.method = this_method) →
        (MockBase.callInternal env default_callback2 self this_method args2
            (callSequenceWorld env calls w)).events = [Event.fallback f args2])) := by
  refine ⟨?_, ?_, ?_⟩
  · rcases callInternal_frame env default_callback self this_method args w hinvoke hhandler
        hdefault with h | ⟨head, rest, _, h⟩ <;>
      (rw [h]; exact ⟨rfl, rfl, rfl, rfl, rfl⟩)
  · rcases callInternal_frame env default_callback self this_method args w hinvoke hhandler
        hdefault with h | ⟨head, rest, hq, h⟩
    · exact Or.inl (by rw [h])
    · refine Or.inr ⟨head, ?_⟩
      rw [h, hq]
      rfl
  · intro calls f default_callback2 args2 hdef hf
    have hfb := (callSequenceWorld_frame env hinvoke hhandler calls w hdef).1
    have hf2 : ((callSequenceWorld env calls w).repo.state_.fallback_callbacks.registered self
        this_method).getLast? = some f := by rw [hfb]; exact hf
    refine ⟨hf2, ?_⟩
    intro hnm
    rcases callInternal_entry_cases env default_callback2 self this_method args2
        (callSequenceWorld env calls w) with
      ⟨head, rest, hp, hq, hm, _⟩ | ⟨head, rest, _, _, _, hd⟩ | ⟨_, hd⟩
    · exact absurd ⟨head, rest, hp, hq, hm.1, hm.2⟩ hnm
    · rw [hd, callInternalTail_of_fallback env default_callback2 self this_method args2 _ _ f
        (by simpa using hf2)]
    · rw [hd, callInternalTail_of_fallback env default_callback2 self this_method args2 _ _ f
        hf2]

/-- C19 on the subcase "Just on call": after two calls of `returnTest()` the fallback
is still registered and answers a third call. -/
theorem dispatch_touches_only_queue_head_witness :
    (∀ cb a (w0 : World InterfaceTest.Tracker),
      (InterfaceTest.env.invoke cb a w0).2.repo = w0.repo) ∧
    (∀ h d (w0 : World InterfaceTest.Tracker),
      (InterfaceTest.env.unexpected_call h d w0).2.repo = w0.repo) ∧
    (∀ a (w0 : World InterfaceTest.Tracker),
      (InterfaceTest.default_callback a w0).2.repo = w0.repo) ∧
    (MockBase.callInternal InterfaceTest.env InterfaceTest.default_callback InterfaceTest.mock
      InterfaceTest.returnTest []
      (callSequenceWorld InterfaceTest.env
        [InterfaceTest.mockCall InterfaceTest.returnTest [],
          InterfaceTest.mockCall InterfaceTest.returnTest []]
        InterfaceTest.justOnCall)).events = [Event.fallback 123 []] := by
  have h1 : ∀ cb a (w0 : World InterfaceTest.Tracker),
      (InterfaceTest.env.invoke cb a w0).2.repo = w0.repo := fun _ _ _ => rfl
  have h2 := interfaceTest_unexpected_frame
  have h3 : ∀ a (w0 : World InterfaceTest.Tracker),
      (InterfaceTest.default_callback a w0).2.repo = w0.repo := fun _ _ => rfl
  refine ⟨h1, h2, h3, ?_⟩
  refine ((dispatch_touches_only_queue_head InterfaceTest.env InterfaceTest.default_callback
    InterfaceTest.mock InterfaceTest.returnTest [] InterfaceTest.justOnCall h1 h2 h3).2.2
    [InterfaceTest.mockCall InterfaceTest.returnTest [],
      InterfaceTest.mockCall InterfaceTest.returnTest []] 123
    InterfaceTest.default_callback [] ?_ (by decide)).2 ?_
  · intro c hc a w0
    simp only [List.mem_cons, List.mem_singleton, List.not_mem_nil, or_false, or_self] at hc
    subst hc
    rfl
  · rintro ⟨head, rest, _, hq, _⟩
    have : (callSequenceWorld InterfaceTest.env
        [InterfaceTest.mockCall InterfaceTest.returnTest [],
          InterfaceTest.mockCall InterfaceTest.returnTest []]
        InterfaceTest.justOnCall).repo.state_.expected_callback_queue = ⟨[]⟩ := by decide
    rw [this] at hq
    simp at hq

/-! ## C20: partial mock of a concrete class -/

theorem int32_of_inRange (x : Int) (h1 : -2147483648 ≤ x) (h2 : x ≤ 2147483647) :
    ClassTest.int32 x = x := by
  unfold ClassTest.int32
  omega

theorem int32_inRange (x : Int) :
    -2147483648 ≤ ClassTest.int32 x ∧ ClassTest.int32 x ≤ 2147483647 := by
  unfold ClassTest.int32
  omega

/-- Calling the base implementation `k` times in a row adds `k` to `a_` as long as the
sum stays an `int`, and in any case leaves `b_` and the repository alone. -/
theorem callBaseIncrementA_a (k : Nat) :
    ∀ w : World ClassTest.Class,
      (-2147483648 ≤ w.user.a_ → w.user.a_ + k ≤ 2147483647 →
        (ClassTest.callBaseIncrementA k w).user.a_ = w.user.a_ + k) ∧
      (ClassTest.callBaseIncrementA k w).user.b_ = w.user.b_ ∧
      (ClassTest.callBaseIncrementA k w).repo = w.repo := by
  induction k with
  | zero => intro w; simp [ClassTest.callBaseIncrementA]
  | succ k ih =>
    intro w
    obtain ⟨h1, h2, h3⟩ := ih (ClassTest.baseIncrementA [] w).2
    simp only [ClassTest.callBaseIncrementA]
    refine ⟨?_, ?_, ?_⟩
    · intro hlo hhi
      push_cast at hhi
      have hstep : (ClassTest.baseIncrementA [] w).2.user.a_ = w.user.a_ + 1 := by
        simp only [ClassTest.baseIncrementA]
        exact int32_of_inRange _ (by omega) (by omega)
      rw [h1 (by rw [hstep]; omega) (by rw [hstep]; omega), hstep]
      push_cast
      ring
    · rw [h2]; rfl
    · rw [h3]; rfl

/-- C20 as stated fails when the unexpected-call handler throws.  With the handler of
`Fixture` still installed (no `allowUnexpectedCalls()`), nothing expected and no
fallback, `mock->incrementA()` leaves by the handler's exception: the base
implementation is not executed and `getA()` stays 1. -/
theorem partial_mock_throwing_handler_counterexample :
    ClassTest.fixture.repo.state_.expectations_paused = false ∧
    ClassTest.fixture.repo.state_.expected_callback_queue = ⟨[]⟩ ∧
    ClassTest.fixture.repo.state_.fallback_callbacks.registered ClassTest.mock
      ClassTest.incrementA = [] ∧
    ClassTest.fixture.user.a_ = 1 ∧
    (ClassTest.mockIncrementA ClassTest.fixture).events = [Event.unexpected 1 none] ∧
    (ClassTest.mockIncrementA ClassTest.fixture).result = Except.error (Exn.thrown 1) ∧
    (ClassTest.mockIncrementA ClassTest.fixture).world.user.a_ = 1 := by
  refine ⟨by decide, by decide, by decide, by decide, by decide, rfl, by decide⟩

/-- C20 (amended).  For a mock generated by `COMOCK_METHOD` over a mocked type that is
not abstract, a call that neither matches the queue head nor finds a fallback, and
whose unexpected-call handler (when one is installed) returns normally, executes the
base-class implementation of the method exactly once, with the caller's arguments,
after the handler if the handler is invoked, and yields its outcome; nothing else but
that handler is invoked.  In the test case "Call base class" `getA()` goes from 1 to
2.  An expectation callback that calls the base implementation `k` times applies its
effect `k` times: the state after the call is the state after `k` runs of the base
implementation, so `getA()` goes from `a` to `a + k` whenever `a + k` is still an
`int`, from 1 to 3 in the test case. -/
theorem partial_mock_base_call {V U : Type} (env : Env V U) (value_initialized : V)
    (base_method : List V → World U → Outcome V U) (self : Nat) (this_method : Method)
    (args : List V) (w : World U)
    (hnm : ∀ head rest, w.repo.state_.expectations_paused = false →
      w.repo.state_.expected_callback_queue = ⟨head :: rest⟩ →
      ¬ (head.mock = self ∧ head.method = this_method))
    (hf : w.repo.state_.fallback_callbacks.registered self this_method = [])
    (hret : ∀ handler d w0, w.repo.state_.unexpected_call_handler = some handler →
      (env.unexpected_call handler d w0).1 = Except.ok ()) :
    (∃ w1, (w1 = w ∨ ∃ head rest, w.repo.state_.expected_callback_queue = ⟨head :: rest⟩ ∧
        w1 = w.setQueue ⟨rest⟩) ∧
      (COMOCK_METHOD env false value_initialized base_method self this_method args w =
          ⟨(base_method args w1).1, (base_method args w1).2, [Event.default_call args]⟩ ∨
        ∃ handler d, w.repo.state_.unexpected_call_handler = some handler ∧
          COMOCK_METHOD env false value_initialized base_method self this_method args w =
            ⟨(base_method args (env.unexpected_call handler d w1).2).1,
              (base_method args (env.unexpected_call handler d w1).2).2,
              [Event.unexpected handler d, Event.default_call args]⟩)) ∧
    (ClassTest.fixture.user.a_ = 1 ∧ ClassTest.callBaseClass.world.user.a_ = 2 ∧
      ClassTest.callBaseClass.events = [Event.unexpected 4 none, Event.default_call []]) ∧
    (∀ (k : Nat) (a b : Int),
      (ClassTest.callBaseFromCallback k a b).events = [Event.expected k []] ∧
      (ClassTest.callBaseFromCallback k a b).world =
        ClassTest.callBaseIncrementA k
          (World.setQueue
            { ClassTest.fixtureWith a b with
              repo := ((ClassTest.fixtureWith a b).repo.expectCall "incrementA"
                ClassTest.mock ClassTest.incrementA k).2 }
            ⟨[]⟩) ∧
      (-2147483648 ≤ a → a + k ≤ 2147483647 →
        (ClassTest.callBaseFromCallback k a b).world.user.a_ = a + k)) ∧
    (ClassTest.callBaseFromCallback 2 1 10).world.user.a_ = 3 := by
  have hdc : ∀ a w0, COMOCK_default_callback false value_initialized base_method a w0 =
      base_method a w0 := by
    intro a w0
    simp [COMOCK_default_callback]
  have hk : ∀ (k : Nat) (a b : Int),
      (ClassTest.callBaseFromCallback k a b).events = [Event.expected k []] ∧
      (ClassTest.callBaseFromCallback k a b).world =
        ClassTest.callBaseIncrementA k
          (World.setQueue
            { ClassTest.fixtureWith a b with
              repo := ((ClassTest.fixtureWith a b).repo.expectCall "incrementA"
                ClassTest.mock ClassTest.incrementA k).2 }
            ⟨[]⟩) ∧
      (-2147483648 ≤ a → a + k ≤ 2147483647 →
        (ClassTest.callBaseFromCallback k a b).world.user.a_ = a + k) := by
    intro k a b
    have hd := callInternal_of_match ClassTest.env
      (COMOCK_default_callback false 0 ClassTest.baseIncrementA) ClassTest.mock
      ClassTest.incrementA []
      { ClassTest.fixtureWith a b with
        repo := ((ClassTest.fixtureWith a b).repo.expectCall "incrementA" ClassTest.mock
          ClassTest.incrementA k).2 }
      ⟨"incrementA", ClassTest.mock, ClassTest.incrementA, k⟩ [] rfl rfl ⟨rfl, rfl⟩
    simp only [ClassTest.callBaseFromCallback, ClassTest.mockIncrementA, COMOCK_METHOD,
      MockBase.call]
    rw [hd]
    refine ⟨rfl, rfl, ?_⟩
    intro hlo hhi
    have hk0 : (0 : Int) ≤ (k : Int) := Int.ofNat_nonneg k
    have ha : ClassTest.int32 a = a := int32_of_inRange a hlo (by omega)
    simp only [ClassTest.env]
    have hstart : (World.setQueue
        { ClassTest.fixtureWith a b with
          repo := ((ClassTest.fixtureWith a b).repo.expectCall "incrementA"
            ClassTest.mock ClassTest.incrementA k).2 }
        ⟨[]⟩).user.a_ = a := ha
    have := (callBaseIncrementA_a k (World.setQueue
        { ClassTest.fixtureWith a b with
          repo := ((ClassTest.fixtureWith a b).repo.expectCall "incrementA"
            ClassTest.mock ClassTest.incrementA k).2 }
        ⟨[]⟩)).1 (by rw [hstart]; exact hlo) (by rw [hstart]; exact hhi)
    rw [hstart] at this
    exact this
  refine ⟨?_, ⟨by decide, by decide, by decide⟩, hk, ?_⟩
  · simp only [COMOCK_METHOD, MockBase.call]
    rcases callInternal_entry_cases env
        (COMOCK_default_callback false value_initialized base_method) self this_method args w
      with ⟨head, rest, hp, hq, hm, _⟩ | ⟨head, rest, hp, hq, _, hd⟩ | ⟨_, hd⟩
    · exact absurd hm (hnm head rest hp hq)
    · refine ⟨w.setQueue ⟨rest⟩, Or.inr ⟨head, rest, hq, rfl⟩, ?_⟩
      rw [hd]
      rcases callInternalTail_cases env
          (COMOCK_default_callback false value_initialized base_method) self this_method args
          (some head.description) (w.setQueue ⟨rest⟩) with
        ⟨f, hf2, _⟩ | ⟨_, _, ht⟩ | ⟨h2, _, _, hh, _, ht⟩ | ⟨h2, e, _, _, hh, hthrow, _⟩
      · have hf3 : (w.repo.state_.fallback_callbacks.registered self this_method).getLast? =
            some f := hf2
        rw [hf] at hf3
        simp at hf3
      · exact Or.inl (by rw [ht, hdc])
      · exact Or.inr ⟨h2, _, hh, by rw [ht, hdc]⟩
      · have := hret h2 (some head.description) (w.setQueue ⟨rest⟩) hh
        rw [this] at hthrow
        simp at hthrow
    · refine ⟨w, Or.inl rfl, ?_⟩
      rw [hd]
      rcases callInternalTail_cases env
          (COMOCK_default_callback false value_initialized base_method) self this_method args
          none w with
        ⟨f, hf2, _⟩ | ⟨_, _, ht⟩ | ⟨h2, _, _, hh, _, ht⟩ | ⟨h2, e, _, _, hh, hthrow, _⟩
      · rw [hf] at hf2
        simp at hf2
      · exact Or.inl (by rw [ht, hdc])
      · exact Or.inr ⟨h2, _, hh, by rw [ht, hdc]⟩
      · have := hret h2 none w hh
        rw [this] at hthrow
        simp at hthrow
  · exact (hk 2 1 10).2.2 (by decide) (by decide)

/-- C20 (amended) on the test case "Call base class". -/
theorem partial_mock_base_call_witness :
    (∀ head rest,
      ClassTest.fixture.repo.state_.expectations_paused = false →
      (ClassTest.fixture.repo.setUnexpectedCallHandler (some 4)).state_.expected_callback_queue
        = ⟨head :: rest⟩ →
      ¬ (head.mock = ClassTest.mock ∧ head.method = ClassTest.incrementA)) ∧
    (ClassTest.fixture.repo.setUnexpectedCallHandler
      (some 4)).state_.fallback_callbacks.registered ClassTest.mock ClassTest.incrementA =
        [] ∧
    (∀ handler d (w0 : World ClassTest.Class),
      (ClassTest.fixture.repo.setUnexpectedCallHandler (some 4)).state_.unexpected_call_handler
        = some handler →
      (ClassTest.env.unexpected_call handler d w0).1 = Except.ok ()) ∧
    ClassTest.callBaseClass.world.user.a_ = 2 := by
  have h1 : ∀ head rest,
      ClassTest.fixture.repo.state_.expectations_paused = false →
      (ClassTest.fixture.repo.setUnexpectedCallHandler (some 4)).state_.expected_callback_queue
        = ⟨head :: rest⟩ →
      ¬ (head.mock = ClassTest.mock ∧ head.method = ClassTest.incrementA) := by
    intro head rest _ hq
    have : (ClassTest.fixture.repo.setUnexpectedCallHandler
        (some 4)).state_.expected_callback_queue = ⟨[]⟩ := by decide
    rw [this] at hq
    simp at hq
  have h2 : (ClassTest.fixture.repo.setUnexpectedCallHandler
      (some 4)).state_.fallback_callbacks.registered ClassTest.mock ClassTest.incrementA =
        [] := by decide
  have h3 : ∀ handler d (w0 : World ClassTest.Class),
      (ClassTest.fixture.repo.setUnexpectedCallHandler (some 4)).state_.unexpected_call_handler
        = some handler →
      (ClassTest.env.unexpected_call handler d w0).1 = Except.ok () := by
    intro handler d w0 hh
    have : handler = 4 := by
      have h4 : (ClassTest.fixture.repo.setUnexpectedCallHandler
          (some 4)).state_.unexpected_call_handler = some 4 := rfl
      rw [h4] at hh
      exact (Option.some.inj hh).symm
    subst this
    rfl
  have h := (partial_mock_base_call ClassTest.env 0 ClassTest.baseIncrementA ClassTest.mock
    ClassTest.incrementA []
    { ClassTest.fixture with repo := ClassTest.fixture.repo.setUnexpectedCallHandler (some 4) }
    h1 h2 h3).2.1
  exact ⟨h1, h2, h3, h.2.1⟩

/-! ## C23: fallbacks are kept apart per (mock, method) -/

/-- A fallback invoked by a dispatch is the latest one registered for the calling mock
and the called method. -/
theorem callInternal_fallback_mem {V U : Type} (env : Env V U)
    (default_callback : List V → World U → Outcome V U) (self : Nat) (this_method : Method)
    (args : List V) (w : World U) (f : Callback) (a : List V)
    (h : Event.fallback f a ∈
      (MockBase.callInternal env default_callback self this_method args w).events) :
    (w.repo.state_.fallback_callbacks.registered self this_method).getLast? = some f := by
  have tail : ∀ (d : Option String) (w1 : World U),
      Event.fallback f a ∈
        (MockBase.callInternalTail env default_callback self this_method args d w1).events →
      (w1.repo.state_.fallback_callbacks.registered self this_method).getLast? = some f := by
    intro d w1 hm
    rcases callInternalTail_cases env default_callback self this_method args d w1 with
      ⟨f2, hf, ht⟩ | ⟨_, _, ht⟩ | ⟨h2, _, _, _, _, ht⟩ | ⟨h2, e, _, _, _, _, ht⟩
    · rw [ht] at hm
      simp at hm
      rw [hf, hm.1]
    · rw [ht] at hm; simp at hm
    · rw [ht] at hm; simp at hm
    · rw [ht] at hm; simp at hm
  rcases callInternal_entry_cases env default_callback self this_method args w with
    ⟨head, rest, _, _, _, hd⟩ | ⟨head, rest, _, _, _, hd⟩ | ⟨_, hd⟩
  · rw [hd] at h; simp at h
  · rw [hd] at h
    simpa using tail _ (w.setQueue ⟨rest⟩) h
  · rw [hd] at h
    exact tail _ _ h

/-- C23.  Adding a fallback for (mock A, method m) leaves `FallbackCallbacks::get`
unchanged for every query (mock B, method n) with B different from A or n different
from m.  So in a session whose table is `fb` with that fallback added, a call on
(B, n) invokes a fallback only if it is the latest one that `fb` already held for
(B, n), and none if `fb` held none: a fallback registered on one mock is not invoked
by a call on another mock, and one registered for an overload or const variant is not
returned for the other overload or variant, whatever the pointer values are. -/
theorem fallback_isolation (fb : FallbackCallbacks) (mockA : Nat) (m : Method)
    (callback : Callback) (mockB : Nat) (n : Method) (h : mockB ≠ mockA ∨ n ≠ m) :
    (fb.add mockA m callback).get mockB n = fb.get mockB n ∧
    (∀ {V U : Type} (env : Env V U) (default_callback : List V → World U → Outcome V U)
      (args : List V) (w : World U),
      w.repo.state_.fallback_callbacks = fb.add mockA m callback →
      (∀ f a, Event.fallback f a ∈
          (MockBase.callInternal env default_callback mockB n args w).events →
        (fb.registered mockB n).getLast? = some f) ∧
      (fb.registered mockB n = [] → ∀ f a, Event.fallback f a ∉
        (MockBase.callInternal env default_callback mockB n args w).events)) ∧
    (∀ (mock : Nat) (p : Nat),
      (fb.add mock InterfaceTest.overrideTestInt callback).get mock
          ⟨InterfaceTest.overrideTestString.type, p⟩ =
        fb.get mock ⟨InterfaceTest.overrideTestString.type, p⟩ ∧
      (fb.add mock InterfaceTest.constTest callback).get mock
          ⟨InterfaceTest.constTestConst.type, p⟩ =
        fb.get mock ⟨InterfaceTest.constTestConst.type, p⟩ ∧
      (FallbackCallbacks.add ⟨[]⟩ mock InterfaceTest.overrideTestInt callback).get mock
          ⟨InterfaceTest.overrideTestString.type, p⟩ = none ∧
      (FallbackCallbacks.add ⟨[]⟩ mock InterfaceTest.constTest callback).get mock
          ⟨InterfaceTest.constTestConst.type, p⟩ = none) := by
  have hget : ∀ (fb0 : FallbackCallbacks) (A : Nat) (m0 : Method) (B : Nat) (n0 : Method),
      (B ≠ A ∨ n0 ≠ m0) → (fb0.add A m0 callback).get B n0 = fb0.get B n0 := by
    intro fb0 A m0 B n0 h0
    rw [get_eq_getLast?, get_eq_getLast?, registered_add_other fb0 A m0 callback B n0 h0]
  have hover : ∀ p : Nat, (⟨InterfaceTest.overrideTestString.type, p⟩ : Method) ≠
      InterfaceTest.overrideTestInt := by
    intro p hc
    simp [InterfaceTest.overrideTestInt, InterfaceTest.overrideTestString,
      InterfaceTest.memberType] at hc
  have hconst : ∀ p : Nat, (⟨InterfaceTest.constTestConst.type, p⟩ : Method) ≠
      InterfaceTest.constTest := by
    intro p hc
    simp [InterfaceTest.constTest, InterfaceTest.constTestConst,
      InterfaceTest.memberType] at hc
  refine ⟨hget fb mockA m mockB n h, ?_, ?_⟩
  · intro V U env default_callback args w hw
    have hreg : w.repo.state_.fallback_callbacks.registered mockB n = fb.registered mockB n := by
      rw [hw]
      exact registered_add_other fb mockA m callback mockB n h
    refine ⟨?_, ?_⟩
    · intro f a hmem
      rw [← hreg]
      exact callInternal_fallback_mem env default_callback mockB n args w f a hmem
    · intro hnil f a hmem
      have := callInternal_fallback_mem env default_callback mockB n args w f a hmem
      rw [hreg, hnil] at this
      simp at this
  · intro mock p
    refine ⟨hget fb mock _ mock _ (Or.inr (hover p)), hget fb mock _ mock _ (Or.inr (hconst p)),
      ?_, ?_⟩
    · rw [hget ⟨[]⟩ mock _ mock _ (Or.inr (hover p))]
      rfl
    · rw [hget ⟨[]⟩ mock _ mock _ (Or.inr (hconst p))]
      rfl

/-- C23 on the subcase "Just on call" with a second mock at address 5: the fallback
registered for `returnTest` on the fixture's mock is not found for the other mock. -/
theorem fallback_isolation_witness :
    ((5 : Nat) ≠ InterfaceTest.mock ∨ InterfaceTest.returnTest ≠ InterfaceTest.returnTest) ∧
    InterfaceTest.justOnCall.repo.state_.fallback_callbacks.get 5 InterfaceTest.returnTest =
      none ∧
    InterfaceTest.justOnCall.repo.state_.fallback_callbacks.get InterfaceTest.mock
      InterfaceTest.returnTest = some 123 := by
  have h : (5 : Nat) ≠ InterfaceTest.mock ∨
      InterfaceTest.returnTest ≠ InterfaceTest.returnTest := Or.inl (by decide)
  refine ⟨h, ?_, by decide⟩
  have e : InterfaceTest.justOnCall.repo.state_.fallback_callbacks =
      InterfaceTest.fixture.repo.state_.fallback_callbacks.add InterfaceTest.mock
        InterfaceTest.returnTest 123 := rfl
  rw [e, (fallback_isolation InterfaceTest.fixture.repo.state_.fallback_callbacks
    InterfaceTest.mock InterfaceTest.returnTest 123 5 InterfaceTest.returnTest h).1]
  decide

/-! ## C22: pause and resume are absolute -/

theorem performAll_append_one (r : Repo) (ops : List Repo.Operation) (last : Repo.Operation) :
    r.performAll (ops ++ [last]) = (r.performAll ops).perform last := by
  simp [Repo.performAll, List.foldl_append]

/-- A sequence of `pauseExpectations` and `resumeExpectations` changes nothing but the
paused flag. -/
theorem performAll_pause_resume_frame (ops : List Repo.Operation) :
    ∀ (r : Repo),
      (∀ op ∈ ops, op = Repo.Operation.pauseExpectations ∨
        op = Repo.Operation.resumeExpectations) →
      (r.performAll ops).state_.expected_callback_queue = r.state_.expected_callback_queue ∧
        (r.performAll ops).state_.fallback_callbacks = r.state_.fallback_callbacks ∧
        (r.performAll ops).state_.unexpected_call_handler = r.state_.unexpected_call_handler ∧
        (r.performAll ops).state_.missing_call_handler = r.state_.missing_call_handler ∧
        (r.performAll ops).mocks_ = r.mocks_ := by
  induction ops with
  | nil => intro r _; exact ⟨rfl, rfl, rfl, rfl, rfl⟩
  | cons op ops ih =>
    intro r h
    obtain ⟨i1, i2, i3, i4, i5⟩ := ih (r.perform op)
      (fun o ho => h o (List.mem_cons_of_mem _ ho))
    simp only [Repo.performAll, List.foldl_cons] at i1 i2 i3 i4 i5 ⊢
    rw [i1, i2, i3, i4, i5]
    rcases h op (List.mem_cons_self _ _) with hop | hop <;>
      (subst hop; exact ⟨rfl, rfl, rfl, rfl, rfl⟩)

/-- C22.  `Repo::pauseExpectations` sets the paused flag to true and
`Repo::resumeExpectations` sets it to false, whatever it was; each is idempotent and
overrides the other; neither changes the queue, the fallback table, the handlers or
`mocks_`.  After any sequence of the two the flag is true exactly when the last one
was a pause, and everything else is as before the sequence.  One resume after any
number of pauses gives the state that one resume alone gives, so a call that matches
the queue head is then answered by the head's callback.  In the test case "Pause
expectations" the two inner calls made while paused run the base implementations
(a: 1 to 2, b: 10 to 11) without touching the queue or the throwing unexpected-call
handler, and the session ends resumed with an empty queue. -/
theorem pause_resume_absolute :
    (∀ r : Repo,
      r.pauseExpectations.state_.expectations_paused = true ∧
      r.resumeExpectations.state_.expectations_paused = false ∧
      r.pauseExpectations.pauseExpectations = r.pauseExpectations ∧
      r.resumeExpectations.resumeExpectations = r.resumeExpectations ∧
      r.pauseExpectations.resumeExpectations = r.resumeExpectations ∧
      r.resumeExpectations.pauseExpectations = r.pauseExpectations) ∧
    (∀ r : Repo,
      (r.pauseExpectations.state_.expected_callback_queue = r.state_.expected_callback_queue ∧
        r.pauseExpectations.state_.fallback_callbacks = r.state_.fallback_callbacks ∧
        r.pauseExpectations.state_.unexpected_call_handler =
          r.state_.unexpected_call_handler ∧
        r.pauseExpectations.state_.missing_call_handler = r.state_.missing_call_handler ∧
        r.pauseExpectations.mocks_ = r.mocks_) ∧
      (r.resumeExpectations.state_.expected_callback_queue = r.state_.expected_callback_queue ∧
        r.resumeExpectations.state_.fallback_callbacks = r.state_.fallback_callbacks ∧
        r.resumeExpectations.state_.unexpected_call_handler =
          r.state_.unexpected_call_handler ∧
        r.resumeExpectations.state_.missing_call_handler = r.state_.missing_call_handler ∧
        r.resumeExpectations.mocks_ = r.mocks_)) ∧
    (∀ (r : Repo) (ops : List Repo.Operation) (last : Repo.Operation),
      (∀ op ∈ ops ++ [last], op = Repo.Operation.pauseExpectations ∨
        op = Repo.Operation.resumeExpectations) →
      ((r.performAll (ops ++ [last])).state_.expectations_paused = true ↔
        last = Repo.Operation.pauseExpectations) ∧
      (r.performAll (ops ++ [last])).state_.expected_callback_queue =
        r.state_.expected_callback_queue ∧
      (r.performAll (ops ++ [last])).state_.fallback_callbacks =
        r.state_.fallback_callbacks ∧
      (r.performAll (ops ++ [last])).state_.unexpected_call_handler =
        r.state_.unexpected_call_handler ∧
      (r.performAll (ops ++ [last])).state_.missing_call_handler =
        r.state_.missing_call_handler ∧
      (r.performAll (ops ++ [last])).mocks_ = r.mocks_) ∧
    (∀ (r : Repo) (k : Nat),
      (r.performAll (List.replicate k Repo.Operation.pauseExpectations ++
        [Repo.Operation.resumeExpectations])) = r.resumeExpectations) ∧
    (∀ {V U : Type} (env : Env V U) (default_callback : List V → World U → Outcome V U)
      (self : Nat) (this_method : Method) (args : List V) (w : World U) (k : Nat)
      (head : Expectation) (rest : List Expectation),
      w.repo.state_.expected_callback_queue = ⟨head :: rest⟩ →
      head.mock = self ∧ head.method = this_method →
      (MockBase.callInternal env default_callback self this_method args
        { w with
          repo := w.repo.performAll (List.replicate k Repo.Operation.pauseExpectations ++
            [Repo.Operation.resumeExpectations]) }).events =
        [Event.expected head.callback args]) ∧
    (ClassTest.pauseExpectationsTest.events = [Event.expected 100 []] ∧
      ClassTest.pauseExpectationsTest.result = Except.ok 0 ∧
      ClassTest.pauseExpectationsTest.world.user = ⟨2, 11⟩ ∧
      ClassTest.pauseExpectationsTest.world.repo.state_.expectations_paused = false ∧
      ClassTest.pauseExpectationsTest.world.repo.state_.expected_callback_queue = ⟨[]⟩) := by
  have hrep : ∀ (k : Nat) (r : Repo),
      (r.performAll (List.replicate k Repo.Operation.pauseExpectations ++
        [Repo.Operation.resumeExpectations])) = r.resumeExpectations := by
    intro k
    induction k with
    | zero => intro r; rfl
    | succ k ih =>
      intro r
      have := ih r.pauseExpectations
      simp only [Repo.performAll, List.replicate_succ, List.cons_append, List.foldl_cons]
        at this ⊢
      exact this
  refine ⟨fun r => ⟨rfl, rfl, rfl, rfl, rfl, rfl⟩,
    fun r => ⟨⟨rfl, rfl, rfl, rfl, rfl⟩, ⟨rfl, rfl, rfl, rfl, rfl⟩⟩, ?_, fun r k => hrep k r,
    ?_, ?_⟩
  · intro r ops last h
    have hframe := performAll_pause_resume_frame (ops ++ [last]) r h
    refine ⟨?_, hframe⟩
    rw [performAll_append_one]
    rcases h last (by simp) with hl | hl
    · subst hl
      simp [Repo.perform, Repo.pauseExpectations]
    · subst hl
      simp [Repo.perform, Repo.resumeExpectations]
  · intro V U env default_callback self this_method args w k head rest hq hm
    rw [hrep k w.repo]
    rw [callInternal_of_match env default_callback self this_method args
      { repo := w.repo.resumeExpectations, user := w.user } head rest rfl hq hm]
  · exact ⟨by decide, rfl, by decide, by decide, by decide⟩

/-- C22 on a sequence pause, pause, resume, pause applied to the fixture: the session is
paused, and nothing else has changed. -/
theorem pause_resume_absolute_witness :
    (∀ op ∈ [Repo.Operation.pauseExpectations, Repo.Operation.pauseExpectations,
        Repo.Operation.resumeExpectations] ++ [Repo.Operation.pauseExpectations],
      op = Repo.Operation.pauseExpectations ∨ op = Repo.Operation.resumeExpectations) ∧
    (InterfaceTest.expectationsOrder.repo.performAll
      ([Repo.Operation.pauseExpectations, Repo.Operation.pauseExpectations,
        Repo.Operation.resumeExpectations] ++
        [Repo.Operation.pauseExpectations])).state_.expectations_paused = true ∧
    (InterfaceTest.expectationsOrder.repo.performAll
      ([Repo.Operation.pauseExpectations, Repo.Operation.pauseExpectations,
        Repo.Operation.resumeExpectations] ++
        [Repo.Operation.pauseExpectations])).state_.expected_callback_queue =
      InterfaceTest.expectationsOrder.repo.state_.expected_callback_queue := by
  have h : ∀ op ∈ [Repo.Operation.pauseExpectations, Repo.Operation.pauseExpectations,
        Repo.Operation.resumeExpectations] ++ [Repo.Operation.pauseExpectations],
      op = Repo.Operation.pauseExpectations ∨ op = Repo.Operation.resumeExpectations := by
    decide
  have t := pause_resume_absolute.2.2.1 InterfaceTest.expectationsOrder.repo
    [Repo.Operation.pauseExpectations, Repo.Operation.pauseExpectations,
      Repo.Operation.resumeExpectations] Repo.Operation.pauseExpectations h
  exact ⟨h, t.1.mpr rfl, t.2.1⟩

/-! ## C21: out-of-order call with a fallback -/

/-- With missing-call handlers that leave the repository as they find it, whatever the
destructor passes to a handler is the description of an entry that was in the queue
when the destructor started, and the destructor invokes nothing but missing-call
handlers. -/
theorem destructor_events_mem {V U : Type} (env : Env V U)
    (hframe : ∀ h d w0, (env.missing_call h d w0).2.repo = w0.repo)
    (es : List Expectation) :
    ∀ (w : World U) (fuel : Nat) (t : Teardown V U),
      w.repo.state_.expected_callback_queue = ⟨es⟩ →
      Repo.destructor env fuel w = some t →
      (∀ h d, Event.missing h d ∈ t.events → d ∈ es.map (fun e => e.description)) ∧
        (∀ ev ∈ t.events, ∃ h d, ev = Event.missing h d) := by
  induction es with
  | nil =>
    intro w fuel t hq ht
    have : t.events = [] := by
      cases fuel <;>
        (simp [Repo.destructor, hq, ExpectedCallbackQueue.isEmpty] at ht
         rw [← ht])
    rw [this]
    exact ⟨by simp, by simp⟩
  | cons e rest ih =>
    intro w fuel t hq ht
    cases fuel with
    | zero => simp [Repo.destructor, hq, ExpectedCallbackQueue.isEmpty] at ht
    | succ fuel =>
      simp only [Repo.destructor, hq, ExpectedCallbackQueue.isEmpty, List.isEmpty_cons,
        Bool.not_false, if_true, ExpectedCallbackQueue.peekDescription,
        ExpectedCallbackQueue.pop, List.tail_cons] at ht
      cases hh : (w.setQueue ⟨rest⟩).repo.state_.missing_call_handler with
      | none =>
        rw [hh] at ht
        simp only at ht
        obtain ⟨i1, i2⟩ := ih (w.setQueue ⟨rest⟩) fuel t rfl ht
        refine ⟨?_, i2⟩
        intro h d hmem
        simp only [List.map_cons, List.mem_cons]
        exact Or.inr (i1 h d hmem)
      | some handler =>
        rw [hh] at ht
        simp only at ht
        cases hr : (env.missing_call handler e.description (w.setQueue ⟨rest⟩)).1 with
        | error ex =>
          rw [hr] at ht
          simp only [Option.some.injEq] at ht
          rw [← ht]
          refine ⟨?_, ?_⟩
          · intro h d hmem
            simp at hmem
            simp [hmem.2]
          · intro ev hev
            simp at hev
            exact ⟨handler, e.description, hev⟩
        | ok u =>
          rw [hr] at ht
          simp only [Option.map_eq_some'] at ht
          obtain ⟨t2, ht2, hteq⟩ := ht
          have hq2 : (env.missing_call handler e.description
              (w.setQueue ⟨rest⟩)).2.repo.state_.expected_callback_queue = ⟨rest⟩ := by
            rw [hframe]; rfl
          obtain ⟨i1, i2⟩ := ih _ fuel t2 hq2 ht2
          rw [← hteq]
          refine ⟨?_, ?_⟩
          · intro h d hmem
            simp only [List.mem_cons, Event.missing.injEq] at hmem
            simp only [List.map_cons, List.mem_cons]
            rcases hmem with hmem | hmem
            · exact Or.inl hmem.2
            · exact Or.inr (i1 h d hmem)
          · intro ev hev
            simp only [List.mem_cons] at hev
            rcases hev with hev | hev
            · exact ⟨handler, e.description, hev⟩
            · exact i2 ev hev

/-- C21 (amended).  In an unpaused session with queue `head :: rest`, a call whose
(mock, method) differs from the head's and for which a fallback is registered pops the
head, invokes the latest registered fallback on the state whose queue is `rest`, and
yields its outcome; it invokes neither the head's callback nor the unexpected-call
handler nor the default callback.  If the fallback and the missing-call handlers leave
the repository as they find it, a teardown that follows reports only entries of
`rest`: the destructor invokes nothing but the missing-call handler, every description
it passes belongs to an entry of `rest`, and the description of the popped head is not
passed when no entry of `rest` carries the same one; with a handler that returns, the
reports are exactly those of `rest`, in order. -/
theorem out_of_order_with_fallback {V U : Type} (env : Env V U)
    (default_callback : List V → World U → Outcome V U) (self : Nat) (this_method : Method)
    (args : List V) (w : World U) (head : Expectation) (rest : List Expectation)
    (fallback : Callback)
    (hp : w.repo.state_.expectations_paused = false)
    (hq : w.repo.state_.expected_callback_queue = ⟨head :: rest⟩)
    (hm : ¬ (head.mock = self ∧ head.method = this_method))
    (hf : (w.repo.state_.fallback_callbacks.registered self this_method).getLast? =
      some fallback) :
    MockBase.callInternal env default_callback self this_method args w =
        ⟨(env.invoke fallback args (w.setQueue ⟨rest⟩)).1,
          (env.invoke fallback args (w.setQueue ⟨rest⟩)).2,
          [Event.fallback fallback args]⟩ ∧
    ((env.invoke fallback args (w.setQueue ⟨rest⟩)).2.repo = (w.setQueue ⟨rest⟩).repo →
      (∀ h d w0, (env.missing_call h d w0).2.repo = w0.repo) →
      (∀ fuel t,
        Repo.destructor env fuel
          (MockBase.callInternal env default_callback self this_method args w).world =
            some t →
        (∀ ev ∈ t.events, ∃ h d, ev = Event.missing h d) ∧
        (∀ h d, Event.missing h d ∈ t.events → d ∈ rest.map (fun e => e.description)) ∧
        (head.description ∉ rest.map (fun e => e.description) →
          ∀ h, Event.missing h head.description ∉ t.events)) ∧
      (∀ handler fuel, w.repo.state_.missing_call_handler = some handler →
        (∀ d w0, (env.missing_call handler d w0).1 = Except.ok ()) →
        rest.length ≤ fuel →
        ∃ t, Repo.destructor env fuel
            (MockBase.callInternal env default_callback self this_method args w).world =
              some t ∧
          t.events = rest.map (fun e => Event.missing handler e.description))) := by
  have hd : MockBase.callInternal env default_callback self this_method args w =
      ⟨(env.invoke fallback args (w.setQueue ⟨rest⟩)).1,
        (env.invoke fallback args (w.setQueue ⟨rest⟩)).2,
        [Event.fallback fallback args]⟩ := by
    rw [callInternal_of_mismatch env default_callback self this_method args w head rest hp hq
      hm]
    exact callInternalTail_of_fallback env default_callback self this_method args _ _ fallback
      (by simpa using hf)
  refine ⟨hd, ?_⟩
  intro hfr hframe
  have hq2 : (MockBase.callInternal env default_callback self this_method args
      w).world.repo.state_.expected_callback_queue = ⟨rest⟩ := by
    rw [hd]
    simp only
    rw [hfr]
    rfl
  refine ⟨?_, ?_⟩
  · intro fuel t ht
    obtain ⟨h1, h2⟩ := destructor_events_mem env hframe rest _ fuel t hq2 ht
    exact ⟨h2, h1, fun hnot h hmem => hnot (h1 h _ hmem)⟩
  · intro handler fuel hh hok hlen
    have hh2 : (MockBase.callInternal env default_callback self this_method args
        w).world.repo.state_.missing_call_handler = some handler := by
      rw [hd]
      simp only
      rw [hfr]
      exact hh
    obtain ⟨t, ht, _, hte, _⟩ := destructor_drains env handler hok (hframe handler) rest _ fuel
      hh2 hq2 hlen
    exact ⟨t, ht, hte⟩

/-- C21 (amended) on the expectations of "Expectations order" with a fallback on
`returnTest`:
`returnTest()` pops "call 1" and returns 123; the teardown that follows reports
"call 2" only. -/
theorem out_of_order_with_fallback_witness :
    InterfaceTest.orderWithFallback.repo.state_.expectations_paused = false ∧
    InterfaceTest.orderWithFallback.repo.state_.expected_callback_queue =
      ⟨[⟨"call 1", InterfaceTest.mock, InterfaceTest.voidArgTest, 0⟩,
        ⟨"call 2", InterfaceTest.mock, InterfaceTest.oneArgTest, 0⟩]⟩ ∧
    ¬ (InterfaceTest.mock = InterfaceTest.mock ∧
      InterfaceTest.voidArgTest = InterfaceTest.returnTest) ∧
    (InterfaceTest.orderWithFallback.repo.state_.fallback_callbacks.registered
      InterfaceTest.mock InterfaceTest.returnTest).getLast? = some 123 ∧
    MockBase.callInternal InterfaceTest.env InterfaceTest.default_callback InterfaceTest.mock
      InterfaceTest.returnTest [] InterfaceTest.orderWithFallback =
        ⟨Except.ok 123,
          InterfaceTest.orderWithFallback.setQueue
            ⟨[⟨"call 2", InterfaceTest.mock, InterfaceTest.oneArgTest, 0⟩]⟩,
          [Event.fallback 123 []]⟩ ∧
    (Repo.destructor InterfaceTest.env 2
      (MockBase.callInternal InterfaceTest.env InterfaceTest.default_callback
        InterfaceTest.mock InterfaceTest.returnTest []
        InterfaceTest.orderWithFallback).world).map (fun t => t.events) =
      some [Event.missing 1 "call 2"] :=
  ⟨by decide, by decide, by decide, by decide,
    (out_of_order_with_fallback InterfaceTest.env InterfaceTest.default_callback
      InterfaceTest.mock InterfaceTest.returnTest [] InterfaceTest.orderWithFallback
      ⟨"call 1", InterfaceTest.mock, InterfaceTest.voidArgTest, 0⟩
      [⟨"call 2", InterfaceTest.mock, InterfaceTest.oneArgTest, 0⟩] 123
      (by decide) (by decide) (by decide) (by decide)).1,
    by decide⟩

/-- C8 as stated fails when the fallback records an expectation.  The session is not
paused, its queue is empty, and the fallback registered for `returnTest` calls
`repo.expectCall`.  The call `returnTest()` invokes that fallback and nothing else and
returns its result, but the queue then holds the new expectation: it is not left
empty. -/
theorem fallback_on_empty_queue_recording_counterexample :
    RecordingFallback.unpaused.repo.state_.expectations_paused = false ∧
    RecordingFallback.unpaused.repo.state_.expected_callback_queue = ⟨[]⟩ ∧
    (RecordingFallback.unpaused.repo.state_.fallback_callbacks.registered InterfaceTest.mock
      InterfaceTest.returnTest).getLast? = some 1 ∧
    (MockBase.callInternal RecordingFallback.env InterfaceTest.default_callback
      InterfaceTest.mock InterfaceTest.returnTest [] RecordingFallback.unpaused).result =
        Except.ok 0 ∧
    (MockBase.callInternal RecordingFallback.env InterfaceTest.default_callback
      InterfaceTest.mock InterfaceTest.returnTest [] RecordingFallback.unpaused).events =
        [Event.fallback 1 []] ∧
    (MockBase.callInternal RecordingFallback.env InterfaceTest.default_callback
      InterfaceTest.mock InterfaceTest.returnTest []
      RecordingFallback.unpaused).world.repo.state_.expected_callback_queue.callbacks_ =
        [⟨"late", InterfaceTest.mock, InterfaceTest.voidArgTest, 0⟩] ∧
    (MockBase.callInternal RecordingFallback.env InterfaceTest.default_callback
      InterfaceTest.mock InterfaceTest.returnTest []
      RecordingFallback.unpaused).world.repo.state_.expected_callback_queue ≠ ⟨[]⟩ := by
  refine ⟨by decide, by decide, by decide, rfl, by decide, by decide, by decide⟩

/-- C21 as stated fails in its teardown part, in three ways; in each the session is
not paused, the call `returnTest()` differs from the queue head, finds a fallback,
pops the head and invokes the fallback only, and the teardown that follows still
passes the description of the popped head to the missing-call handler.  First, the
entry behind the head carries the same description "dup".  Second, the fallback
records an expectation under the head's description "late".  Third, the missing-call
handler records an expectation under the head's description "again" when it receives
"call 1". -/
theorem out_of_order_with_fallback_teardown_counterexample :
    (InterfaceTest.duplicateDescriptions.repo.state_.expectations_paused = false ∧
      InterfaceTest.duplicateDescriptions.repo.state_.expected_callback_queue =
        ⟨[⟨"dup", InterfaceTest.mock, InterfaceTest.voidArgTest, 0⟩,
          ⟨"dup", InterfaceTest.mock, InterfaceTest.oneArgTest, 0⟩]⟩ ∧
      (InterfaceTest.duplicateDescriptions.repo.state_.fallback_callbacks.registered
        InterfaceTest.mock InterfaceTest.returnTest).getLast? = some 123 ∧
      (MockBase.callInternal InterfaceTest.env InterfaceTest.default_callback
        InterfaceTest.mock InterfaceTest.returnTest []
        InterfaceTest.duplicateDescriptions).events = [Event.fallback 123 []] ∧
      (∀ fuel : Nat,
        (Repo.destructor InterfaceTest.env (fuel + 1)
          (MockBase.callInternal InterfaceTest.env InterfaceTest.default_callback
            InterfaceTest.mock InterfaceTest.returnTest []
            InterfaceTest.duplicateDescriptions).world).map
            (fun t => (t.result, t.events)) =
          some (Except.ok (), [Event.missing 2 "dup"]))) ∧
    (RecordingFallback.lateHead.repo.state_.expectations_paused = false ∧
      RecordingFallback.lateHead.repo.state_.expected_callback_queue =
        ⟨[⟨"late", InterfaceTest.mock, InterfaceTest.oneArgTest, 0⟩]⟩ ∧
      (RecordingFallback.lateHead.repo.state_.fallback_callbacks.registered
        InterfaceTest.mock InterfaceTest.returnTest).getLast? = some 1 ∧
      (MockBase.callInternal RecordingFallback.env InterfaceTest.default_callback
        InterfaceTest.mock InterfaceTest.returnTest []
        RecordingFallback.lateHead).events = [Event.fallback 1 []] ∧
      (∀ fuel : Nat,
        (Repo.destructor RecordingFallback.env (fuel + 1)
          (MockBase.callInternal RecordingFallback.env InterfaceTest.default_callback
            InterfaceTest.mock InterfaceTest.returnTest []
            RecordingFallback.lateHead).world).map
            (fun t => (t.result, t.events)) =
          some (Except.ok (), [Event.missing 2 "late"]))) ∧
    (RecordingHandler.againHead.repo.state_.expectations_paused = false ∧
      RecordingHandler.againHead.repo.state_.expected_callback_queue =
        ⟨[⟨"again", InterfaceTest.mock, InterfaceTest.voidArgTest, 0⟩,
          ⟨"call 1", InterfaceTest.mock, InterfaceTest.oneArgTest, 0⟩]⟩ ∧
      (RecordingHandler.againHead.repo.state_.fallback_callbacks.registered
        InterfaceTest.mock InterfaceTest.returnTest).getLast? = some 123 ∧
      (MockBase.callInternal RecordingHandler.env InterfaceTest.default_callback
        InterfaceTest.mock InterfaceTest.returnTest []
        RecordingHandler.againHead).events = [Event.fallback 123 []] ∧
      (∀ fuel : Nat,
        (Repo.destructor RecordingHandler.env (fuel + 2)
          (MockBase.callInternal RecordingHandler.env InterfaceTest.default_callback
            InterfaceTest.mock InterfaceTest.returnTest []
            RecordingHandler.againHead).world).map
            (fun t => (t.result, t.events)) =
          some (Except.ok (), [Event.missing 5 "call 1", Event.missing 5 "again"]))) := by
  refine ⟨⟨by decide, by decide, by decide, by decide, ?_⟩,
    ⟨by decide, by decide, by decide, by decide, ?_⟩,
    ⟨by decide, by decide, by decide, by decide, ?_⟩⟩
  · intro fuel
    cases fuel <;> rfl
  · intro fuel
    cases fuel <;> rfl
  · intro fuel
    cases fuel <;> rfl

end comock
